import Mathlib

/-!
# Decent RA API: the service-provider side of SGX remote attestation

A shallow embedding of `RaProcessorSp` (Common/SGX/RaProcessorSp.cpp).

Conventions of the embedding.

* Bytes are natural numbers, byte strings are lists, fixed-size C arrays are lists
  that carry their length.
* The object state is passed explicitly: every member function takes the object
  and returns the object after the call together with its out-parameters.
* A C++ exception does not roll the object back, so a call returns the state
  reached at the throw and an `Outcome` that says how the call ended.
* An out-parameter that the function assigns as a whole is an `Option`: `none`
  means that the call never wrote it.
* The cryptographic library, the IAS connector and the report parser are not
  part of the translated sources. They are collected in `Env`, one field per
  external function.
-/

namespace Decent

/-! ## Bytes and fixed-size arrays -/

abbrev Bytes := List Nat

/-- Fixed-size byte array, the counterpart of `uint8_t[n]`. -/
abbrev FixedBytes (n : Nat) := { l : List Nat // l.length = n }

/-- Zero-initialised array, the value of `T()` and of `= { 0 }` for a byte array. -/
def FixedBytes.zero (n : Nat) : FixedBytes n := ⟨List.replicate n 0, List.length_replicate n 0⟩

/-- Little-endian encoding of the low `n` bytes of an unsigned integer. -/
def leBytes : Nat → Nat → Bytes
  | 0, _ => []
  | n + 1, v => (v % 256) :: leBytes n (v / 256)

/-- Value of a little-endian byte string, the inverse of `leBytes`. -/
def leValue : Bytes → Nat
  | [] => 0
  | b :: bs => b + 256 * leValue bs

/-- Overwrite `src.length` bytes of `buf` starting at offset `off` (a `memcpy` into
a buffer, or a store to a field of a struct laid over the buffer). -/
def writeAt (buf : Bytes) (off : Nat) (src : Bytes) : Bytes :=
  buf.take off ++ src ++ buf.drop (off + src.length)

/-- Model of `std::vector<uint8_t>::resize(n)`: keep the first `n` bytes, append zeros. -/
def resize (buf : Bytes) (n : Nat) : Bytes :=
  (buf ++ List.replicate (n - buf.length) 0).take n

/-- Model of `consttime_memequal(a, b, n)`: the first `n` bytes of both regions are
equal. The C function returns 1 for equal and 0 otherwise; only its truth value
is used by the callers. -/
def consttime_memequal (a b : Bytes) (n : Nat) : Bool :=
  decide (a.take n = b.take n)

/-! ## Sizes of the SGX structures (sgx_key_exchange.h, sgx_quote.h) -/

def GENERAL_128BIT_16BYTE_SIZE : Nat := 16
def GENERAL_256BIT_32BYTE_SIZE : Nat := 32
def sizeof_sgx_mac_t : Nat := 16
def sizeof_sgx_ec256_public_t : Nat := 64
def sizeof_sgx_spid_t : Nat := 16
def sizeof_sgx_ec_key_128bit_t : Nat := 16
def sizeof_sgx_report_data_t : Nat := 64
def sizeof_sgx_quote_t : Nat := 436
def sizeof_signature_len : Nat := 4
/-- Value of `offsetof(sgx_ra_msg2_t, mac)`: g_b, spid, quote_type, kdf_id, sign_gb_ga. -/
def offsetof_msg2_mac : Nat := 148
/-- Value of `offsetof(sgx_ra_msg2_t, sig_rl_size)`. -/
def offsetof_msg2_sig_rl_size : Nat := 164
def sizeof_sgx_ra_msg2_t : Nat := 168
/-- Offset of `report_body.report_data` inside `sgx_quote_t`. -/
def offsetof_quote_report_data : Nat := 368
def SGX_DEFAULT_AES_CMAC_KDF_ID : Nat := 1
def IAS_REQUEST_NONCE_SIZE : Nat := 32

/-! ## Key and message types -/

/-- Counterpart of `general_secp256r1_public_t` (general_key_types.h); `sgx_ec256_public_t`
has the same packed layout (gx, gy). -/
structure general_secp256r1_public_t where
  x : FixedBytes 32
  y : FixedBytes 32
deriving DecidableEq

/-- The 64 bytes of a public key as they lie in memory. -/
def general_secp256r1_public_t.bytes (k : general_secp256r1_public_t) : Bytes :=
  k.x.val ++ k.y.val

/-- Value-initialised public key (`m_myEncrKey()`). -/
def general_secp256r1_public_t.zero : general_secp256r1_public_t :=
  ⟨FixedBytes.zero 32, FixedBytes.zero 32⟩

abbrev sgx_ec256_public_t := general_secp256r1_public_t

/-- Counterpart of `SgxEc256Type2General`: both types have the same layout, the
conversion is a reinterpretation of the same 64 bytes. -/
def SgxEc256Type2General (k : sgx_ec256_public_t) : general_secp256r1_public_t := k

/-- Counterpart of `general_secp256r1_signature_t` and `sgx_ec256_signature_t`. -/
structure general_secp256r1_signature_t where
  x : FixedBytes 32
  y : FixedBytes 32
deriving DecidableEq

abbrev G128BitSecretKeyWrap := FixedBytes 16
abbrev G256BitSecretKeyWrap := FixedBytes 32
abbrev General256Hash := FixedBytes 32
abbrev sgx_spid_t := FixedBytes 16
abbrev sgx_report_data_t := FixedBytes 64
abbrev sgx_quote_t := FixedBytes 436

/-- The field `report_body.report_data` of a quote. -/
def sgx_quote_t.report_data (q : sgx_quote_t) : sgx_report_data_t :=
  ⟨(q.val.drop offsetof_quote_report_data).take sizeof_sgx_report_data_t, by
    simp [q.property, offsetof_quote_report_data, sizeof_sgx_report_data_t]⟩

/-- An EC key pair object; only its private scalar identifies it. -/
structure EcKeyPair where
  priv : Nat
deriving DecidableEq

/-- The fields of `sgx_ra_config` that the processor reads; the remaining fields are
kept as bytes. -/
structure sgx_ra_config where
  linkable_sign : Nat
  enable_pse : Nat
  ckdf_id : Nat
  other : Bytes
deriving DecidableEq

structure sgx_ra_msg0s_t where
  extended_grp_id : Nat
deriving DecidableEq

structure sgx_ra_msg0r_t where
  ra_config : sgx_ra_config
  sp_pub_key : sgx_ec256_public_t
deriving DecidableEq

structure sgx_ra_msg1_t where
  g_a : sgx_ec256_public_t
  gid : FixedBytes 4
deriving DecidableEq

/-- Counterpart of `sgx_ra_msg3_t`. The flexible array member `quote` stands for the
bytes that lie in memory behind the fixed part of the message. -/
structure sgx_ra_msg3_t where
  mac : FixedBytes 16
  g_a : sgx_ec256_public_t
  ps_sec_prop : FixedBytes 256
  quote : Bytes
deriving DecidableEq

/-- The bytes of a msg3 that follow its `mac` field. -/
def sgx_ra_msg3_t.afterMac (m : sgx_ra_msg3_t) : Bytes :=
  m.g_a.bytes ++ m.ps_sec_prop.val ++ m.quote

/-- The whole msg3 as it lies in memory. -/
def sgx_ra_msg3_t.bytes (m : sgx_ra_msg3_t) : Bytes :=
  m.mac.val ++ m.afterMac

/-- The fields of `sgx_ias_report_t` that the processor reads; the remaining fields
(report id, time stamp, status values) are kept as bytes. -/
structure sgx_ias_report_t where
  m_quote : sgx_quote_t
  m_pse_hash : FixedBytes 32
  m_rest : Bytes
deriving DecidableEq

/-- Value of `sgx_ias_report_t()`. -/
def sgx_ias_report_t.zero : sgx_ias_report_t :=
  ⟨FixedBytes.zero 436, FixedBytes.zero 32, []⟩

structure sgx_ra_msg4_t where
  report : sgx_ias_report_t
  is_accepted : Nat
deriving DecidableEq

/-- How a call ended: it returned, it threw an exception with the given message, or
it dereferenced a null pointer (undefined behaviour in C++). -/
inductive Outcome where
  | returned
  | thrown (what : String)
  | undefined (why : String)
deriving DecidableEq, Repr

/-- Whether the call ended with an exception. -/
def Outcome.isThrown : Outcome → Bool
  | .thrown _ => true
  | _ => false

/-- Signature of `SgxReportDataVerifier`: the default verifier names its parameters
`initData` and `expected`. -/
abbrev SgxReportDataVerifier :=
  (initData : sgx_report_data_t) → (expected : sgx_report_data_t) → Bool

abbrev SgxQuoteVerifier := sgx_quote_t → Bool

/-! ## External collaborators -/

/-- Result of `StatConnector::GetQuoteReport`: its return value and the three strings
it leaves in its out-parameters. -/
structure QuoteReportResult where
  ok : Bool
  iasReportStr : String
  reportSign : String
  reportCert : String

/-- The functions that `RaProcessorSp` calls and whose code is outside the translated
sources. `simulating` is the compile-time flag SIMULATING_ENCLAVE. Values drawn
from the random generator are fixed per environment. -/
structure Env where
  simulating : Bool
  /-- `Hasher<HashType::SHA256>` over the concatenation of the batched items. -/
  SHA256 : Bytes → General256Hash
  /-- `CMACer<CipherType::AES, 16, CipherMode::ECB>(key).Batched`. -/
  CMAC : G128BitSecretKeyWrap → Bytes → FixedBytes 16
  /-- `CKDF<CipherType::AES, 16, CipherMode::ECB>(sharedKey, label, out)`. -/
  CKDF : G256BitSecretKeyWrap → String → G128BitSecretKeyWrap
  /-- `EcKeyPair::DeriveSharedKey`; `none` when the library throws. -/
  DeriveSharedKey : EcKeyPair → general_secp256r1_public_t → Option G256BitSecretKeyWrap
  /-- `EcKeyPair::ToPublicBinary`. -/
  ToPublicBinary : EcKeyPair → general_secp256r1_public_t
  /-- `EcKeyPair::Sign<HashType::SHA256>`. -/
  Sign : EcKeyPair → General256Hash → general_secp256r1_signature_t
  /-- The key pair that `Init` generates. -/
  generatedKeyPair : EcKeyPair
  /-- `Drbg::RandContainer`: the random bytes that fill a container of the given size. -/
  RandContainer : (n : Nat) → FixedBytes n
  /-- Value of a default-constructed `G128BitSecretKeyWrap`. -/
  defaultKey : G128BitSecretKeyWrap
  /-- `Ias::CheckRaConfigValidaty`. -/
  CheckRaConfigValidaty : sgx_ra_config → Bool
  /-- `StatConnector::GetRevocationList`; `none` when it returns false. -/
  GetRevocationList : Nat → FixedBytes 4 → Option String
  /-- `cppcodec::base64_rfc4648::decode`; `none` when it throws. -/
  base64_decode : String → Option Bytes
  /-- `StatConnector::GetQuoteReport(connector, msg3, msg3Len, nonce, pse, ...)`; the last
  three arguments are the previous contents of the out-parameters. -/
  GetQuoteReport : Nat → sgx_ra_msg3_t → Nat → String → Bool → String → String → String →
    QuoteReportResult
  /-- The pinned certificate `Ias::gsk_IasReportCert`. -/
  gsk_IasReportCert : String
  /-- `X509Cert(chain).ShrinkChain(X509Cert(trusted))` followed by `GetPemChain()`. -/
  ShrinkChain : String → String → String
  /-- `ParseAndVerifyIasReport(out, reportStr, cert, sign, nonce, raConfig, quoteVerifier)`:
  the first argument is the previous content of `out`, the result is the return
  value and the new content of `out`. -/
  ParseAndVerifyIasReport : sgx_ias_report_t → String → String → String → String →
    sgx_ra_config → (sgx_ias_report_t → Bool) → Bool × sgx_ias_report_t
  /-- The bytes of a `sgx_ra_msg4_t` object. -/
  msg4Bytes : sgx_ra_msg4_t → Bytes
  /-- `QuickAesGcmPack(sk, {}, {}, msg4Bin, mk, nullptr, 1024)`. -/
  QuickAesGcmPack : G128BitSecretKeyWrap → Bytes → G128BitSecretKeyWrap → Bytes

/-! ## Base64 and the nonce -/

def base64Alphabet : List Char :=
  "ABCDEFGHIJKLMNOPQRSTUVWXYZabcdefghijklmnopqrstuvwxyz0123456789+/".toList

def base64Char (i : Nat) : Char := base64Alphabet.getD i 'A'

/-- Model of `cppcodec::base64_rfc4648::encode`. -/
def base64_encode : Bytes → List Char
  | [] => []
  | [a] => [base64Char (a % 256 / 4), base64Char (a % 4 * 16), '=', '=']
  | [a, b] =>
    [base64Char (a % 256 / 4), base64Char (a % 4 * 16 + b % 256 / 16),
      base64Char (b % 16 * 4), '=']
  | a :: b :: c :: rest =>
    [base64Char (a % 256 / 4), base64Char (a % 4 * 16 + b % 256 / 16),
      base64Char (b % 16 * 4 + c % 256 / 64), base64Char (c % 64)] ++ base64_encode rest

/-- Model of `ConstructNonce(size)`. -/
def ConstructNonce (env : Env) (size : Nat) : String :=
  let dataSize := (size / 4) * 3
  let randData : Bytes :=
    if env.simulating then List.replicate dataSize 0 else (env.RandContainer dataSize).val
  String.mk (base64_encode randData)

/-! ## The processor object -/

/-- The data members of `RaProcessorSp`. The smart pointers `m_spid`, `m_mySignKey`,
`m_encrKeyPair` and `m_iasReport` may be null (`none`); the two verifiers are
`std::function` objects and may be empty (`none`). -/
structure RaProcessorSp where
  m_raConfig : sgx_ra_config
  m_spid : Option sgx_spid_t
  m_iasConnectorPtr : Nat
  m_mySignKey : Option EcKeyPair
  m_encrKeyPair : Option EcKeyPair
  m_myEncrKey : general_secp256r1_public_t
  m_peerEncrKey : general_secp256r1_public_t
  m_nonce : String
  m_smk : G128BitSecretKeyWrap
  m_mk : G128BitSecretKeyWrap
  m_sk : G128BitSecretKeyWrap
  m_vk : G128BitSecretKeyWrap
  m_rpDataVrfy : Option SgxReportDataVerifier
  m_quoteVrfy : Option SgxQuoteVerifier
  m_iasReport : Option sgx_ias_report_t
  m_isAttested : Bool
  m_iasReportStr : String
  m_reportCert : String
  m_reportSign : String

/-- Model of `sk_defaultRpDataVrfy`. -/
def sk_defaultRpDataVrfy (env : Env) : SgxReportDataVerifier :=
  fun initData expected =>
    if env.simulating then true
    else consttime_memequal initData.val expected.val sizeof_sgx_report_data_t

/-- Model of the constructor `RaProcessorSp::RaProcessorSp`. -/
def RaProcessorSp.new (env : Env) (iasConnectorPtr : Nat) (mySignKey : Option EcKeyPair)
    (spidPtr : Option sgx_spid_t) (rpDataVrfy : Option SgxReportDataVerifier)
    (quoteVrfy : Option SgxQuoteVerifier) (raConfig : sgx_ra_config) : RaProcessorSp :=
  { m_raConfig := raConfig
    m_spid := spidPtr
    m_iasConnectorPtr := iasConnectorPtr
    m_mySignKey := mySignKey
    m_encrKeyPair := none
    m_myEncrKey := general_secp256r1_public_t.zero
    m_peerEncrKey := general_secp256r1_public_t.zero
    m_nonce := ""
    m_smk := env.defaultKey
    m_mk := env.defaultKey
    m_sk := env.defaultKey
    m_vk := env.defaultKey
    m_rpDataVrfy := rpDataVrfy
    m_quoteVrfy := quoteVrfy
    m_iasReport := none
    m_isAttested := false
    m_iasReportStr := ""
    m_reportCert := ""
    m_reportSign := "" }

/-- Result of a member function without out-parameters. -/
structure CallResult where
  self : RaProcessorSp
  outcome : Outcome

/-- Model of `RaProcessorSp::CheckExGrpId`. -/
def CheckExGrpId (id : Nat) : Bool := id == 0

/-- Model of `RaProcessorSp::CheckKeyDerivationFuncId`. -/
def CheckKeyDerivationFuncId (id : Nat) : Bool := id == SGX_DEFAULT_AES_CMAC_KDF_ID

/-- Model of `RaProcessorSp::Init`. -/
def RaProcessorSp.Init (env : Env) (self : RaProcessorSp) : CallResult :=
  let s1 := { self with
    m_encrKeyPair := some env.generatedKeyPair
    m_nonce := ConstructNonce env IAS_REQUEST_NONCE_SIZE
    m_iasReport := some sgx_ias_report_t.zero }
  match s1.m_encrKeyPair, s1.m_mySignKey with
  | some encrKeyPair, some _ =>
    let s2 := { s1 with m_myEncrKey := env.ToPublicBinary encrKeyPair }
    if !env.CheckRaConfigValidaty s2.m_raConfig then
      ⟨s2, .thrown "RA config given to RaProcessorSp::Init is invalid."⟩
    else if !CheckKeyDerivationFuncId s2.m_raConfig.ckdf_id then
      ⟨s2, .thrown
        "Key derivation function ID in RA config given to RaProcessorSp::Init is invalid."⟩
    else ⟨s2, .returned⟩
  | _, _ => ⟨s1, .thrown "Failed to init RaProcessorSp, because keys are invalid."⟩

/-- Result of `ProcessMsg0`: `msg0r` is the out-parameter. -/
structure ProcessMsg0Result where
  self : RaProcessorSp
  msg0r : Option sgx_ra_msg0r_t
  outcome : Outcome

/-- Model of `RaProcessorSp::GetMsg0r`; `none` when `m_mySignKey` is null. -/
def RaProcessorSp.GetMsg0r (env : Env) (self : RaProcessorSp) : Option sgx_ra_msg0r_t :=
  match self.m_mySignKey with
  | some mySignKey =>
    some { ra_config := self.m_raConfig, sp_pub_key := env.ToPublicBinary mySignKey }
  | none => none

/-- Model of `RaProcessorSp::ProcessMsg0`. -/
def RaProcessorSp.ProcessMsg0 (env : Env) (self : RaProcessorSp) (msg0s : sgx_ra_msg0s_t) :
    ProcessMsg0Result :=
  if !CheckExGrpId msg0s.extended_grp_id then
    ⟨self, none,
      .thrown "RA extension group ID given by the RA responder is not supported."⟩
  else
    match self.GetMsg0r env with
    | some msg0r => ⟨self, some msg0r, .returned⟩
    | none => ⟨self, none, .undefined "m_mySignKey is null"⟩

/-- Model of `RaProcessorSp::SetPeerEncrPubKey`. The peer key is stored first; the four
subkeys are written only when the shared key was derived. -/
def RaProcessorSp.SetPeerEncrPubKey (env : Env) (self : RaProcessorSp)
    (inEncrPubKey : general_secp256r1_public_t) : CallResult :=
  let s1 := { self with m_peerEncrKey := inEncrPubKey }
  match s1.m_encrKeyPair with
  | none => ⟨s1, .undefined "m_encrKeyPair is null"⟩
  | some encrKeyPair =>
    match env.DeriveSharedKey encrKeyPair inEncrPubKey with
    | none => ⟨s1, .thrown "DeriveSharedKey failed."⟩
    | some sharedKey =>
      ⟨{ s1 with
          m_smk := env.CKDF sharedKey "SMK"
          m_mk := env.CKDF sharedKey "MK"
          m_sk := env.CKDF sharedKey "SK"
          m_vk := env.CKDF sharedKey "VK" }, .returned⟩

/-- Result of `ProcessMsg1`: `msg2` is the content of the in-out vector after the call. -/
structure ProcessMsg1Result where
  self : RaProcessorSp
  msg2 : Bytes
  outcome : Outcome

/-- The msg2 buffer after lines 161 to 167 of `ProcessMsg1`: resized to the header
size, then g_b, spid, quote_type and kdf_id stored. -/
def msg2AfterIds (self : RaProcessorSp) (spid : sgx_spid_t) (msg2 : Bytes) : Bytes :=
  let b0 := resize msg2 sizeof_sgx_ra_msg2_t
  let b1 := writeAt b0 0 (self.m_myEncrKey.bytes.take sizeof_sgx_ec256_public_t)
  let b2 := writeAt b1 64 (spid.val.take sizeof_sgx_spid_t)
  let b3 := writeAt b2 80 (leBytes 2 self.m_raConfig.linkable_sign)
  writeAt b3 82 (leBytes 2 self.m_raConfig.ckdf_id)

/-- Modelled from the spec: the class declaration (RaProcessorSp.h) is not among the
sources. The bytes of the object that start at the member `m_myEncrKey` are that
member directly followed by `m_peerEncrKey`: the order of the constructor
initialisers, both members being packed 64-byte structures, and the order in
which the spec concatenates the two keys. -/
def RaProcessorSp.memFromMyEncrKey (self : RaProcessorSp) : Bytes :=
  self.m_myEncrKey.bytes ++ self.m_peerEncrKey.bytes

/-- The hash that `ProcessMsg1` signs: SHA-256 over `2 * sizeof(sgx_ec256_public_t)`
bytes starting at `&m_myEncrKey`. -/
def hashToBeSigned (env : Env) (self : RaProcessorSp) : General256Hash :=
  env.SHA256 (self.memFromMyEncrKey.take (2 * sizeof_sgx_ec256_public_t))

/-- The msg2 buffer after the signature was stored (line 174). -/
def msg2AfterSign (env : Env) (self : RaProcessorSp) (spid : sgx_spid_t)
    (mySignKey : EcKeyPair) (msg2 : Bytes) : Bytes :=
  let sig := env.Sign mySignKey (hashToBeSigned env self)
  writeAt (writeAt (msg2AfterIds self spid msg2) 84 sig.x.val) 116 sig.y.val

/-- The msg2 buffer after the MAC was stored (line 178): the CMAC under `m_smk` over
the first `offsetof(sgx_ra_msg2_t, mac)` bytes of the buffer. -/
def msg2AfterMac (env : Env) (self : RaProcessorSp) (spid : sgx_spid_t)
    (mySignKey : EcKeyPair) (msg2 : Bytes) : Bytes :=
  let b := msg2AfterSign env self spid mySignKey msg2
  writeAt b offsetof_msg2_mac (env.CMAC self.m_smk (b.take offsetof_msg2_mac)).val

/-- Model of `RaProcessorSp::ProcessMsg1`; `msg2` is the previous content of the
output vector. -/
def RaProcessorSp.ProcessMsg1 (env : Env) (self : RaProcessorSp) (msg1 : sgx_ra_msg1_t)
    (msg2 : Bytes) : ProcessMsg1Result :=
  let r := self.SetPeerEncrPubKey env (SgxEc256Type2General msg1.g_a)
  match r.outcome with
  | .returned =>
    let s := r.self
    match s.m_spid, s.m_mySignKey with
    | some spid, some mySignKey =>
      let b := msg2AfterMac env s spid mySignKey msg2
      match env.GetRevocationList s.m_iasConnectorPtr msg1.gid with
      | none => ⟨s, b, .thrown "RaProcessorSp::ProcessMsg1 failed to get revocation list."⟩
      | some revcList =>
        match env.base64_decode revcList with
        | none => ⟨s, b, .thrown "base64 decoding failed."⟩
        | some revcListBin =>
          ⟨s, writeAt b offsetof_msg2_sig_rl_size (leBytes 4 (revcListBin.length % 2 ^ 32))
                ++ revcListBin, .returned⟩
    | none, _ => ⟨s, resize msg2 sizeof_sgx_ra_msg2_t, .undefined "m_spid is null"⟩
    | some spid, none => ⟨s, msg2AfterIds s spid msg2, .undefined "m_mySignKey is null"⟩
  | o => ⟨r.self, msg2, o⟩

/-- The predicate that `CheckIasReport` hands to the report parser (the lambda
`quoteVerifier`): the report-data verifier gets `oriRD` as its first argument and
the report data of the quote in the IAS report as its second. -/
def quoteVerifier (rpDataVrfy : SgxReportDataVerifier) (quoteVrfy : SgxQuoteVerifier)
    (oriRD : sgx_report_data_t) : sgx_ias_report_t → Bool :=
  fun iasReport =>
    rpDataVrfy oriRD iasReport.m_quote.report_data && quoteVrfy iasReport.m_quote

/-- Model of `RaProcessorSp::CheckIasReport`: the return value and the content of
`outIasReport` after the call. -/
def RaProcessorSp.CheckIasReport (env : Env) (self : RaProcessorSp)
    (outIasReport : sgx_ias_report_t) (iasReportStr reportCert reportSign : String)
    (oriRD : sgx_report_data_t) : Bool × sgx_ias_report_t :=
  match self.m_rpDataVrfy, self.m_quoteVrfy with
  | some rpDataVrfy, some quoteVrfy =>
    env.ParseAndVerifyIasReport outIasReport iasReportStr reportCert reportSign self.m_nonce
      self.m_raConfig (quoteVerifier rpDataVrfy quoteVrfy oriRD)
  | _, _ => (false, outIasReport)

/-- Number of bytes that `ProcessMsg3` hands to the CMAC: `msg3Len - sizeof(sgx_mac_t)`
in `size_t` arithmetic (64 bits), converted to `uint32_t`. -/
def mac_size (msg3Len : Nat) : Nat :=
  (msg3Len + 2 ^ 64 - sizeof_sgx_mac_t) % 2 ^ 64 % 2 ^ 32

/-- The MAC that `ProcessMsg3` computes over msg3 (line 205), for a read that stays
inside the message: `mac_size msg3Len ≤ msg3.afterMac.length`. For a longer read the
code reads behind the end of msg3; the value given here for that case (the read
cut off at the end of the message) has no counterpart in the code, and
`RaProcessorSp.ProcessMsg3Full` treats the call as undefined. -/
def calcMac (env : Env) (self : RaProcessorSp) (msg3 : sgx_ra_msg3_t) (msg3Len : Nat) :
    FixedBytes 16 :=
  env.CMAC self.m_smk (msg3.afterMac.take (mac_size msg3Len))

/-- The local `report_data` of `ProcessMsg3` after line 229: zero-initialised 64 bytes
with the SHA-256 of peer key, own key and VK copied to the front. -/
def expectedReportData (env : Env) (self : RaProcessorSp) : sgx_report_data_t :=
  let reportDataHash := env.SHA256
    (self.m_peerEncrKey.bytes.take sizeof_sgx_ec256_public_t
      ++ self.m_myEncrKey.bytes.take sizeof_sgx_ec256_public_t
      ++ self.m_vk.val.take sizeof_sgx_ec_key_128bit_t)
  ⟨writeAt (FixedBytes.zero 64).val 0 reportDataHash.val, by
    simp [writeAt, FixedBytes.zero, reportDataHash.property]⟩

/-- The state after the call of `GetQuoteReport` in line 240 and its return value. -/
def afterGetQuoteReport (env : Env) (self : RaProcessorSp) (msg3 : sgx_ra_msg3_t)
    (msg3Len : Nat) : Bool × RaProcessorSp :=
  let q := env.GetQuoteReport self.m_iasConnectorPtr msg3 msg3Len self.m_nonce
    (self.m_raConfig.enable_pse != 0) self.m_iasReportStr self.m_reportSign self.m_reportCert
  (q.ok, { self with
    m_iasReportStr := q.iasReportStr, m_reportSign := q.reportSign,
    m_reportCert := q.reportCert })

/-- Outcome of lines 246 to 253: the value of `CheckIasReport`, the report object
that `m_iasReport` points to afterwards and the processor state. -/
structure CheckedReport where
  ok : Bool
  rep : sgx_ias_report_t
  self : RaProcessorSp

/-- The state after lines 246 to 253 and the value of `CheckIasReport`; `rep` is the
object that `m_iasReport` points to. -/
def afterCheckIasReport (env : Env) (self : RaProcessorSp) (rep : sgx_ias_report_t)
    (report_data : sgx_report_data_t) : CheckedReport :=
  let s1 := { self with
    m_reportCert := env.ShrinkChain self.m_reportCert env.gsk_IasReportCert }
  let c := s1.CheckIasReport env rep s1.m_iasReportStr s1.m_reportCert s1.m_reportSign
    report_data
  ⟨c.1, c.2, { s1 with m_iasReport := some c.2 }⟩

/-- The comparison of the quote in msg3 with the quote of the IAS report (line 255); it
is compiled out in a simulating build. -/
def quoteMatches (env : Env) (msg3 : sgx_ra_msg3_t) (rep : sgx_ias_report_t) : Bool :=
  if env.simulating then true
  else consttime_memequal msg3.quote rep.m_quote.val (sizeof_sgx_quote_t - sizeof_signature_len)

/-- The PSE check of lines 264 to 273. -/
def pseMatches (env : Env) (self : RaProcessorSp) (msg3 : sgx_ra_msg3_t)
    (rep : sgx_ias_report_t) : Bool :=
  if self.m_raConfig.enable_pse != 0 then
    consttime_memequal (env.SHA256 msg3.ps_sec_prop.val).val rep.m_pse_hash.val 32
  else true

/-- The `do ... while (false)` block of `ProcessMsg3` (lines 238 to 276); `rep` is the
object that `m_iasReport` points to on entry. The result is the state after the
block and the report object that `m_iasReport` points to then. -/
def verifyQuoteBlock (env : Env) (self : RaProcessorSp) (rep : sgx_ias_report_t)
    (msg3 : sgx_ra_msg3_t) (msg3Len : Nat) (report_data : sgx_report_data_t) :
    RaProcessorSp × sgx_ias_report_t :=
  let g := afterGetQuoteReport env self msg3 msg3Len
  if !g.1 then (g.2, rep)
  else
    let c := afterCheckIasReport env g.2 rep report_data
    if !c.ok || !quoteMatches env msg3 c.rep then (c.self, c.rep)
    else if !pseMatches env c.self msg3 c.rep then (c.self, c.rep)
    else ({ c.self with m_isAttested := true }, c.rep)

/-- The condition under which the block reaches the assignment of line 275: none of
its four `break` statements is taken. -/
def validationsPass (env : Env) (self : RaProcessorSp) (rep : sgx_ias_report_t)
    (msg3 : sgx_ra_msg3_t) (msg3Len : Nat) (report_data : sgx_report_data_t) : Bool :=
  let g := afterGetQuoteReport env self msg3 msg3Len
  let c := afterCheckIasReport env g.2 rep report_data
  g.1 && c.ok && quoteMatches env msg3 c.rep && pseMatches env c.self msg3 c.rep

/-- Result of `ProcessMsg3`: the out-parameters `msg4Pack` and `*outOriRD`. -/
structure ProcessMsg3Result where
  self : RaProcessorSp
  msg4Pack : Option Bytes
  outOriRD : Option sgx_report_data_t
  outcome : Outcome

/-- The msg4 that lines 278 to 280 build from the state after the block. -/
def buildMsg4 (self : RaProcessorSp) (rep : sgx_ias_report_t) : sgx_ra_msg4_t :=
  { report := rep, is_accepted := if self.m_isAttested then 1 else 0 }

/-- The sealing of msg4 in lines 282 to 285. -/
def sealMsg4 (env : Env) (self : RaProcessorSp) (msg4 : sgx_ra_msg4_t) : Bytes :=
  env.QuickAesGcmPack self.m_sk (env.msg4Bytes msg4) self.m_mk

/-- Model of `RaProcessorSp::ProcessMsg3` for the calls in which every callee returns
and the CMAC reads inside msg3; `outOriRD` says whether the caller passed a
non-null pointer. `RaProcessorSp.ProcessMsg3Full` below adds the exits that are
left out here: the exceptions of the callees and the read behind the end of
msg3. -/
def RaProcessorSp.ProcessMsg3 (env : Env) (self : RaProcessorSp) (msg3 : sgx_ra_msg3_t)
    (msg3Len : Nat) (outOriRD : Bool) : ProcessMsg3Result :=
  if !consttime_memequal self.m_peerEncrKey.bytes msg3.g_a.bytes sizeof_sgx_ec256_public_t then
    ⟨self, none, none, .thrown "RaProcessorSp::ProcessMsg3 failed to verify MSG 3."⟩
  else if !consttime_memequal (calcMac env self msg3 msg3Len).val msg3.mac.val 16 then
    ⟨self, none, none, .thrown "RaProcessorSp::ProcessMsg3 failed to verify MSG 3."⟩
  else
    let report_data := expectedReportData env self
    let outRD := if outOriRD then some report_data else none
    match self.m_iasReport with
    | none => ⟨self, none, outRD, .undefined "m_iasReport is null"⟩
    | some rep =>
      let b := verifyQuoteBlock env self rep msg3 msg3Len report_data
      let msg4Pack := sealMsg4 env b.1 (buildMsg4 b.1 b.2)
      if !b.1.m_isAttested then
        ⟨b.1, some msg4Pack, outRD,
          .thrown "RaProcessorSp::ProcessMsg3 rejects the quote; SGX RA failed."⟩
      else ⟨b.1, some msg4Pack, outRD, .returned⟩

/-! ### `ProcessMsg3` with every exit

`ProcessMsg3` has no exception handler, so an exception of a callee ends the call
at that point. Which callee throws in a call is given by `exc`: for each call site
the message of the exception, or `none` when the callee returns. What a throwing
callee has written to its out-parameters before is not modelled: the state at
such an exit is the state before that call. -/

/-- The calls inside `ProcessMsg3` that can end with an exception of their own. -/
inductive Msg3Callee where
  /-- Line 205: `CMACer(m_smk).Batched`. -/
  | CMACer
  /-- Line 221: `Hasher<HashType::SHA256>().Batched`; Hasher.cpp throws in lines 20, 34,
  59, 64 and 69. -/
  | HasherReportData
  /-- Line 240: `StatConnector::GetQuoteReport`. -/
  | GetQuoteReport
  /-- Lines 246 to 251: the two `X509Cert` objects, `ShrinkChain` and `GetPemChain`. -/
  | X509Cert
  /-- Line 253: `CheckIasReport`, which calls `ParseAndVerifyIasReport`. -/
  | CheckIasReport
  /-- Line 267: `Hasher<HashType::SHA256>().Calc`. -/
  | HasherPse
  /-- Lines 282 to 285: the allocation of `msg4Bin` and `QuickAesGcmPack`. -/
  | QuickAesGcmPack
deriving DecidableEq

/-- How a call of `ProcessMsg3` ends. -/
inductive Msg3Exit where
  /-- Normal return. -/
  | returned
  /-- The exception of lines 197 and 208, failed to verify MSG 3. -/
  | failedToVerify
  /-- The exception of line 289, rejects the quote. -/
  | rejected
  /-- An exception thrown by a callee. -/
  | callee (site : Msg3Callee) (msg : String)
  /-- Undefined behaviour. -/
  | undefined (why : String)
deriving DecidableEq

/-- The exit as an `Outcome`. -/
def Msg3Exit.toOutcome : Msg3Exit → Outcome
  | .returned => .returned
  | .failedToVerify => .thrown "RaProcessorSp::ProcessMsg3 failed to verify MSG 3."
  | .rejected => .thrown "RaProcessorSp::ProcessMsg3 rejects the quote; SGX RA failed."
  | .callee _ msg => .thrown msg
  | .undefined why => .undefined why

/-- Result of `ProcessMsg3` in the model with every exit. -/
structure ProcessMsg3FullResult where
  self : RaProcessorSp
  msg4Pack : Option Bytes
  outOriRD : Option sgx_report_data_t
  exit : Msg3Exit

/-- The `do ... while (false)` block of `ProcessMsg3` (lines 238 to 276) with the exits
of its callees: on the left the state, the callee and the message of an exception
that ends the call, on the right the state after the block and the report object
that `m_iasReport` points to. -/
def verifyQuoteBlockFull (env : Env) (exc : Msg3Callee → Option String)
    (self : RaProcessorSp) (rep : sgx_ias_report_t) (msg3 : sgx_ra_msg3_t) (msg3Len : Nat)
    (report_data : sgx_report_data_t) :
    (RaProcessorSp × Msg3Callee × String) ⊕ (RaProcessorSp × sgx_ias_report_t) :=
  match exc .GetQuoteReport with
  | some m => .inl (self, .GetQuoteReport, m)
  | none =>
    let g := afterGetQuoteReport env self msg3 msg3Len
    if !g.1 then .inr (g.2, rep)
    else
      match exc .X509Cert with
      | some m => .inl (g.2, .X509Cert, m)
      | none =>
        match exc .CheckIasReport with
        | some m =>
          .inl ({ g.2 with
            m_reportCert := env.ShrinkChain g.2.m_reportCert env.gsk_IasReportCert },
            .CheckIasReport, m)
        | none =>
          let c := afterCheckIasReport env g.2 rep report_data
          if !c.ok || !quoteMatches env msg3 c.rep then .inr (c.self, c.rep)
          else if c.self.m_raConfig.enable_pse != 0 then
            match exc .HasherPse with
            | some m => .inl (c.self, .HasherPse, m)
            | none =>
              if !pseMatches env c.self msg3 c.rep then .inr (c.self, c.rep)
              else .inr ({ c.self with m_isAttested := true }, c.rep)
          else .inr ({ c.self with m_isAttested := true }, c.rep)

/-- Model of `RaProcessorSp::ProcessMsg3` with every exit. The CMAC of line 205 reads
`mac_size msg3Len` bytes behind the MAC field; when msg3 has fewer bytes there the
read leaves the message, which is undefined behaviour. A null `m_iasReport` is
dereferenced in line 253 or, after a `break`, in line 279. -/
def RaProcessorSp.ProcessMsg3Full (env : Env) (exc : Msg3Callee → Option String)
    (self : RaProcessorSp) (msg3 : sgx_ra_msg3_t) (msg3Len : Nat) (outOriRD : Bool) :
    ProcessMsg3FullResult :=
  if !consttime_memequal self.m_peerEncrKey.bytes msg3.g_a.bytes sizeof_sgx_ec256_public_t then
    ⟨self, none, none, .failedToVerify⟩
  else
    match exc .CMACer with
    | some m => ⟨self, none, none, .callee .CMACer m⟩
    | none =>
      if msg3.afterMac.length < mac_size msg3Len then
        ⟨self, none, none, .undefined "the CMAC reads behind the end of msg3"⟩
      else if !consttime_memequal (calcMac env self msg3 msg3Len).val msg3.mac.val 16 then
        ⟨self, none, none, .failedToVerify⟩
      else
        match exc .HasherReportData with
        | some m => ⟨self, none, none, .callee .HasherReportData m⟩
        | none =>
          let report_data := expectedReportData env self
          let outRD := if outOriRD then some report_data else none
          match self.m_iasReport with
          | none =>
            match exc .GetQuoteReport with
            | some m => ⟨self, none, outRD, .callee .GetQuoteReport m⟩
            | none =>
              if (afterGetQuoteReport env self msg3 msg3Len).1 then
                match exc .X509Cert with
                | some m =>
                  ⟨(afterGetQuoteReport env self msg3 msg3Len).2, none, outRD,
                    .callee .X509Cert m⟩
                | none => ⟨self, none, outRD, .undefined "m_iasReport is null"⟩
              else ⟨self, none, outRD, .undefined "m_iasReport is null"⟩
          | some rep =>
            match verifyQuoteBlockFull env exc self rep msg3 msg3Len report_data with
            | .inl (s, site, m) => ⟨s, none, outRD, .callee site m⟩
            | .inr (s, rep1) =>
              match exc .QuickAesGcmPack with
              | some m => ⟨s, none, outRD, .callee .QuickAesGcmPack m⟩
              | none =>
                let msg4Pack := sealMsg4 env s (buildMsg4 s rep1)
                if !s.m_isAttested then ⟨s, some msg4Pack, outRD, .rejected⟩
                else ⟨s, some msg4Pack, outRD, .returned⟩

/-- Model of `RaProcessorSp::IsAttested`. -/
def RaProcessorSp.IsAttested (self : RaProcessorSp) : Bool := self.m_isAttested

/-- Model of `RaProcessorSp::GetSK`. -/
def RaProcessorSp.GetSK (self : RaProcessorSp) : G128BitSecretKeyWrap := self.m_sk

/-- Model of `RaProcessorSp::GetMK`. -/
def RaProcessorSp.GetMK (self : RaProcessorSp) : G128BitSecretKeyWrap := self.m_mk

/-! ## A concrete environment

A small executable instance of `Env` and a prover run on it. Its cryptographic
functions are simple checksums: they only serve to run the model on concrete
inputs. -/

/-- Array of `n` bytes that all have the value `v`. -/
def FixedBytes.fill (n v : Nat) : FixedBytes n := ⟨List.replicate n v, List.length_replicate n v⟩

/-- The report that the demo parser produces: an all-zero quote, PSE hash bytes 9. -/
def demoReport : sgx_ias_report_t := ⟨FixedBytes.zero 436, FixedBytes.fill 32 9, [1]⟩

/-- Executable environment. The connector handle 0 stands for an unreachable IAS. -/
def demoEnv : Env where
  simulating := false
  SHA256 := fun b => FixedBytes.fill 32 (b.sum % 256)
  CMAC := fun k d => FixedBytes.fill 16 ((k.val.sum + d.sum) % 256)
  CKDF := fun sh label => FixedBytes.fill 16 ((sh.val.headD 0 + label.length) % 256)
  DeriveSharedKey := fun kp pub => some (FixedBytes.fill 32 (kp.priv * pub.x.val.headD 0 % 256))
  ToPublicBinary := fun kp => ⟨FixedBytes.fill 32 (kp.priv % 256), FixedBytes.fill 32 0⟩
  Sign := fun kp h =>
    ⟨FixedBytes.fill 32 ((kp.priv + h.val.headD 0) % 256), FixedBytes.fill 32 (kp.priv % 256)⟩
  generatedKeyPair := ⟨2⟩
  RandContainer := fun n => ⟨List.replicate n 7, List.length_replicate n 7⟩
  defaultKey := FixedBytes.zero 16
  CheckRaConfigValidaty := fun _ => true
  GetRevocationList := fun conn _ => if conn = 0 then none else some "AB"
  base64_decode := fun s => some (s.toList.map Char.toNat)
  GetQuoteReport := fun conn _ _ _ _ _ _ _ => ⟨conn != 0, "report", "sign", "cert"⟩
  gsk_IasReportCert := "root"
  ShrinkChain := fun chain _ => chain
  ParseAndVerifyIasReport := fun _ _ _ _ _ _ qv => (qv demoReport, demoReport)
  msg4Bytes := fun m => m.report.m_pse_hash.val.take 2 ++ [m.is_accepted]
  QuickAesGcmPack := fun sk pt mk => sk.val.take 1 ++ pt ++ mk.val.take 1

/-- RA configuration of the demo prover: linkable, no PSE, AES-CMAC KDF. -/
def demoConfig : sgx_ra_config := ⟨1, 0, 1, []⟩

/-- The demo prover after construction. -/
def demoNew : RaProcessorSp :=
  RaProcessorSp.new demoEnv 1 (some ⟨5⟩) (some (FixedBytes.zero 16)) (some fun _ _ => true)
    (some fun _ => true) demoConfig

/-- The demo prover after `Init`. -/
def demoInit : RaProcessorSp := (demoNew.Init demoEnv).self

/-- The public key of the demo client. -/
def demoPeerKey : sgx_ec256_public_t := ⟨FixedBytes.fill 32 3, FixedBytes.fill 32 0⟩

def demoMsg1 : sgx_ra_msg1_t := ⟨demoPeerKey, FixedBytes.zero 4⟩

/-- The demo prover after `ProcessMsg1`. -/
def demoAfterMsg1 : RaProcessorSp := (demoInit.ProcessMsg1 demoEnv demoMsg1 []).self

/-- Length of a msg3 that carries a quote of `sizeof(sgx_quote_t)` bytes. -/
def demoMsg3Len : Nat := 772

/-- A msg3 for the prover `p` with the given key, PSE descriptor and quote and a
correctly computed MAC. -/
def demoMsg3For (p : RaProcessorSp) (g_a : sgx_ec256_public_t) (quoteByte : Nat) :
    sgx_ra_msg3_t :=
  let m : sgx_ra_msg3_t :=
    ⟨FixedBytes.zero 16, g_a, FixedBytes.zero 256, List.replicate 436 quoteByte⟩
  { m with mac := calcMac demoEnv p m demoMsg3Len }

/-- A msg3 that passes every check of the demo prover. -/
def demoGoodMsg3 : sgx_ra_msg3_t := demoMsg3For demoAfterMsg1 demoPeerKey 0

/-- A msg3 with the right key and MAC whose quote differs from the quote of the report. -/
def demoBadQuoteMsg3 : sgx_ra_msg3_t := demoMsg3For demoAfterMsg1 demoPeerKey 1

/-- A msg3 whose `g_a` is not the key that `ProcessMsg1` stored. -/
def demoBadGaMsg3 : sgx_ra_msg3_t := demoMsg3For demoAfterMsg1 demoNew.m_myEncrKey 0

/-- A second party whose encryption key pair has the private scalar 3. -/
def demoPeerSide : RaProcessorSp := { demoInit with m_encrKeyPair := some ⟨3⟩ }

/-- The demo environment with an IAS whose decoded revocation list has 2^32 bytes. -/
def demoBigEnv : Env := { demoEnv with base64_decode := fun _ => some (List.replicate (2 ^ 32) 0) }

/-- RA configuration with PSE enabled. -/
def demoPseConfig : sgx_ra_config := ⟨1, 1, 1, []⟩

/-- The demo prover with PSE enabled, after `Init` and `ProcessMsg1`. -/
def demoPseAfterMsg1 : RaProcessorSp :=
  (((RaProcessorSp.new demoEnv 1 (some ⟨5⟩) (some (FixedBytes.zero 16)) (some fun _ _ => true)
    (some fun _ => true) demoPseConfig).Init demoEnv).self.ProcessMsg1 demoEnv demoMsg1 []).self

/-- A msg3 for the PSE prover whose PSE descriptor starts with the given byte; the
demo hash of the descriptor matches the PSE hash of the demo report for 9. -/
def demoPseMsg3 (b : Nat) : sgx_ra_msg3_t :=
  let m : sgx_ra_msg3_t :=
    ⟨FixedBytes.zero 16, demoPeerKey, ⟨b :: List.replicate 255 0, by rw [List.length_cons, List.length_replicate]⟩,
      List.replicate 436 0⟩
  { m with mac := calcMac demoEnv demoPseAfterMsg1 m demoMsg3Len }

/-- The PSE prover after it accepted a msg3 with a matching PSE descriptor. -/
def demoPseAttested : RaProcessorSp :=
  (demoPseAfterMsg1.ProcessMsg3 demoEnv (demoPseMsg3 9) demoMsg3Len false).self

/-- A msg3 for the demo prover that equals the good msg3 in the first 432 bytes of
the quote and differs in the last four (the field signature_len). -/
def demoOtherSigLenMsg3 : sgx_ra_msg3_t :=
  let m : sgx_ra_msg3_t :=
    ⟨FixedBytes.zero 16, demoPeerKey, FixedBytes.zero 256,
      List.replicate 432 0 ++ [1, 2, 3, 4, 5, 6]⟩
  { m with mac := calcMac demoEnv demoAfterMsg1 m 774 }

/-- A msg3 for the demo prover whose quote differs from the quote of the report in
byte 431 only, the last byte that is compared. -/
def demoLastByteMsg3 : sgx_ra_msg3_t :=
  let m : sgx_ra_msg3_t :=
    ⟨FixedBytes.zero 16, demoPeerKey, FixedBytes.zero 256,
      List.replicate 431 0 ++ [1, 0, 0, 0, 0]⟩
  { m with mac := calcMac demoEnv demoAfterMsg1 m demoMsg3Len }

/-- A demo prover whose RA configuration names another key derivation function. -/
def demoBadKdfNew : RaProcessorSp :=
  RaProcessorSp.new demoEnv 1 (some ⟨5⟩) (some (FixedBytes.zero 16)) (some fun _ _ => true)
    (some fun _ => true) ⟨1, 0, 2, []⟩

/-- The demo prover after a successful `ProcessMsg3`. -/
def demoAttested : RaProcessorSp :=
  (demoAfterMsg1.ProcessMsg3 demoEnv demoGoodMsg3 demoMsg3Len false).self

/-- A call in which no callee throws. -/
def demoNoExc : Msg3Callee → Option String := fun _ => none

/-- A call in which the sealing of msg4 throws. -/
def demoSealExc : Msg3Callee → Option String :=
  fun site => if site = .QuickAesGcmPack then some "mbedTLS error" else none

/-! ## The client communication layer (CommonEnclave/SGX/RaClientCommLayer.cpp)

The connection is modelled by the queue of the messages that the peer has sent and
by the log of what the client sent and received. Sending never fails; receiving
fails (throws) when the queue is empty. -/

def gsk_hasTicket : Nat := 1
def gsk_noTicket : Nat := 0
def gsk_keyDerLabel : String := "new_session_keys"
def gsk_finishLabel : String := "finished"
def gsk_defPrfResSize : Nat := 12

/-- Counterpart of `RaSession`. -/
structure RaSession where
  m_secretKey : G128BitSecretKeyWrap
  m_maskingKey : G128BitSecretKeyWrap
  m_iasReport : sgx_ias_report_t
deriving DecidableEq

/-- Counterpart of `RaClientSession`. -/
structure RaClientSession where
  m_ticket : Bytes
  m_session : RaSession
deriving DecidableEq

/-- An argument added to an `RpcWriter`: a primitive of `width` bytes or a binary. -/
inductive RpcArg where
  | prim (width : Nat) (value : Nat)
  | bin (bytes : Bytes)
deriving DecidableEq

/-- What the client does on the connection, in the order of the calls. -/
inductive NetEvent where
  | SendRpc (fullBinary : Bytes)
  | SendContainer (bytes : Bytes)
  | SendRawAll (bytes : Bytes)
  | RecvContainer (bytes : Bytes)
  | RecvRawAll (bytes : Bytes)
deriving DecidableEq

/-- The connection: the messages still to be received and the log of the calls. -/
structure ConnectionBase where
  incoming : List Bytes
  log : List NetEvent
deriving DecidableEq

/-- Model of `SendContainer`. -/
def ConnectionBase.SendContainer (c : ConnectionBase) (b : Bytes) : ConnectionBase :=
  { c with log := c.log ++ [.SendContainer b] }

/-- Model of `SendRawAll`. -/
def ConnectionBase.SendRawAll (c : ConnectionBase) (b : Bytes) : ConnectionBase :=
  { c with log := c.log ++ [.SendRawAll b] }

/-- Modelled from the spec: `ConnectionBase::SendRpc` is not among the sources; it
transmits the full binary of the writer, the bytes of the RPC as sent on the wire. -/
def ConnectionBase.SendRpc (c : ConnectionBase) (fullBinary : Bytes) : ConnectionBase :=
  { c with log := c.log ++ [.SendRpc fullBinary] }

/-- Model of `RecvContainer`: the next message of the peer; `none` when there is none. -/
def ConnectionBase.RecvContainer (c : ConnectionBase) : Option (Bytes × ConnectionBase) :=
  match c.incoming with
  | [] => none
  | m :: rest => some (m, { incoming := rest, log := c.log ++ [.RecvContainer m] })

/-- Model of `RecvRawAll(buf, size)`: the next message of the peer, which has to have
`size` bytes; `none` when there is no such message. -/
def ConnectionBase.RecvRawAll (c : ConnectionBase) (size : Nat) :
    Option (Bytes × ConnectionBase) :=
  match c.incoming with
  | [] => none
  | m :: rest =>
    if m.length = size then some (m, { incoming := rest, log := c.log ++ [.RecvRawAll m] })
    else none

/-- The functions that the client layer calls and whose code is outside the translated
sources: hash, TLS-PRF, the HKDF of mbedTLS, the random generator and the RPC
writer and parser. -/
structure ClientEnv where
  /-- `Hasher<HashType::SHA256>().Calc`. -/
  SHA256 : Bytes → General256Hash
  /-- `TlsPrf<HashType::SHA256>(key, label, seed, out)` for a 12-byte output. -/
  TlsPrf : G128BitSecretKeyWrap → String → General256Hash → FixedBytes 12
  /-- `mbedtls_hkdf(md, salt, ikm, info, okm)` for SHA-256; `none` for an error code. -/
  mbedtls_hkdf : (salt ikm info : Bytes) → (okmLen : Nat) → Option (FixedBytes okmLen)
  /-- The 64-bit value that `Drbg::RandStruct` writes to the nonce of the client. -/
  RandStruct64 : Nat
  /-- `RpcWriter::CalcSizePrim<T>()` for a type of the given width. -/
  CalcSizePrim : Nat → Nat
  /-- `RpcWriter::CalcSizeBin(len)`. -/
  CalcSizeBin : Nat → Nat
  /-- `RpcWriter(size, argCount, flag).GetFullBinary()` after the given arguments were
  added; the third constructor argument is `none` where the code omits it. -/
  RpcWriter_GetFullBinary : Nat → Nat → Option Bool → List RpcArg → Bytes
  /-- The constructor of `RpcParser`: the position of the first argument, `none` when it
  throws. -/
  RpcParser_ctor : Bytes → Option Nat
  /-- `RpcParser::GetPrimitiveArg<T>()` for a type of the given width, as a function of
  the binary and the position: the value and the next position, `none` when it
  throws. -/
  RpcParser_GetPrimitiveArg : Nat → Bytes → Nat → Option (Nat × Nat)
  /-- `RpcParser::GetBinaryArg()`. -/
  RpcParser_GetBinaryArg : Bytes → Nat → Option (Bytes × Nat)
  /-- Value of `sizeof(sgx_ra_msg0r_t)`. -/
  sizeof_sgx_ra_msg0r_t : Nat

/-- Counterpart of `RpcParser`. -/
structure RpcParser where
  m_binary : Bytes
  pos : Nat
deriving DecidableEq

/-- Modelled from the spec: `RpcParser` is not among the sources; the parser keeps
the container it was constructed from, and `GetFullBinary` returns these bytes,
the bytes of the RPC as received. -/
def RpcParser.new (env : ClientEnv) (binary : Bytes) : Option RpcParser :=
  (env.RpcParser_ctor binary).map fun pos => ⟨binary, pos⟩

/-- Model of `RpcParser::GetFullBinary`. -/
def RpcParser.GetFullBinary (p : RpcParser) : Bytes := p.m_binary

/-- Model of `RpcParser::GetPrimitiveArg<T>` for an unsigned type of `width` bytes. -/
def RpcParser.GetPrimitiveArg (env : ClientEnv) (p : RpcParser) (width : Nat) :
    Option (Nat × RpcParser) :=
  (env.RpcParser_GetPrimitiveArg width p.m_binary p.pos).map fun r =>
    (r.1 % 256 ^ width, { p with pos := r.2 })

/-- Model of `RpcParser::GetBinaryArg`. -/
def RpcParser.GetBinaryArg (env : ClientEnv) (p : RpcParser) : Option (Bytes × RpcParser) :=
  (env.RpcParser_GetBinaryArg p.m_binary p.pos).map fun r => (r.1, { p with pos := r.2 })

/-- Model of `detail::HKDF` (MbedTls/Kdf.cpp): the key is the input key material, the
label is the info and the salt is the salt of `mbedtls_hkdf`. -/
def detail_HKDF (env : ClientEnv) (inKey label inSalt : Bytes) (outKeyLen : Nat) :
    Option (FixedBytes outKeyLen) :=
  env.mbedtls_hkdf inSalt inKey label outKeyLen

/-- Modelled from the spec: the template `HKDF<HashType::SHA256>` of Kdf.h is not among
the sources; it hands the 16 bytes of the key, the characters of the label and
the bytes of the salt to `detail::HKDF` and asks for a 16-byte key. -/
def HKDF (env : ClientEnv) (inKey : G128BitSecretKeyWrap) (label : String) (salt : Bytes) :
    Option G128BitSecretKeyWrap :=
  detail_HKDF env inKey.val (label.toList.map Char.toNat) salt GENERAL_128BIT_16BYTE_SIZE

/-- The bytes of `std::array<uint64_t, 2> nonces`: the nonce of the client at the first
position, the nonce of the server at the second, each in little-endian order. -/
def noncesBytes (selfNonce peerNonce : Nat) : Bytes :=
  leBytes 8 selfNonce ++ leBytes 8 peerNonce

/-- The full binary of the RPC that has no ticket (lines 56 to 58). -/
def noTicketRpc (env : ClientEnv) : Bytes :=
  env.RpcWriter_GetFullBinary (env.CalcSizePrim 1) 1 none [.prim 1 gsk_noTicket]

/-- The full binary of the RPC that presents a ticket (lines 79 to 86). -/
def hasTicketRpc (env : ClientEnv) (ticket : Bytes) (selfNonce : Nat) : Bytes :=
  env.RpcWriter_GetFullBinary
    (env.CalcSizePrim 1 + env.CalcSizeBin ticket.length + env.CalcSizePrim 8) 3 (some false)
    [.prim 1 gsk_hasTicket, .bin ticket, .prim 8 selfNonce]

/-- Result of `ResumeSessionFromTicket`: the connection after the call, the returned
pointer (`none` for nullptr) and how the call ended. -/
structure ResumeResult where
  connection : ConnectionBase
  session : Option RaSession
  outcome : Outcome
deriving DecidableEq

/-- Lines 138 to 147 of `ResumeSessionFromTicket`: the new session with the keys derived
from the saved keys; the report of the value-initialised session is all-zero. -/
def deriveNewSession (env : ClientEnv) (saved : RaClientSession) (selfNonce peerNonce : Nat) :
    Option RaSession :=
  match HKDF env saved.m_session.m_secretKey gsk_keyDerLabel (noncesBytes selfNonce peerNonce),
    HKDF env saved.m_session.m_maskingKey gsk_keyDerLabel (noncesBytes selfNonce peerNonce) with
  | some sk, some mk => some ⟨sk, mk, sgx_ias_report_t.zero⟩
  | _, _ => none

/-- Lines 114 to 147 of `ResumeSessionFromTicket`: the exchange of the verification
messages after the peer accepted the ticket, and the derivation of the keys. -/
def finishResume (env : ClientEnv) (connection : ConnectionBase) (saved : RaClientSession)
    (selfNonce peerNonce : Nat) (selfMsgHash peerMsgHash : General256Hash) : ResumeResult :=
  let peerPrfRes := env.TlsPrf saved.m_session.m_secretKey gsk_finishLabel peerMsgHash
  let c1 := connection.SendContainer peerPrfRes.val
  let selfPrfRes := env.TlsPrf saved.m_session.m_secretKey gsk_finishLabel selfMsgHash
  match c1.RecvContainer with
  | none => ⟨c1, none, .thrown "RecvContainer failed."⟩
  | some (peerVrfyMsg, c2) =>
    if peerVrfyMsg.length != gsk_defPrfResSize
        || !consttime_memequal peerVrfyMsg selfPrfRes.val gsk_defPrfResSize then
      ⟨c2, none, .thrown "Failed to verify ticket resume message from server."⟩
    else
      match deriveNewSession env saved selfNonce peerNonce with
      | none => ⟨c2, none, .thrown "mbedtls_hkdf failed."⟩
      | some currSession => ⟨c2, some currSession, .returned⟩

/-- Model of `ResumeSessionFromTicket`. -/
def ResumeSessionFromTicket (env : ClientEnv) (connection : ConnectionBase)
    (savedSession : Option RaClientSession) : ResumeResult :=
  match savedSession with
  | none => ⟨connection.SendRpc (noTicketRpc env), none, .returned⟩
  | some saved =>
    if saved.m_ticket.length = 0 then
      ⟨connection.SendRpc (noTicketRpc env), none, .returned⟩
    else
      let selfNonce := env.RandStruct64 % 2 ^ 64
      let rpcResuTicket := hasTicketRpc env saved.m_ticket selfNonce
      let c1 := connection.SendRpc rpcResuTicket
      let selfMsgHash := env.SHA256 rpcResuTicket
      match c1.RecvContainer with
      | none => ⟨c1, none, .thrown "RecvContainer failed."⟩
      | some (reply, c2) =>
        match RpcParser.new env reply with
        | none => ⟨c2, none, .thrown "RpcParser failed."⟩
        | some rpcResuRes =>
          let peerMsgHash := env.SHA256 rpcResuRes.GetFullBinary
          match rpcResuRes.GetPrimitiveArg env 1 with
          | none => ⟨c2, none, .thrown "RpcParser failed."⟩
          | some (ticketRes, p1) =>
            if ticketRes = 0 then ⟨c2, none, .returned⟩
            else
              match p1.GetPrimitiveArg env 8 with
              | none => ⟨c2, none, .thrown "RpcParser failed."⟩
              | some (peerNonce, _) =>
                finishResume env c2 saved selfNonce peerNonce selfMsgHash peerMsgHash

/-- Model of `GetTicketFromServer`: the connection after the call and the ticket, `none`
when the call throws. -/
def GetTicketFromServer (env : ClientEnv) (connection : ConnectionBase) :
    Option (Bytes × ConnectionBase) :=
  match connection.RecvContainer with
  | none => none
  | some (bin, c1) =>
    match RpcParser.new env bin with
    | none => none
    | some rpcTicket =>
      match rpcTicket.GetPrimitiveArg env 1 with
      | none => none
      | some (hasNewTicket, p1) =>
        if hasNewTicket != 0 then
          match p1.GetBinaryArg env with
          | none => none
          | some (ticketSpace, _) => some (ticketSpace, c1)
        else some ([], c1)

/-- The RA processor of the client; `RaProcessorClient` is not among the sources. The
object is deterministic, so every method is given as a function of the messages
that the object has received before (msg0r, msg2, msg4). `none` stands for an
exception, for `ReleaseIasReport` for a null pointer. -/
structure RaProcessorClient where
  GetMsg0s : Option sgx_ra_msg0s_t
  ProcessMsg0r : Bytes → Option sgx_ra_msg1_t
  ProcessMsg2 : Bytes → Bytes → Nat → Option Bytes
  ProcessMsg4 : Bytes → Bytes → Bytes → Option Unit
  GetSK : Bytes → Bytes → Bytes → G128BitSecretKeyWrap
  GetMK : Bytes → Bytes → Bytes → G128BitSecretKeyWrap
  ReleaseIasReport : Bytes → Bytes → Bytes → Option sgx_ias_report_t

/-- The bytes of a `sgx_ra_msg0s_t`. -/
def sgx_ra_msg0s_t.bytes (m : sgx_ra_msg0s_t) : Bytes := leBytes 4 m.extended_grp_id

/-- The bytes of a `sgx_ra_msg1_t`. -/
def sgx_ra_msg1_t.bytes (m : sgx_ra_msg1_t) : Bytes := m.g_a.bytes ++ m.gid.val

/-- Result of `DoHandShake`: the connection after the call, the methods of the RA
processor that were called, the returned pair and how the call ended. -/
structure HandShakeResult where
  connection : ConnectionBase
  calls : List String
  sessions : Option (Option RaClientSession × RaSession)
  outcome : Outcome
deriving DecidableEq

/-- Lines 191 to 235 of `DoHandShake`: the standard RA handshake and the ticket. When
`GetTicketFromServer` throws after it has received the ticket RPC, that message is
consumed. -/
def fullHandShake (env : ClientEnv) (connection : ConnectionBase)
    (raProcessor : RaProcessorClient) : HandShakeResult :=
  match raProcessor.GetMsg0s with
  | none => ⟨connection, ["GetMsg0s"], none, .thrown "GetMsg0s failed."⟩
  | some msg0s =>
    let c1 := connection.SendRawAll msg0s.bytes
    match c1.RecvRawAll env.sizeof_sgx_ra_msg0r_t with
    | none => ⟨c1, ["GetMsg0s"], none, .thrown "RecvRawAll failed."⟩
    | some (msg0r, c2) =>
      match raProcessor.ProcessMsg0r msg0r with
      | none => ⟨c2, ["GetMsg0s", "ProcessMsg0r"], none, .thrown "ProcessMsg0r failed."⟩
      | some msg1 =>
        let c3 := c2.SendRawAll msg1.bytes
        match c3.RecvContainer with
        | none => ⟨c3, ["GetMsg0s", "ProcessMsg0r"], none, .thrown "RecvContainer failed."⟩
        | some (msg2, c4) =>
          if msg2.length < sizeof_sgx_ra_msg2_t then
            ⟨c4, ["GetMsg0s", "ProcessMsg0r"], none,
              .thrown "Decent::Sgx::RaProcessorClient DoHandShake Failed."⟩
          else
            match raProcessor.ProcessMsg2 msg0r msg2 msg2.length with
            | none =>
              ⟨c4, ["GetMsg0s", "ProcessMsg0r", "ProcessMsg2"], none,
                .thrown "ProcessMsg2 failed."⟩
            | some msg3 =>
              let c5 := c4.SendContainer msg3
              match c5.RecvContainer with
              | none =>
                ⟨c5, ["GetMsg0s", "ProcessMsg0r", "ProcessMsg2"], none,
                  .thrown "RecvContainer failed."⟩
              | some (msg4, c6) =>
                match raProcessor.ProcessMsg4 msg0r msg2 msg4 with
                | none =>
                  ⟨c6, ["GetMsg0s", "ProcessMsg0r", "ProcessMsg2", "ProcessMsg4"], none,
                    .thrown "ProcessMsg4 failed."⟩
                | some _ =>
                  match GetTicketFromServer env c6 with
                  | none =>
                    ⟨match c6.RecvContainer with
                      | some (_, c7) => c7
                      | none => c6,
                      ["GetMsg0s", "ProcessMsg0r", "ProcessMsg2", "ProcessMsg4"], none,
                      .thrown "GetTicketFromServer failed."⟩
                  | some (ticket, c7) =>
                    match raProcessor.ReleaseIasReport msg0r msg2 msg4 with
                    | none =>
                      ⟨c7, ["GetMsg0s", "ProcessMsg0r", "ProcessMsg2", "ProcessMsg4", "GetSK",
                        "GetMK", "ReleaseIasReport"], none,
                        .undefined "ReleaseIasReport returned a null pointer"⟩
                    | some iasReport =>
                      let origSession : RaClientSession :=
                        { m_ticket := ticket
                          m_session :=
                            { m_secretKey := raProcessor.GetSK msg0r msg2 msg4
                              m_maskingKey := raProcessor.GetMK msg0r msg2 msg4
                              m_iasReport := iasReport } }
                      let currSession : RaSession :=
                        { m_secretKey := origSession.m_session.m_secretKey
                          m_maskingKey := origSession.m_session.m_maskingKey
                          m_iasReport := sgx_ias_report_t.zero }
                      ⟨c7, ["GetMsg0s", "ProcessMsg0r", "ProcessMsg2", "ProcessMsg4", "GetSK",
                        "GetMK", "ReleaseIasReport"], some (some origSession, currSession),
                        .returned⟩

/-- Model of `DoHandShake`; `raProcessor` is `none` for a null pointer. -/
def DoHandShake (env : ClientEnv) (connection : ConnectionBase)
    (raProcessor : Option RaProcessorClient) (savedSession : Option RaClientSession) :
    HandShakeResult :=
  match raProcessor with
  | none =>
    ⟨connection, [], none,
      .thrown "Null pointer is given to the Decent::Sgx::RaProcessorClient DoHandShake."⟩
  | some proc =>
    let r := ResumeSessionFromTicket env connection savedSession
    match r.outcome with
    | .returned =>
      match r.session with
      | some currSession => ⟨r.connection, [], some (savedSession, currSession), .returned⟩
      | none => fullHandShake env r.connection proc
    | o => ⟨r.connection, [], none, o⟩

/-! ## A concrete client -/

/-- Executable client environment; an RPC is encoded as the number of arguments in four
bytes followed by the arguments, a binary with its length in eight bytes. -/
def demoClientEnv : ClientEnv where
  SHA256 := fun b => FixedBytes.fill 32 (b.sum % 256)
  TlsPrf := fun k label seed =>
    FixedBytes.fill 12 ((k.val.sum + label.length + seed.val.headD 0) % 256)
  mbedtls_hkdf := fun salt ikm info n =>
    some (FixedBytes.fill n ((salt.sum + ikm.sum + info.length) % 256))
  RandStruct64 := 7
  CalcSizePrim := fun w => w
  CalcSizeBin := fun n => 8 + n
  RpcWriter_GetFullBinary := fun _ cnt _ args =>
    leBytes 4 cnt ++ (args.map fun a =>
      match a with
      | .prim w v => leBytes w v
      | .bin b => leBytes 8 b.length ++ b).flatten
  RpcParser_ctor := fun b => if 4 ≤ b.length then some 4 else none
  RpcParser_GetPrimitiveArg := fun w b pos =>
    if pos + w ≤ b.length then some (leValue ((b.drop pos).take w), pos + w) else none
  RpcParser_GetBinaryArg := fun b pos =>
    if pos + 8 ≤ b.length then
      some ((b.drop (pos + 8)).take (leValue ((b.drop pos).take 8)),
        pos + 8 + leValue ((b.drop pos).take 8))
    else none
  sizeof_sgx_ra_msg0r_t := 72

/-- A saved session with a ticket of three bytes. -/
def demoSaved : RaClientSession :=
  ⟨[1, 2, 3], ⟨FixedBytes.fill 16 1, FixedBytes.fill 16 2, demoReport⟩⟩

/-- The reply of a server that accepts the ticket, with the server nonce 9. -/
def demoAcceptReply : Bytes := leBytes 4 2 ++ [1] ++ leBytes 8 9

/-- The reply of a server that does not accept the ticket. -/
def demoRejectReply : Bytes := leBytes 4 1 ++ [0]

/-- The verification message of an honest server: the tag over the hash of the RPC of
the client. -/
def demoServerTag : Bytes :=
  (demoClientEnv.TlsPrf demoSaved.m_session.m_secretKey gsk_finishLabel
    (demoClientEnv.SHA256 (hasTicketRpc demoClientEnv demoSaved.m_ticket 7))).val

/-- An RA processor of the client that accepts every message. -/
def demoProcessor : RaProcessorClient where
  GetMsg0s := some ⟨0⟩
  ProcessMsg0r := fun _ => some demoMsg1
  ProcessMsg2 := fun _ _ _ => some [3, 3, 3]
  ProcessMsg4 := fun _ _ _ => some ()
  GetSK := fun _ _ _ => FixedBytes.fill 16 5
  GetMK := fun _ _ _ => FixedBytes.fill 16 6
  ReleaseIasReport := fun _ _ _ => some demoReport

/-- The messages of a server in a full handshake: msg0r, msg2, msg4 and a ticket RPC. -/
def demoServerHandShake : List Bytes :=
  [List.replicate 72 0, List.replicate 168 0, [4, 4], leBytes 4 2 ++ [1] ++ leBytes 8 2 ++ [8, 9]]

/-- A server that accepts the ticket and answers with a verification message of the
right length and wrong content; the messages of a full handshake follow. -/
def demoBadTagConn : ConnectionBase :=
  ⟨[demoAcceptReply, List.replicate 12 0] ++ demoServerHandShake, []⟩

/-- A server that accepts the ticket and answers with a verification message of three
bytes; the messages of a full handshake follow. -/
def demoShortTagConn : ConnectionBase :=
  ⟨[demoAcceptReply, [1, 2, 3]] ++ demoServerHandShake, []⟩

/-- A server that accepts the ticket and sends the right verification message. -/
def demoGoodTagConn : ConnectionBase := ⟨[demoAcceptReply, demoServerTag], []⟩

/-- A server that does not accept the ticket and then runs the full handshake. -/
def demoRejectConn : ConnectionBase := ⟨[demoRejectReply] ++ demoServerHandShake, []⟩

/-! ## The object `RaClientCommLayer` -/

/-- Counterpart of `RaClientCommLayer`: the two keys handed to the base class
`AesGcmCommLayer` and the two session members. -/
structure RaClientCommLayer where
  aesGcmSecretKey : G128BitSecretKeyWrap
  aesGcmMaskingKey : G128BitSecretKeyWrap
  m_origSession : Option RaClientSession
  m_currSession : RaSession
deriving DecidableEq

/-- Model of the constructor of line 274: the base class receives the keys of the
current session. -/
def RaClientCommLayer.ofSessions (origSession : Option RaClientSession)
    (currSession : RaSession) : RaClientCommLayer :=
  ⟨currSession.m_secretKey, currSession.m_maskingKey, origSession, currSession⟩

/-- Model of the public constructor of line 238: `DoHandShake` runs first, on the
connection that was passed in; the object exists only when it returned a pair. -/
def RaClientCommLayer.new (env : ClientEnv) (connection : ConnectionBase)
    (raProcessor : Option RaProcessorClient) (savedSession : Option RaClientSession) :
    HandShakeResult × Option RaClientCommLayer :=
  let r := DoHandShake env connection raProcessor savedSession
  (r, r.sessions.map fun s => RaClientCommLayer.ofSessions s.1 s.2)

/-- Model of `RaClientCommLayer::GetIasReport`; `none` when `m_origSession` is null. -/
def RaClientCommLayer.GetIasReport (self : RaClientCommLayer) : Option sgx_ias_report_t :=
  self.m_origSession.map fun s => s.m_session.m_iasReport

/-- Model of `RaClientCommLayer::GetOrigSession`. -/
def RaClientCommLayer.GetOrigSession (self : RaClientCommLayer) : Option RaClientSession :=
  self.m_origSession

/-- Model of `RaClientCommLayer::GetCurrSession`. -/
def RaClientCommLayer.GetCurrSession (self : RaClientCommLayer) : RaSession :=
  self.m_currSession

/-- An RA processor like the demo processor with other session keys. -/
def demoProcessorOtherKeys : RaProcessorClient :=
  { demoProcessor with
    GetSK := fun _ _ _ => FixedBytes.fill 16 77
    GetMK := fun _ _ _ => FixedBytes.fill 16 78 }

/-- The ticket RPC of the demo server: two arguments, the value 1 and the binary 8, 9. -/
def demoTicketRpc : Bytes := leBytes 4 2 ++ [1] ++ leBytes 8 2 ++ [8, 9]

/-! ## The HMAC object (Common/MbedTls/Hasher.cpp) -/

/-- Value of the macro `BITS_PER_BYTE`, the number of bits of a byte (compare
`GENERAL_BITS_PER_BYTE` in general_key_types.h); its definition is in a header
that is not among the sources. -/
def BITS_PER_BYTE : Nat := 8

/-- A call of `mbedtls_md_hmac_starts(ctx, key, keylen)`: the memory that starts at the
pointer `key` and the value of `keylen`. -/
structure HmacStartsCall where
  key : Bytes
  keylen : Nat
deriving DecidableEq

/-- Model of the constructor `HMACerBase::HMACerBase(mdInfo, key, keySize)` (lines 76 to
80): the call of `mbedtls_md_hmac_starts` that it makes. `memAtKey` is the memory
that starts at the pointer `key`; the key buffer is its first `keySize` bytes. The
product is computed in `size_t` (64 bits). -/
def HMACerBase.new (memAtKey : Bytes) (keySize : Nat) : HmacStartsCall :=
  ⟨memAtKey, (keySize * BITS_PER_BYTE) % 2 ^ 64⟩

/-- The bytes that `mbedtls_md_hmac_starts` takes as the key: `keylen` is a length in
bytes, so these are the `keylen` bytes at the pointer. A read behind the end of
the modelled memory is cut off there. -/
def HmacStartsCall.keyUsed (c : HmacStartsCall) : Bytes := c.key.take c.keylen

/-- A 16-byte key (bytes 1) followed in memory by 112 other bytes (bytes 2). -/
def demoKeyMemory : Bytes := List.replicate 16 1 ++ List.replicate 112 2

/-! ## The signed constructors of `BigNumber` (Common/MbedTls/BigNumber.h) -/

/-- The value of an expression of type `int64_t` whose mathematical value is `v`, in
two-complement arithmetic: the representative of `v` modulo 2^64 in
[-2^63, 2^63). -/
def wrapInt64 (v : Int) : Int := (v + 2 ^ 63) % 2 ^ 64 - 2 ^ 63

/-- Model of `static_cast<uint64_t>` applied to an integer value. -/
def toUInt64 (v : Int) : Nat := (v % 2 ^ 64).toNat

/-- What the protected constructor `BigNumber(ptr, size, isPositive)` receives: the
bytes at `ptr`, a number in little-endian order, and the sign. -/
structure BigNumber where
  bytes : Bytes
  isPositive : Bool
deriving DecidableEq

/-- Model of `BigNumber(bool isPositive, uint64_t val)` (line 521): the eight bytes of
the value and the sign are passed on. -/
def BigNumber.ofSignUInt64 (isPositive : Bool) (val : Nat) : BigNumber :=
  ⟨leBytes 8 val, isPositive⟩

/-- Model of `BigNumber(int64_t val)` (line 547). The negation `-val` is an `int64_t`
expression, evaluated in two-complement arithmetic, and is then converted to
`uint64_t`. -/
def BigNumber.ofInt64 (val : Int) : BigNumber :=
  BigNumber.ofSignUInt64 (decide (val ≥ 0))
    (if val ≥ 0 then toUInt64 val else toUInt64 (wrapInt64 (-val)))

/-- Model of `BigNumber(int32_t val)` (line 551): the value is converted to `int64_t`,
which keeps every value of the narrower type, and handed to `BigNumber(int64_t)`. -/
def BigNumber.ofInt32 (val : Int) : BigNumber := BigNumber.ofInt64 (wrapInt64 val)

/-- Model of `BigNumber(int16_t val)` (line 552). -/
def BigNumber.ofInt16 (val : Int) : BigNumber := BigNumber.ofInt64 (wrapInt64 val)

/-- Model of `BigNumber(int8_t val)` (line 553). -/
def BigNumber.ofInt8 (val : Int) : BigNumber := BigNumber.ofInt64 (wrapInt64 val)

/-- The unsigned magnitude that the bytes of a `BigNumber` stand for. -/
def BigNumber.magnitude (b : BigNumber) : Nat := leValue b.bytes

/-- The integer that sign and magnitude stand for. -/
def BigNumber.toInt (b : BigNumber) : Int :=
  if b.isPositive then (b.magnitude : Int) else -(b.magnitude : Int)

/-! ## Basic facts about the byte model -/

theorem consttime_memequal_iff (a b : Bytes) (n : Nat) :
    consttime_memequal a b n = true ↔ a.take n = b.take n := by
  simp [consttime_memequal]

theorem consttime_memequal_fixed {n : Nat} (a b : FixedBytes n) :
    consttime_memequal a.val b.val n = true ↔ a = b := by
  rw [consttime_memequal_iff, List.take_of_length_le (le_of_eq a.property),
    List.take_of_length_le (le_of_eq b.property)]
  exact Subtype.ext_iff.symm

theorem public_bytes_length (k : general_secp256r1_public_t) : k.bytes.length = 64 := by
  simp [general_secp256r1_public_t.bytes, k.x.property, k.y.property]

theorem public_bytes_take (k : general_secp256r1_public_t) : k.bytes.take 64 = k.bytes :=
  List.take_of_length_le (le_of_eq (public_bytes_length k))

theorem public_bytes_injective (a b : general_secp256r1_public_t)
    (h : a.bytes = b.bytes) : a = b := by
  obtain ⟨ax, ay⟩ := a
  obtain ⟨bx, b_y⟩ := b
  simp only [general_secp256r1_public_t.bytes] at h
  have hl : ax.val.length = bx.val.length := by rw [ax.property, bx.property]
  obtain ⟨h1, h2⟩ := List.append_inj h hl
  simp [Subtype.ext h1, Subtype.ext h2]

theorem consttime_memequal_public (a b : general_secp256r1_public_t) :
    consttime_memequal a.bytes b.bytes sizeof_sgx_ec256_public_t = true ↔ a = b := by
  rw [consttime_memequal_iff]
  simp only [sizeof_sgx_ec256_public_t, public_bytes_take]
  exact ⟨public_bytes_injective a b, fun h => by rw [h]⟩

/-! ## The shape of the result of `ProcessMsg3` -/

theorem ProcessMsg3_of_bad_g_a (env : Env) (self : RaProcessorSp) (msg3 : sgx_ra_msg3_t)
    (msg3Len : Nat) (outOriRD : Bool) (h : self.m_peerEncrKey ≠ msg3.g_a) :
    self.ProcessMsg3 env msg3 msg3Len outOriRD =
      ⟨self, none, none, .thrown "RaProcessorSp::ProcessMsg3 failed to verify MSG 3."⟩ := by
  have hk : consttime_memequal self.m_peerEncrKey.bytes msg3.g_a.bytes
      sizeof_sgx_ec256_public_t = false := by
    rw [Bool.eq_false_iff]
    exact fun hc => h ((consttime_memequal_public _ _).1 hc)
  simp [RaProcessorSp.ProcessMsg3, hk]

theorem ProcessMsg3_of_bad_mac (env : Env) (self : RaProcessorSp) (msg3 : sgx_ra_msg3_t)
    (msg3Len : Nat) (outOriRD : Bool) (hga : self.m_peerEncrKey = msg3.g_a)
    (h : calcMac env self msg3 msg3Len ≠ msg3.mac) :
    self.ProcessMsg3 env msg3 msg3Len outOriRD =
      ⟨self, none, none, .thrown "RaProcessorSp::ProcessMsg3 failed to verify MSG 3."⟩ := by
  have hk : consttime_memequal self.m_peerEncrKey.bytes msg3.g_a.bytes
      sizeof_sgx_ec256_public_t = true := (consttime_memequal_public _ _).2 hga
  have hm : consttime_memequal (calcMac env self msg3 msg3Len).val msg3.mac.val 16 = false := by
    rw [Bool.eq_false_iff]
    exact fun hc => h ((consttime_memequal_fixed _ _).1 hc)
  simp [RaProcessorSp.ProcessMsg3, hk, hm]

theorem ProcessMsg3_of_null_report (env : Env) (self : RaProcessorSp) (msg3 : sgx_ra_msg3_t)
    (msg3Len : Nat) (outOriRD : Bool) (hga : self.m_peerEncrKey = msg3.g_a)
    (hmac : calcMac env self msg3 msg3Len = msg3.mac) (hrep : self.m_iasReport = none) :
    self.ProcessMsg3 env msg3 msg3Len outOriRD =
      ⟨self, none, if outOriRD then some (expectedReportData env self) else none,
        .undefined "m_iasReport is null"⟩ := by
  have hk : consttime_memequal self.m_peerEncrKey.bytes msg3.g_a.bytes
      sizeof_sgx_ec256_public_t = true := (consttime_memequal_public _ _).2 hga
  have hm : consttime_memequal (calcMac env self msg3 msg3Len).val msg3.mac.val 16 = true :=
    (consttime_memequal_fixed _ _).2 hmac
  simp [RaProcessorSp.ProcessMsg3, hk, hm, hrep]

theorem ProcessMsg3_of_checked (env : Env) (self : RaProcessorSp) (msg3 : sgx_ra_msg3_t)
    (msg3Len : Nat) (outOriRD : Bool) (rep : sgx_ias_report_t)
    (hga : self.m_peerEncrKey = msg3.g_a)
    (hmac : calcMac env self msg3 msg3Len = msg3.mac) (hrep : self.m_iasReport = some rep) :
    self.ProcessMsg3 env msg3 msg3Len outOriRD =
      ⟨(verifyQuoteBlock env self rep msg3 msg3Len (expectedReportData env self)).1,
        some (sealMsg4 env
          (verifyQuoteBlock env self rep msg3 msg3Len (expectedReportData env self)).1
          (buildMsg4 (verifyQuoteBlock env self rep msg3 msg3Len (expectedReportData env self)).1
            (verifyQuoteBlock env self rep msg3 msg3Len (expectedReportData env self)).2)),
        if outOriRD then some (expectedReportData env self) else none,
        if (verifyQuoteBlock env self rep msg3 msg3Len
            (expectedReportData env self)).1.m_isAttested
        then .returned
        else .thrown "RaProcessorSp::ProcessMsg3 rejects the quote; SGX RA failed."⟩ := by
  have hk : consttime_memequal self.m_peerEncrKey.bytes msg3.g_a.bytes
      sizeof_sgx_ec256_public_t = true := (consttime_memequal_public _ _).2 hga
  have hm : consttime_memequal (calcMac env self msg3 msg3Len).val msg3.mac.val 16 = true :=
    (consttime_memequal_fixed _ _).2 hmac
  simp only [RaProcessorSp.ProcessMsg3, hk, hm, hrep]
  cases hb : (verifyQuoteBlock env self rep msg3 msg3Len
    (expectedReportData env self)).1.m_isAttested <;> simp [hb]

theorem afterGetQuoteReport_isAttested (env : Env) (self : RaProcessorSp)
    (msg3 : sgx_ra_msg3_t) (msg3Len : Nat) :
    (afterGetQuoteReport env self msg3 msg3Len).2.m_isAttested = self.m_isAttested := rfl

theorem afterCheckIasReport_isAttested (env : Env) (self : RaProcessorSp)
    (rep : sgx_ias_report_t) (rd : sgx_report_data_t) :
    (afterCheckIasReport env self rep rd).self.m_isAttested = self.m_isAttested := rfl

theorem verifyQuoteBlock_isAttested (env : Env) (self : RaProcessorSp)
    (rep : sgx_ias_report_t) (msg3 : sgx_ra_msg3_t) (msg3Len : Nat)
    (rd : sgx_report_data_t) :
    (verifyQuoteBlock env self rep msg3 msg3Len rd).1.m_isAttested =
      (validationsPass env self rep msg3 msg3Len rd || self.m_isAttested) := by
  simp only [verifyQuoteBlock, validationsPass]
  cases hg : (afterGetQuoteReport env self msg3 msg3Len).1
  · simp [afterGetQuoteReport_isAttested]
  · cases hc : (afterCheckIasReport env (afterGetQuoteReport env self msg3 msg3Len).2 rep rd).ok
    · simp [afterGetQuoteReport_isAttested, afterCheckIasReport_isAttested]
    · cases hq : quoteMatches env msg3
          (afterCheckIasReport env (afterGetQuoteReport env self msg3 msg3Len).2 rep rd).rep
      · simp [afterGetQuoteReport_isAttested, afterCheckIasReport_isAttested]
      · cases hp : pseMatches env
            (afterCheckIasReport env (afterGetQuoteReport env self msg3 msg3Len).2 rep rd).self
            msg3
            (afterCheckIasReport env (afterGetQuoteReport env self msg3 msg3Len).2 rep rd).rep
        · simp [afterGetQuoteReport_isAttested, afterCheckIasReport_isAttested]
        · simp

theorem ProcessMsg3_of_attested (env : Env) (self : RaProcessorSp) (msg3 : sgx_ra_msg3_t)
    (msg3Len : Nat) (outOriRD : Bool) (rep : sgx_ias_report_t)
    (hga : self.m_peerEncrKey = msg3.g_a)
    (hmac : calcMac env self msg3 msg3Len = msg3.mac) (hrep : self.m_iasReport = some rep)
    (hprev : self.m_isAttested = true) :
    (self.ProcessMsg3 env msg3 msg3Len outOriRD).outcome = .returned ∧
      (self.ProcessMsg3 env msg3 msg3Len outOriRD).self.m_isAttested = true := by
  rw [ProcessMsg3_of_checked env self msg3 msg3Len outOriRD rep hga hmac hrep]
  simp [verifyQuoteBlock_isAttested, hprev]

set_option maxRecDepth 100000

/-! ## The shape of the result of `ProcessMsg3Full` -/

theorem ProcessMsg3Full_of_bad_g_a (env : Env) (exc : Msg3Callee → Option String)
    (self : RaProcessorSp) (msg3 : sgx_ra_msg3_t) (msg3Len : Nat) (outOriRD : Bool)
    (h : self.m_peerEncrKey ≠ msg3.g_a) :
    self.ProcessMsg3Full env exc msg3 msg3Len outOriRD = ⟨self, none, none, .failedToVerify⟩ := by
  have hk : consttime_memequal self.m_peerEncrKey.bytes msg3.g_a.bytes
      sizeof_sgx_ec256_public_t = false := by
    rw [Bool.eq_false_iff]
    exact fun hc => h ((consttime_memequal_public _ _).1 hc)
  simp [RaProcessorSp.ProcessMsg3Full, hk]

theorem ProcessMsg3Full_of_bad_mac (env : Env) (exc : Msg3Callee → Option String)
    (self : RaProcessorSp) (msg3 : sgx_ra_msg3_t) (msg3Len : Nat) (outOriRD : Bool)
    (hga : self.m_peerEncrKey = msg3.g_a) (hcmac : exc .CMACer = none)
    (hin : mac_size msg3Len ≤ msg3.afterMac.length)
    (h : calcMac env self msg3 msg3Len ≠ msg3.mac) :
    self.ProcessMsg3Full env exc msg3 msg3Len outOriRD = ⟨self, none, none, .failedToVerify⟩ := by
  have hk : consttime_memequal self.m_peerEncrKey.bytes msg3.g_a.bytes
      sizeof_sgx_ec256_public_t = true := (consttime_memequal_public _ _).2 hga
  have hm : consttime_memequal (calcMac env self msg3 msg3Len).val msg3.mac.val 16 = false := by
    rw [Bool.eq_false_iff]
    exact fun hc => h ((consttime_memequal_fixed _ _).1 hc)
  simp only [RaProcessorSp.ProcessMsg3Full, hk, hcmac, hm, Nat.not_lt.2 hin]
  simp

theorem ProcessMsg3Full_of_unchecked (env : Env) (exc : Msg3Callee → Option String)
    (self : RaProcessorSp) (msg3 : sgx_ra_msg3_t) (msg3Len : Nat) (outOriRD : Bool)
    (h : ¬ (self.m_peerEncrKey = msg3.g_a ∧ exc .CMACer = none
      ∧ mac_size msg3Len ≤ msg3.afterMac.length ∧ calcMac env self msg3 msg3Len = msg3.mac)) :
    (self.ProcessMsg3Full env exc msg3 msg3Len outOriRD).self = self
    ∧ (self.ProcessMsg3Full env exc msg3 msg3Len outOriRD).msg4Pack = none
    ∧ (self.ProcessMsg3Full env exc msg3 msg3Len outOriRD).outOriRD = none
    ∧ ((self.ProcessMsg3Full env exc msg3 msg3Len outOriRD).exit = .failedToVerify
      ∨ (∃ m, (self.ProcessMsg3Full env exc msg3 msg3Len outOriRD).exit = .callee .CMACer m
          ∧ exc .CMACer = some m)
      ∨ (self.ProcessMsg3Full env exc msg3 msg3Len outOriRD).exit =
          .undefined "the CMAC reads behind the end of msg3") := by
  by_cases hga : self.m_peerEncrKey = msg3.g_a
  · have hk : consttime_memequal self.m_peerEncrKey.bytes msg3.g_a.bytes
        sizeof_sgx_ec256_public_t = true := (consttime_memequal_public _ _).2 hga
    cases hcmac : exc .CMACer with
    | some m =>
      have hR : self.ProcessMsg3Full env exc msg3 msg3Len outOriRD =
          ⟨self, none, none, .callee .CMACer m⟩ := by
        simp only [RaProcessorSp.ProcessMsg3Full, hk, hcmac]
        simp
      rw [hR]
      exact ⟨rfl, rfl, rfl, Or.inr (Or.inl ⟨m, rfl, rfl⟩)⟩
    | none =>
      by_cases hin : mac_size msg3Len ≤ msg3.afterMac.length
      · have hmac : calcMac env self msg3 msg3Len ≠ msg3.mac :=
          fun hm => h ⟨hga, hcmac, hin, hm⟩
        rw [ProcessMsg3Full_of_bad_mac env exc self msg3 msg3Len outOriRD hga hcmac hin hmac]
        exact ⟨rfl, rfl, rfl, Or.inl rfl⟩
      · have hR : self.ProcessMsg3Full env exc msg3 msg3Len outOriRD =
            ⟨self, none, none, .undefined "the CMAC reads behind the end of msg3"⟩ := by
          simp only [RaProcessorSp.ProcessMsg3Full, hk, hcmac, Nat.lt_of_not_le hin]
          simp
        rw [hR]
        exact ⟨rfl, rfl, rfl, Or.inr (Or.inr rfl)⟩
  · rw [ProcessMsg3Full_of_bad_g_a env exc self msg3 msg3Len outOriRD hga]
    exact ⟨rfl, rfl, rfl, Or.inl rfl⟩

theorem ProcessMsg3Full_of_hasher_exception (env : Env) (exc : Msg3Callee → Option String)
    (self : RaProcessorSp) (msg3 : sgx_ra_msg3_t) (msg3Len : Nat) (outOriRD : Bool)
    (m : String) (hga : self.m_peerEncrKey = msg3.g_a) (hcmac : exc .CMACer = none)
    (hin : mac_size msg3Len ≤ msg3.afterMac.length)
    (hmac : calcMac env self msg3 msg3Len = msg3.mac)
    (hh : exc .HasherReportData = some m) :
    self.ProcessMsg3Full env exc msg3 msg3Len outOriRD =
      ⟨self, none, none, .callee .HasherReportData m⟩ := by
  have hk : consttime_memequal self.m_peerEncrKey.bytes msg3.g_a.bytes
      sizeof_sgx_ec256_public_t = true := (consttime_memequal_public _ _).2 hga
  have hm : consttime_memequal (calcMac env self msg3 msg3Len).val msg3.mac.val 16 = true :=
    (consttime_memequal_fixed _ _).2 hmac
  simp only [RaProcessorSp.ProcessMsg3Full, hk, hcmac, hm, Nat.not_lt.2 hin, hh]
  simp

theorem ProcessMsg3Full_of_checked (env : Env) (exc : Msg3Callee → Option String)
    (self : RaProcessorSp) (msg3 : sgx_ra_msg3_t) (msg3Len : Nat) (outOriRD : Bool)
    (rep : sgx_ias_report_t) (hga : self.m_peerEncrKey = msg3.g_a) (hcmac : exc .CMACer = none)
    (hin : mac_size msg3Len ≤ msg3.afterMac.length)
    (hmac : calcMac env self msg3 msg3Len = msg3.mac) (hh : exc .HasherReportData = none)
    (hrep : self.m_iasReport = some rep) :
    self.ProcessMsg3Full env exc msg3 msg3Len outOriRD =
      match verifyQuoteBlockFull env exc self rep msg3 msg3Len (expectedReportData env self) with
      | .inl (s, site, m) =>
        ⟨s, none, if outOriRD then some (expectedReportData env self) else none, .callee site m⟩
      | .inr (s, rep1) =>
        match exc .QuickAesGcmPack with
        | some m =>
          ⟨s, none, if outOriRD then some (expectedReportData env self) else none,
            .callee .QuickAesGcmPack m⟩
        | none =>
          ⟨s, some (sealMsg4 env s (buildMsg4 s rep1)),
            if outOriRD then some (expectedReportData env self) else none,
            if s.m_isAttested then .returned else .rejected⟩ := by
  have hk : consttime_memequal self.m_peerEncrKey.bytes msg3.g_a.bytes
      sizeof_sgx_ec256_public_t = true := (consttime_memequal_public _ _).2 hga
  have hm : consttime_memequal (calcMac env self msg3 msg3Len).val msg3.mac.val 16 = true :=
    (consttime_memequal_fixed _ _).2 hmac
  simp only [RaProcessorSp.ProcessMsg3Full, hk, hcmac, hm, Nat.not_lt.2 hin, hh, hrep]
  simp only [Bool.not_true, Bool.false_eq_true, if_false]
  split
  · rfl
  · split
    · rfl
    · split <;> simp_all

theorem verifyQuoteBlockFull_inl_isAttested (env : Env) (exc : Msg3Callee → Option String)
    (self : RaProcessorSp) (rep : sgx_ias_report_t) (msg3 : sgx_ra_msg3_t) (msg3Len : Nat)
    (rd : sgx_report_data_t) (s : RaProcessorSp) (site : Msg3Callee) (m : String)
    (h : verifyQuoteBlockFull env exc self rep msg3 msg3Len rd = .inl (s, site, m)) :
    s.m_isAttested = self.m_isAttested ∧ exc site = some m := by
  simp only [verifyQuoteBlockFull] at h
  split at h
  · rename_i m0 h0
    simp only [Sum.inl.injEq, Prod.mk.injEq] at h
    obtain ⟨rfl, rfl, rfl⟩ := h
    exact ⟨rfl, h0⟩
  · split at h
    · simp at h
    · split at h
      · rename_i m0 h0
        simp only [Sum.inl.injEq, Prod.mk.injEq] at h
        obtain ⟨rfl, rfl, rfl⟩ := h
        exact ⟨rfl, h0⟩
      · split at h
        · rename_i m0 h0
          simp only [Sum.inl.injEq, Prod.mk.injEq] at h
          obtain ⟨rfl, rfl, rfl⟩ := h
          exact ⟨rfl, h0⟩
        · split at h
          · simp at h
          · split at h
            · split at h
              · rename_i m0 h0
                simp only [Sum.inl.injEq, Prod.mk.injEq] at h
                obtain ⟨rfl, rfl, rfl⟩ := h
                exact ⟨rfl, h0⟩
              · split at h <;> simp at h
            · simp at h

theorem verifyQuoteBlockFull_inr_iasReport (env : Env) (exc : Msg3Callee → Option String)
    (self : RaProcessorSp) (rep : sgx_ias_report_t) (msg3 : sgx_ra_msg3_t) (msg3Len : Nat)
    (rd : sgx_report_data_t) (s : RaProcessorSp) (rep1 : sgx_ias_report_t)
    (hrep : self.m_iasReport = some rep)
    (h : verifyQuoteBlockFull env exc self rep msg3 msg3Len rd = .inr (s, rep1)) :
    s.m_iasReport = some rep1 := by
  simp only [verifyQuoteBlockFull] at h
  split at h
  · simp at h
  · split at h
    · simp only [Sum.inr.injEq, Prod.mk.injEq] at h
      obtain ⟨rfl, rfl⟩ := h
      exact hrep
    · split at h
      · simp at h
      · split at h
        · simp at h
        · split at h
          · simp only [Sum.inr.injEq, Prod.mk.injEq] at h
            obtain ⟨rfl, rfl⟩ := h
            rfl
          · split at h
            · split at h
              · simp at h
              · split at h
                · simp only [Sum.inr.injEq, Prod.mk.injEq] at h
                  obtain ⟨rfl, rfl⟩ := h
                  rfl
                · simp only [Sum.inr.injEq, Prod.mk.injEq] at h
                  obtain ⟨rfl, rfl⟩ := h
                  rfl
            · simp only [Sum.inr.injEq, Prod.mk.injEq] at h
              obtain ⟨rfl, rfl⟩ := h
              rfl

theorem verifyQuoteBlockFull_of_no_exception (env : Env) (exc : Msg3Callee → Option String)
    (self : RaProcessorSp) (rep : sgx_ias_report_t) (msg3 : sgx_ra_msg3_t) (msg3Len : Nat)
    (rd : sgx_report_data_t) (hexc : ∀ site, exc site = none) :
    verifyQuoteBlockFull env exc self rep msg3 msg3Len rd =
      .inr (verifyQuoteBlock env self rep msg3 msg3Len rd) := by
  simp only [verifyQuoteBlockFull, verifyQuoteBlock, hexc]
  split
  · rfl
  · split
    · rfl
    · by_cases hp : (afterCheckIasReport env (afterGetQuoteReport env self msg3 msg3Len).2 rep
          rd).self.m_raConfig.enable_pse = 0
      · simp [pseMatches, hp]
      · have hb : ((afterCheckIasReport env (afterGetQuoteReport env self msg3 msg3Len).2 rep
            rd).self.m_raConfig.enable_pse != 0) = true := by simpa using hp
        simp only [hb, if_true]
        split <;> rfl

theorem ProcessMsg3Full_of_null_report (env : Env) (exc : Msg3Callee → Option String)
    (self : RaProcessorSp) (msg3 : sgx_ra_msg3_t) (msg3Len : Nat) (outOriRD : Bool)
    (hga : self.m_peerEncrKey = msg3.g_a) (hcmac : exc .CMACer = none)
    (hin : mac_size msg3Len ≤ msg3.afterMac.length)
    (hmac : calcMac env self msg3 msg3Len = msg3.mac) (hh : exc .HasherReportData = none)
    (hrep : self.m_iasReport = none) :
    (self.ProcessMsg3Full env exc msg3 msg3Len outOriRD).msg4Pack = none
    ∧ (self.ProcessMsg3Full env exc msg3 msg3Len outOriRD).self.m_isAttested = self.m_isAttested
    ∧ ((∃ site m, (self.ProcessMsg3Full env exc msg3 msg3Len outOriRD).exit = .callee site m
          ∧ exc site = some m)
      ∨ (self.ProcessMsg3Full env exc msg3 msg3Len outOriRD).exit =
          .undefined "m_iasReport is null") := by
  have hk : consttime_memequal self.m_peerEncrKey.bytes msg3.g_a.bytes
      sizeof_sgx_ec256_public_t = true := (consttime_memequal_public _ _).2 hga
  have hm : consttime_memequal (calcMac env self msg3 msg3Len).val msg3.mac.val 16 = true :=
    (consttime_memequal_fixed _ _).2 hmac
  simp only [RaProcessorSp.ProcessMsg3Full, hk, hcmac, hm, Nat.not_lt.2 hin, hh, hrep]
  simp only [Bool.not_true, Bool.false_eq_true, if_false]
  cases hq : exc .GetQuoteReport with
  | some m => exact ⟨rfl, rfl, Or.inl ⟨_, m, rfl, hq⟩⟩
  | none =>
    simp only []
    split
    · cases hx : exc .X509Cert with
      | some m => exact ⟨rfl, rfl, Or.inl ⟨_, m, rfl, hx⟩⟩
      | none => exact ⟨rfl, rfl, Or.inr rfl⟩
    · exact ⟨rfl, rfl, Or.inr rfl⟩

/-- Every call of `ProcessMsg3` ends in one of two ways. Either nothing is written to
msg4Pack, and the call ends with the exception of the two message checks (the
prover is unchanged then), with an exception of a callee or with undefined
behaviour. Or msg3 has passed the two checks, msg4Pack holds the sealed msg4 built
from the report object, with is_accepted = 1 exactly when isAttested is true, and
the call returns normally when isAttested is true and throws the rejection when
it is false. -/
theorem ProcessMsg3Full_cases (env : Env) (exc : Msg3Callee → Option String)
    (self : RaProcessorSp) (msg3 : sgx_ra_msg3_t) (msg3Len : Nat) (outOriRD : Bool) :
    ((self.ProcessMsg3Full env exc msg3 msg3Len outOriRD).msg4Pack = none
      ∧ (((self.ProcessMsg3Full env exc msg3 msg3Len outOriRD).exit = .failedToVerify
          ∧ (self.ProcessMsg3Full env exc msg3 msg3Len outOriRD).self = self)
        ∨ (∃ site m, (self.ProcessMsg3Full env exc msg3 msg3Len outOriRD).exit = .callee site m
            ∧ exc site = some m)
        ∨ ∃ why, (self.ProcessMsg3Full env exc msg3 msg3Len outOriRD).exit = .undefined why))
    ∨ (∃ rep1, (self.ProcessMsg3Full env exc msg3 msg3Len outOriRD).self.m_iasReport = some rep1
      ∧ (self.ProcessMsg3Full env exc msg3 msg3Len outOriRD).msg4Pack =
          some (sealMsg4 env (self.ProcessMsg3Full env exc msg3 msg3Len outOriRD).self
            { report := rep1,
              is_accepted :=
                if (self.ProcessMsg3Full env exc msg3 msg3Len outOriRD).self.m_isAttested then 1
                else 0 })
      ∧ (self.ProcessMsg3Full env exc msg3 msg3Len outOriRD).exit =
          (if (self.ProcessMsg3Full env exc msg3 msg3Len outOriRD).self.m_isAttested
            then .returned else .rejected)
      ∧ self.m_peerEncrKey = msg3.g_a
      ∧ mac_size msg3Len ≤ msg3.afterMac.length
      ∧ calcMac env self msg3 msg3Len = msg3.mac) := by
  by_cases hchk : self.m_peerEncrKey = msg3.g_a ∧ exc .CMACer = none
      ∧ mac_size msg3Len ≤ msg3.afterMac.length ∧ calcMac env self msg3 msg3Len = msg3.mac
  swap
  · obtain ⟨hs, hp, _, he⟩ := ProcessMsg3Full_of_unchecked env exc self msg3 msg3Len outOriRD hchk
    refine Or.inl ⟨hp, ?_⟩
    rcases he with he | ⟨m, he, hc⟩ | he
    · exact Or.inl ⟨he, hs⟩
    · exact Or.inr (Or.inl ⟨.CMACer, m, he, hc⟩)
    · exact Or.inr (Or.inr ⟨_, he⟩)
  · obtain ⟨hga, hcmac, hin, hmac⟩ := hchk
    cases hh : exc .HasherReportData with
    | some m =>
      rw [ProcessMsg3Full_of_hasher_exception env exc self msg3 msg3Len outOriRD m hga hcmac hin
        hmac hh]
      exact Or.inl ⟨rfl, Or.inr (Or.inl ⟨_, m, rfl, hh⟩)⟩
    | none =>
      cases hrep : self.m_iasReport with
      | none =>
        obtain ⟨hp, _, he⟩ := ProcessMsg3Full_of_null_report env exc self msg3 msg3Len outOriRD
          hga hcmac hin hmac hh hrep
        refine Or.inl ⟨hp, ?_⟩
        rcases he with he | he
        · exact Or.inr (Or.inl he)
        · exact Or.inr (Or.inr ⟨_, he⟩)
      | some rep =>
        rw [ProcessMsg3Full_of_checked env exc self msg3 msg3Len outOriRD rep hga hcmac hin hmac
          hh hrep]
        cases hb : verifyQuoteBlockFull env exc self rep msg3 msg3Len
            (expectedReportData env self) with
        | inl e =>
          obtain ⟨s, site, m⟩ := e
          exact Or.inl ⟨rfl, Or.inr (Or.inl ⟨site, m, rfl,
            (verifyQuoteBlockFull_inl_isAttested env exc self rep msg3 msg3Len _ s site m hb).2⟩)⟩
        | inr b =>
          obtain ⟨s, rep1⟩ := b
          cases hq : exc .QuickAesGcmPack with
          | some m => exact Or.inl ⟨rfl, Or.inr (Or.inl ⟨_, m, rfl, hq⟩)⟩
          | none =>
            exact Or.inr ⟨rep1,
              verifyQuoteBlockFull_inr_iasReport env exc self rep msg3 msg3Len _ s rep1 hrep hb,
              rfl, rfl, hga, hin, hmac⟩

/-- When no callee throws and the CMAC reads inside msg3, the model with every exit
gives the result of `RaProcessorSp.ProcessMsg3`. -/
theorem ProcessMsg3Full_of_no_exception (env : Env) (exc : Msg3Callee → Option String)
    (self : RaProcessorSp) (msg3 : sgx_ra_msg3_t) (msg3Len : Nat) (outOriRD : Bool)
    (hexc : ∀ site, exc site = none) (hin : mac_size msg3Len ≤ msg3.afterMac.length) :
    (self.ProcessMsg3Full env exc msg3 msg3Len outOriRD).self =
        (self.ProcessMsg3 env msg3 msg3Len outOriRD).self
    ∧ (self.ProcessMsg3Full env exc msg3 msg3Len outOriRD).msg4Pack =
        (self.ProcessMsg3 env msg3 msg3Len outOriRD).msg4Pack
    ∧ (self.ProcessMsg3Full env exc msg3 msg3Len outOriRD).outOriRD =
        (self.ProcessMsg3 env msg3 msg3Len outOriRD).outOriRD
    ∧ (self.ProcessMsg3Full env exc msg3 msg3Len outOriRD).exit.toOutcome =
        (self.ProcessMsg3 env msg3 msg3Len outOriRD).outcome := by
  by_cases hga : self.m_peerEncrKey = msg3.g_a
  · by_cases hmac : calcMac env self msg3 msg3Len = msg3.mac
    · cases hrep : self.m_iasReport with
      | none =>
        have hk : consttime_memequal self.m_peerEncrKey.bytes msg3.g_a.bytes
            sizeof_sgx_ec256_public_t = true := (consttime_memequal_public _ _).2 hga
        have hm : consttime_memequal (calcMac env self msg3 msg3Len).val msg3.mac.val 16 = true :=
          (consttime_memequal_fixed _ _).2 hmac
        rw [ProcessMsg3_of_null_report env self msg3 msg3Len outOriRD hga hmac hrep]
        simp only [RaProcessorSp.ProcessMsg3Full, hk, hexc, hm, Nat.not_lt.2 hin, hrep]
        simp only [Bool.not_true, Bool.false_eq_true, if_false]
        split <;> exact ⟨rfl, rfl, rfl, rfl⟩
      | some rep =>
        rw [ProcessMsg3_of_checked env self msg3 msg3Len outOriRD rep hga hmac hrep,
          ProcessMsg3Full_of_checked env exc self msg3 msg3Len outOriRD rep hga (hexc _) hin hmac
            (hexc _) hrep,
          verifyQuoteBlockFull_of_no_exception env exc self rep msg3 msg3Len _ hexc]
        simp only [hexc, true_and]
        split <;> rfl
    · rw [ProcessMsg3_of_bad_mac env self msg3 msg3Len outOriRD hga hmac,
        ProcessMsg3Full_of_bad_mac env exc self msg3 msg3Len outOriRD hga (hexc _) hin hmac]
      exact ⟨rfl, rfl, rfl, rfl⟩
  · rw [ProcessMsg3_of_bad_g_a env self msg3 msg3Len outOriRD hga,
      ProcessMsg3Full_of_bad_g_a env exc self msg3 msg3Len outOriRD hga]
    exact ⟨rfl, rfl, rfl, rfl⟩

/-- Evaluation of the model with every exit on the demo prover. With msg3Len = 0 the
CMAC would read 2^32 - 16 bytes behind the MAC field of a msg3 that has 756 bytes
there: the call is not rejected, it reads behind the end of msg3. When the sealing
of msg4 throws after every validation passed, the call ends with that exception,
isAttested is true and no msg4 was written. -/
theorem ProcessMsg3Full_demo_exits :
    (demoAfterMsg1.ProcessMsg3Full demoEnv demoNoExc demoGoodMsg3 0 false).exit =
        .undefined "the CMAC reads behind the end of msg3"
    ∧ (demoAfterMsg1.ProcessMsg3Full demoEnv demoNoExc demoGoodMsg3 demoMsg3Len false).exit
        = .returned
    ∧ (demoAfterMsg1.ProcessMsg3Full demoEnv demoSealExc demoGoodMsg3 demoMsg3Len false).exit
        = .callee .QuickAesGcmPack "mbedTLS error"
    ∧ (demoAfterMsg1.ProcessMsg3Full demoEnv demoSealExc demoGoodMsg3 demoMsg3Len
        false).self.m_isAttested = true
    ∧ (demoAfterMsg1.ProcessMsg3Full demoEnv demoSealExc demoGoodMsg3 demoMsg3Len
        false).msg4Pack = none := by
  decide

/-! ## C1: which failures of `ProcessMsg3` still produce a msg4 -/

/-- C2, evaluation at the failing input. The demo prover has accepted a msg3
(isAttested is true). A second msg3 with the right key and MAC carries a quote
that differs from the quote of the IAS report, so the validation fails. The call
nevertheless returns normally, isAttested is still true and the sealed msg4
carries is_accepted = 1. -/
theorem ProcessMsg3_stale_isAttested :
    demoAttested.m_isAttested = true
    ∧ validationsPass demoEnv demoAttested demoReport demoBadQuoteMsg3 demoMsg3Len
        (expectedReportData demoEnv demoAttested) = false
    ∧ (demoAttested.ProcessMsg3 demoEnv demoBadQuoteMsg3 demoMsg3Len false).outcome = .returned
    ∧ (demoAttested.ProcessMsg3 demoEnv demoBadQuoteMsg3 demoMsg3Len false).self.m_isAttested
        = true
    ∧ (demoAttested.ProcessMsg3 demoEnv demoBadQuoteMsg3 demoMsg3Len false).msg4Pack =
        some (sealMsg4 demoEnv demoAttested { report := demoReport, is_accepted := 1 }) := by
  decide

/-! ## C3: `m_isAttested` is set only behind every validation -/

theorem validationsPass_iff (env : Env) (self : RaProcessorSp) (rep : sgx_ias_report_t)
    (msg3 : sgx_ra_msg3_t) (msg3Len : Nat) (rd : sgx_report_data_t) :
    validationsPass env self rep msg3 msg3Len rd = true ↔
      (afterGetQuoteReport env self msg3 msg3Len).1 = true
      ∧ (afterCheckIasReport env (afterGetQuoteReport env self msg3 msg3Len).2 rep rd).ok = true
      ∧ (env.simulating = false →
          msg3.quote.take (sizeof_sgx_quote_t - sizeof_signature_len) =
            (afterCheckIasReport env (afterGetQuoteReport env self msg3 msg3Len).2 rep
              rd).rep.m_quote.val.take (sizeof_sgx_quote_t - sizeof_signature_len))
      ∧ (self.m_raConfig.enable_pse ≠ 0 →
          env.SHA256 msg3.ps_sec_prop.val =
            (afterCheckIasReport env (afterGetQuoteReport env self msg3 msg3Len).2 rep
              rd).rep.m_pse_hash) := by
  have hcfg : (afterCheckIasReport env (afterGetQuoteReport env self msg3 msg3Len).2 rep
      rd).self.m_raConfig = self.m_raConfig := rfl
  simp only [validationsPass, Bool.and_eq_true, quoteMatches, pseMatches, hcfg, and_assoc]
  refine and_congr Iff.rfl (and_congr Iff.rfl (and_congr ?_ ?_))
  · cases env.simulating <;> simp [consttime_memequal_iff]
  · by_cases hp : self.m_raConfig.enable_pse = 0
    · simp [hp]
    · simp [hp, consttime_memequal_fixed]

/-- C3. The member isAttested is false after the constructor and after `Init`;
`ProcessMsg0` and `ProcessMsg1` leave it as it is; and when a call of `ProcessMsg3`
on a prover with isAttested = false ends with isAttested = true, then msg3.g_a is
the stored peer key, msg3.mac is the CMAC under SMK that the code computes, the
prover has a report object, the quote report was obtained, `CheckIasReport` returned
true, the first sizeof(sgx_quote_t) - sizeof(signature_len) bytes of the quote in
msg3 equal those of the quote in the report (production build), and, when
enable_pse is set, SHA256(ps_sec_prop) equals the PSE hash of the report. -/
theorem isAttested_gated (env : Env) (iasConnectorPtr : Nat) (mySignKey : Option EcKeyPair)
    (spidPtr : Option sgx_spid_t) (rpDataVrfy : Option SgxReportDataVerifier)
    (quoteVrfy : Option SgxQuoteVerifier) (raConfig : sgx_ra_config)
    (self : RaProcessorSp) (msg0s : sgx_ra_msg0s_t) (msg1 : sgx_ra_msg1_t) (msg2 : Bytes)
    (msg3 : sgx_ra_msg3_t) (msg3Len : Nat) (outOriRD : Bool) :
    (RaProcessorSp.new env iasConnectorPtr mySignKey spidPtr rpDataVrfy quoteVrfy
        raConfig).m_isAttested = false
    ∧ ((RaProcessorSp.new env iasConnectorPtr mySignKey spidPtr rpDataVrfy quoteVrfy
        raConfig).Init env).self.m_isAttested = false
    ∧ (self.Init env).self.m_isAttested = self.m_isAttested
    ∧ (self.ProcessMsg0 env msg0s).self.m_isAttested = self.m_isAttested
    ∧ (self.ProcessMsg1 env msg1 msg2).self.m_isAttested = self.m_isAttested
    ∧ (self.m_isAttested = false →
        (self.ProcessMsg3 env msg3 msg3Len outOriRD).self.m_isAttested = true →
        self.m_peerEncrKey = msg3.g_a
        ∧ msg3.mac = env.CMAC self.m_smk (msg3.afterMac.take (mac_size msg3Len))
        ∧ ∃ rep, self.m_iasReport = some rep
          ∧ (afterGetQuoteReport env self msg3 msg3Len).1 = true
          ∧ (afterCheckIasReport env (afterGetQuoteReport env self msg3 msg3Len).2 rep
              (expectedReportData env self)).ok = true
          ∧ (env.simulating = false →
              msg3.quote.take (sizeof_sgx_quote_t - sizeof_signature_len) =
                (afterCheckIasReport env (afterGetQuoteReport env self msg3 msg3Len).2 rep
                  (expectedReportData env self)).rep.m_quote.val.take
                  (sizeof_sgx_quote_t - sizeof_signature_len))
          ∧ (self.m_raConfig.enable_pse ≠ 0 →
              env.SHA256 msg3.ps_sec_prop.val =
                (afterCheckIasReport env (afterGetQuoteReport env self msg3 msg3Len).2 rep
                  (expectedReportData env self)).rep.m_pse_hash)) := by
  have hInit : ∀ s : RaProcessorSp, (s.Init env).self.m_isAttested = s.m_isAttested := by
    intro s
    simp only [RaProcessorSp.Init]
    split
    · split
      · rfl
      · split <;> rfl
    · rfl
  refine ⟨rfl, ?_, hInit self, ?_, ?_, ?_⟩
  · rw [hInit]; rfl
  · simp only [RaProcessorSp.ProcessMsg0]
    split
    · rfl
    · split <;> rfl
  · have hSet : (self.SetPeerEncrPubKey env (SgxEc256Type2General msg1.g_a)).self.m_isAttested
        = self.m_isAttested := by
      simp only [RaProcessorSp.SetPeerEncrPubKey]
      split
      · rfl
      · split <;> rfl
    simp only [RaProcessorSp.ProcessMsg1]
    split
    · split
      · split
        · exact hSet
        · split <;> exact hSet
      · exact hSet
      · exact hSet
    · exact hSet
  · intro hprev hatt
    by_cases hga : self.m_peerEncrKey = msg3.g_a
    · by_cases hmac : calcMac env self msg3 msg3Len = msg3.mac
      · cases hrep : self.m_iasReport with
        | none =>
          rw [ProcessMsg3_of_null_report env self msg3 msg3Len outOriRD hga hmac hrep] at hatt
          simp [hprev] at hatt
        | some rep =>
          rw [ProcessMsg3_of_checked env self msg3 msg3Len outOriRD rep hga hmac hrep] at hatt
          simp only [verifyQuoteBlock_isAttested, hprev, Bool.or_false] at hatt
          exact ⟨hga, hmac.symm, rep, rfl, (validationsPass_iff env self rep msg3 msg3Len _).1 hatt⟩
      · rw [ProcessMsg3_of_bad_mac env self msg3 msg3Len outOriRD hga hmac] at hatt
        simp [hprev] at hatt
    · rw [ProcessMsg3_of_bad_g_a env self msg3 msg3Len outOriRD hga] at hatt
      simp [hprev] at hatt

/-- C3, witness: the demo prover is not attested before the call, is attested after
it, and every validation listed in the theorem holds for the demo msg3. -/
theorem isAttested_gated_witness :
    demoAfterMsg1.m_isAttested = false
    ∧ (demoAfterMsg1.ProcessMsg3 demoEnv demoGoodMsg3 demoMsg3Len false).self.m_isAttested = true
    ∧ demoAfterMsg1.m_peerEncrKey = demoGoodMsg3.g_a
    ∧ demoGoodMsg3.mac =
        demoEnv.CMAC demoAfterMsg1.m_smk (demoGoodMsg3.afterMac.take (mac_size demoMsg3Len))
    ∧ ∃ rep, demoAfterMsg1.m_iasReport = some rep
      ∧ (afterGetQuoteReport demoEnv demoAfterMsg1 demoGoodMsg3 demoMsg3Len).1 = true
      ∧ (afterCheckIasReport demoEnv
          (afterGetQuoteReport demoEnv demoAfterMsg1 demoGoodMsg3 demoMsg3Len).2 rep
          (expectedReportData demoEnv demoAfterMsg1)).ok = true
      ∧ (demoEnv.simulating = false →
          demoGoodMsg3.quote.take (sizeof_sgx_quote_t - sizeof_signature_len) =
            (afterCheckIasReport demoEnv
              (afterGetQuoteReport demoEnv demoAfterMsg1 demoGoodMsg3 demoMsg3Len).2 rep
              (expectedReportData demoEnv demoAfterMsg1)).rep.m_quote.val.take
              (sizeof_sgx_quote_t - sizeof_signature_len))
      ∧ (demoAfterMsg1.m_raConfig.enable_pse ≠ 0 →
          demoEnv.SHA256 demoGoodMsg3.ps_sec_prop.val =
            (afterCheckIasReport demoEnv
              (afterGetQuoteReport demoEnv demoAfterMsg1 demoGoodMsg3 demoMsg3Len).2 rep
              (expectedReportData demoEnv demoAfterMsg1)).rep.m_pse_hash) :=
  ⟨by decide, by decide,
    (isAttested_gated demoEnv 0 none none none none demoConfig demoAfterMsg1 ⟨0⟩ demoMsg1 []
      demoGoodMsg3 demoMsg3Len false).2.2.2.2.2 (by decide) (by decide)⟩

/-! ## C4: the verdict of `ProcessMsg3` -/

/-- C4, counterexample. An attested demo prover gets a msg3 with a wrong g_a: the call
signals an error although isAttested is true at its end. On the prover that is not
yet attested the same msg3 ends with isAttested = false, but the exception is not
the rejection of line 289 and no msg4 was emitted. -/
theorem ProcessMsg3_error_while_attested :
    (demoAttested.ProcessMsg3 demoEnv demoBadGaMsg3 demoMsg3Len false).outcome.isThrown = true
    ∧ (demoAttested.ProcessMsg3 demoEnv demoBadGaMsg3 demoMsg3Len false).self.m_isAttested = true
    ∧ (demoAfterMsg1.ProcessMsg3 demoEnv demoBadGaMsg3 demoMsg3Len false).self.m_isAttested
        = false
    ∧ (demoAfterMsg1.ProcessMsg3 demoEnv demoBadGaMsg3 demoMsg3Len false).outcome ≠
        .thrown "RaProcessorSp::ProcessMsg3 rejects the quote; SGX RA failed."
    ∧ (demoAfterMsg1.ProcessMsg3 demoEnv demoBadGaMsg3 demoMsg3Len false).msg4Pack = none := by
  decide

/-- C4, amended. Whenever a call of `ProcessMsg3` has written msg4Pack, it holds the
sealed msg4 built from the report object with is_accepted = 1 exactly when
isAttested is true at the end of the call; such a call throws the rejection of
line 289 exactly when isAttested is false at the end and returns normally exactly
when it is true. A call returns normally only with isAttested = true and a msg4
with is_accepted = 1, and throws the rejection only with isAttested = false and a
msg4 with is_accepted = 0. When the prover has a report object, msg3 passes the two
checks (the CMAC reading inside msg3), every validation succeeds and no callee
throws, the call returns normally with isAttested = true and is_accepted = 1. A call that ends with the exception of the two message checks
writes no msg4 and leaves isAttested as it was, whatever its value; a call that
ends with an exception of a callee writes no msg4 either. -/
theorem ProcessMsg3Full_verdict (env : Env) (exc : Msg3Callee → Option String)
    (self : RaProcessorSp) (msg3 : sgx_ra_msg3_t) (msg3Len : Nat) (outOriRD : Bool) :
    (∀ p, (self.ProcessMsg3Full env exc msg3 msg3Len outOriRD).msg4Pack = some p →
      ∃ rep, (self.ProcessMsg3Full env exc msg3 msg3Len outOriRD).self.m_iasReport = some rep
        ∧ p = sealMsg4 env (self.ProcessMsg3Full env exc msg3 msg3Len outOriRD).self
            { report := rep,
              is_accepted :=
                if (self.ProcessMsg3Full env exc msg3 msg3Len outOriRD).self.m_isAttested then 1
                else 0 }
        ∧ ((self.ProcessMsg3Full env exc msg3 msg3Len outOriRD).exit = .rejected ↔
            (self.ProcessMsg3Full env exc msg3 msg3Len outOriRD).self.m_isAttested = false)
        ∧ ((self.ProcessMsg3Full env exc msg3 msg3Len outOriRD).exit = .returned ↔
            (self.ProcessMsg3Full env exc msg3 msg3Len outOriRD).self.m_isAttested = true))
    ∧ ((self.ProcessMsg3Full env exc msg3 msg3Len outOriRD).exit = .returned →
      (self.ProcessMsg3Full env exc msg3 msg3Len outOriRD).self.m_isAttested = true
      ∧ ∃ rep, (self.ProcessMsg3Full env exc msg3 msg3Len outOriRD).msg4Pack =
          some (sealMsg4 env (self.ProcessMsg3Full env exc msg3 msg3Len outOriRD).self
            { report := rep, is_accepted := 1 }))
    ∧ ((self.ProcessMsg3Full env exc msg3 msg3Len outOriRD).exit = .rejected →
      (self.ProcessMsg3Full env exc msg3 msg3Len outOriRD).self.m_isAttested = false
      ∧ ∃ rep, (self.ProcessMsg3Full env exc msg3 msg3Len outOriRD).msg4Pack =
          some (sealMsg4 env (self.ProcessMsg3Full env exc msg3 msg3Len outOriRD).self
            { report := rep, is_accepted := 0 }))
    ∧ (∀ rep, self.m_iasReport = some rep → self.m_peerEncrKey = msg3.g_a →
        mac_size msg3Len ≤ msg3.afterMac.length → calcMac env self msg3 msg3Len = msg3.mac →
        (∀ site, exc site = none) →
        validationsPass env self rep msg3 msg3Len (expectedReportData env self) = true →
      (self.ProcessMsg3Full env exc msg3 msg3Len outOriRD).exit = .returned
      ∧ (self.ProcessMsg3Full env exc msg3 msg3Len outOriRD).self.m_isAttested = true
      ∧ ∃ rep1, (self.ProcessMsg3Full env exc msg3 msg3Len outOriRD).msg4Pack =
          some (sealMsg4 env (self.ProcessMsg3Full env exc msg3 msg3Len outOriRD).self
            { report := rep1, is_accepted := 1 }))
    ∧ ((self.ProcessMsg3Full env exc msg3 msg3Len outOriRD).exit = .failedToVerify →
      (self.ProcessMsg3Full env exc msg3 msg3Len outOriRD).msg4Pack = none
      ∧ (self.ProcessMsg3Full env exc msg3 msg3Len outOriRD).self.m_isAttested
          = self.m_isAttested)
    ∧ (∀ site m, (self.ProcessMsg3Full env exc msg3 msg3Len outOriRD).exit = .callee site m →
      (self.ProcessMsg3Full env exc msg3 msg3Len outOriRD).msg4Pack = none)
    ∧ (self.m_peerEncrKey ≠ msg3.g_a →
      (self.ProcessMsg3Full env exc msg3 msg3Len outOriRD).exit = .failedToVerify) := by
  have hcases := ProcessMsg3Full_cases env exc self msg3 msg3Len outOriRD
  have hemit : ∀ p, (self.ProcessMsg3Full env exc msg3 msg3Len outOriRD).msg4Pack = some p →
      ∃ rep, (self.ProcessMsg3Full env exc msg3 msg3Len outOriRD).self.m_iasReport = some rep
        ∧ p = sealMsg4 env (self.ProcessMsg3Full env exc msg3 msg3Len outOriRD).self
            { report := rep,
              is_accepted :=
                if (self.ProcessMsg3Full env exc msg3 msg3Len outOriRD).self.m_isAttested then 1
                else 0 }
        ∧ ((self.ProcessMsg3Full env exc msg3 msg3Len outOriRD).exit = .rejected ↔
            (self.ProcessMsg3Full env exc msg3 msg3Len outOriRD).self.m_isAttested = false)
        ∧ ((self.ProcessMsg3Full env exc msg3 msg3Len outOriRD).exit = .returned ↔
            (self.ProcessMsg3Full env exc msg3 msg3Len outOriRD).self.m_isAttested = true) := by
    intro p hp
    rcases hcases with ⟨hp1, _⟩ | ⟨rep1, hr, hp1, he1, _⟩
    · rw [hp1] at hp
      simp at hp
    · refine ⟨rep1, hr, ?_, ?_, ?_⟩
      · rw [hp1] at hp
        exact (Option.some.inj hp).symm
      · rw [he1]
        cases (self.ProcessMsg3Full env exc msg3 msg3Len outOriRD).self.m_isAttested <;> simp
      · rw [he1]
        cases (self.ProcessMsg3Full env exc msg3 msg3Len outOriRD).self.m_isAttested <;> simp
  have hexit : (self.ProcessMsg3Full env exc msg3 msg3Len outOriRD).exit = .returned
        ∨ (self.ProcessMsg3Full env exc msg3 msg3Len outOriRD).exit = .rejected →
      ∃ rep, (self.ProcessMsg3Full env exc msg3 msg3Len outOriRD).msg4Pack =
          some (sealMsg4 env (self.ProcessMsg3Full env exc msg3 msg3Len outOriRD).self
            { report := rep,
              is_accepted :=
                if (self.ProcessMsg3Full env exc msg3 msg3Len outOriRD).self.m_isAttested then 1
                else 0 })
        ∧ (self.ProcessMsg3Full env exc msg3 msg3Len outOriRD).exit =
          (if (self.ProcessMsg3Full env exc msg3 msg3Len outOriRD).self.m_isAttested
            then .returned else .rejected) := by
    intro he
    rcases hcases with ⟨_, (⟨he1, _⟩ | ⟨site1, m1, he1, _⟩ | ⟨why, he1⟩)⟩
      | ⟨rep1, _, hp1, he1, _⟩
    · rcases he with he | he <;> (rw [he] at he1; simp at he1)
    · rcases he with he | he <;> (rw [he] at he1; simp at he1)
    · rcases he with he | he <;> (rw [he] at he1; simp at he1)
    · exact ⟨rep1, hp1, he1⟩
  refine ⟨hemit, ?_, ?_, ?_, ?_, ?_, ?_⟩
  · intro he
    obtain ⟨rep, hp, he1⟩ := hexit (Or.inl he)
    cases hb : (self.ProcessMsg3Full env exc msg3 msg3Len outOriRD).self.m_isAttested with
    | false =>
      rw [he, hb] at he1
      simp at he1
    | true =>
      rw [hb] at hp
      exact ⟨rfl, rep, hp⟩
  · intro he
    obtain ⟨rep, hp, he1⟩ := hexit (Or.inr he)
    cases hb : (self.ProcessMsg3Full env exc msg3 msg3Len outOriRD).self.m_isAttested with
    | true =>
      rw [he, hb] at he1
      simp at he1
    | false =>
      rw [hb] at hp
      exact ⟨rfl, rep, hp⟩
  · intro rep hrep hga hin hmac hexc hv
    have hb : (verifyQuoteBlock env self rep msg3 msg3Len
        (expectedReportData env self)).1.m_isAttested = true := by
      rw [verifyQuoteBlock_isAttested, hv]
      rfl
    rw [ProcessMsg3Full_of_checked env exc self msg3 msg3Len outOriRD rep hga (hexc _) hin hmac
        (hexc _) hrep,
      verifyQuoteBlockFull_of_no_exception env exc self rep msg3 msg3Len _ hexc]
    simp only [hexc, hb, if_true]
    exact ⟨trivial, trivial,
      (verifyQuoteBlock env self rep msg3 msg3Len (expectedReportData env self)).2, by
        simp [buildMsg4, hb]⟩
  · intro he
    rcases hcases with ⟨hp, (⟨_, hs⟩ | ⟨site, m, he1, _⟩ | ⟨why, he1⟩)⟩ | ⟨rep1, _, _, he1, _⟩
    · exact ⟨hp, by rw [hs]⟩
    · rw [he] at he1
      simp at he1
    · rw [he] at he1
      simp at he1
    · rw [he] at he1
      split at he1 <;> simp at he1
  · intro site m he
    rcases hcases with ⟨hp, _⟩ | ⟨rep1, _, _, he1, _⟩
    · exact hp
    · rw [he] at he1
      split at he1 <;> simp at he1
  · intro hga
    rw [ProcessMsg3Full_of_bad_g_a env exc self msg3 msg3Len outOriRD hga]

/-- C4, witness: the demo msg3 passes every validation and no callee throws; the call
returns normally, the prover is attested and msg4 carries is_accepted = 1. -/
theorem ProcessMsg3Full_verdict_witness :
    demoAfterMsg1.m_iasReport = some sgx_ias_report_t.zero
    ∧ mac_size demoMsg3Len ≤ demoGoodMsg3.afterMac.length
    ∧ validationsPass demoEnv demoAfterMsg1 sgx_ias_report_t.zero demoGoodMsg3 demoMsg3Len
        (expectedReportData demoEnv demoAfterMsg1) = true
    ∧ (demoAfterMsg1.ProcessMsg3Full demoEnv demoNoExc demoGoodMsg3 demoMsg3Len false).exit
        = .returned
    ∧ (demoAfterMsg1.ProcessMsg3Full demoEnv demoNoExc demoGoodMsg3 demoMsg3Len
        false).self.m_isAttested = true
    ∧ ∃ rep1, (demoAfterMsg1.ProcessMsg3Full demoEnv demoNoExc demoGoodMsg3 demoMsg3Len
        false).msg4Pack =
          some (sealMsg4 demoEnv
            (demoAfterMsg1.ProcessMsg3Full demoEnv demoNoExc demoGoodMsg3 demoMsg3Len
              false).self { report := rep1, is_accepted := 1 }) :=
  ⟨by decide, by decide, by decide,
    (ProcessMsg3Full_verdict demoEnv demoNoExc demoAfterMsg1 demoGoodMsg3 demoMsg3Len
      false).2.2.2.1 sgx_ias_report_t.zero (by decide) (by decide) (by decide) (by decide)
      (fun _ => rfl) (by decide)⟩

/-! ## C5: the prover has no record of the protocol step -/

theorem length_resize (buf : Bytes) (n : Nat) : (resize buf n).length = n := by
  simp [resize]; omega

theorem length_writeAt (buf : Bytes) (off : Nat) (src : Bytes)
    (h : off + src.length ≤ buf.length) : (writeAt buf off src).length = buf.length := by
  simp [writeAt]; omega

theorem take_writeAt_end (buf : Bytes) (off : Nat) (src : Bytes) (n : Nat)
    (h : off ≤ buf.length) (hn : n = off + src.length) :
    (writeAt buf off src).take n = buf.take off ++ src := by
  subst hn
  have hl : (buf.take off ++ src).length = off + src.length := by simp [h]
  rw [writeAt, List.take_append_of_le_length (le_of_eq hl.symm),
    List.take_of_length_le (le_of_eq hl)]

theorem take_writeAt_before (buf : Bytes) (off : Nat) (src : Bytes) (n : Nat)
    (h : off ≤ buf.length) (hn : n ≤ off) :
    (writeAt buf off src).take n = buf.take n := by
  have hl : n ≤ (buf.take off).length := by rw [List.length_take]; omega
  rw [writeAt, List.append_assoc, List.take_append_of_le_length hl, List.take_take,
    Nat.min_eq_left hn]

theorem drop_writeAt_after (buf : Bytes) (off : Nat) (src : Bytes) (n : Nat)
    (h : off ≤ buf.length) (hn : off + src.length ≤ n) :
    (writeAt buf off src).drop n = buf.drop n := by
  have hl : (buf.take off ++ src).length = off + src.length := by simp [h]
  obtain ⟨k, rfl⟩ := Nat.exists_eq_add_of_le hn
  rw [writeAt, ← hl, List.drop_append, hl, List.drop_drop]

theorem leBytes_length (n v : Nat) : (leBytes n v).length = n := by
  induction n generalizing v with
  | zero => rfl
  | succ n ih => simp [leBytes, ih]

theorem msg2AfterIds_spec (self : RaProcessorSp) (spid : sgx_spid_t) (msg2 : Bytes) :
    (msg2AfterIds self spid msg2).length = 168
    ∧ (msg2AfterIds self spid msg2).take 84 =
        self.m_myEncrKey.bytes ++ spid.val ++ leBytes 2 self.m_raConfig.linkable_sign
          ++ leBytes 2 self.m_raConfig.ckdf_id := by
  have hk : self.m_myEncrKey.bytes.take sizeof_sgx_ec256_public_t = self.m_myEncrKey.bytes :=
    public_bytes_take _
  have hs : spid.val.take sizeof_sgx_spid_t = spid.val :=
    List.take_of_length_le (le_of_eq spid.property)
  have h0 : (resize msg2 sizeof_sgx_ra_msg2_t).length = 168 := length_resize msg2 _
  have h1 : (writeAt (resize msg2 sizeof_sgx_ra_msg2_t) 0 self.m_myEncrKey.bytes).length = 168 := by
    rw [length_writeAt _ _ _ (by rw [h0, public_bytes_length]; omega), h0]
  have h2 : (writeAt (writeAt (resize msg2 sizeof_sgx_ra_msg2_t) 0 self.m_myEncrKey.bytes) 64
      spid.val).length = 168 := by
    rw [length_writeAt _ _ _ (by rw [h1, spid.property]; omega), h1]
  have h3 : (writeAt (writeAt (writeAt (resize msg2 sizeof_sgx_ra_msg2_t) 0
      self.m_myEncrKey.bytes) 64 spid.val) 80
      (leBytes 2 self.m_raConfig.linkable_sign)).length = 168 := by
    rw [length_writeAt _ _ _ (by rw [h2, leBytes_length]; omega), h2]
  simp only [msg2AfterIds, hk, hs]
  refine ⟨by rw [length_writeAt _ _ _ (by rw [h3, leBytes_length]; omega), h3], ?_⟩
  rw [take_writeAt_end _ 82 _ 84 (by rw [h3]; omega) (by rw [leBytes_length]),
    take_writeAt_end _ 80 _ 82 (by rw [h2]; omega) (by rw [leBytes_length]),
    take_writeAt_end _ 64 _ 80 (by rw [h1]; omega) (by rw [spid.property]),
    take_writeAt_end _ 0 _ 64 (Nat.zero_le _) (by rw [public_bytes_length])]
  simp

theorem msg2AfterSign_spec (env : Env) (self : RaProcessorSp) (spid : sgx_spid_t)
    (mySignKey : EcKeyPair) (msg2 : Bytes) :
    (msg2AfterSign env self spid mySignKey msg2).length = 168
    ∧ (msg2AfterSign env self spid mySignKey msg2).take 148 =
      self.m_myEncrKey.bytes ++ spid.val ++ leBytes 2 self.m_raConfig.linkable_sign
        ++ leBytes 2 self.m_raConfig.ckdf_id
        ++ (env.Sign mySignKey (hashToBeSigned env self)).x.val
        ++ (env.Sign mySignKey (hashToBeSigned env self)).y.val := by
  have hx := (env.Sign mySignKey (hashToBeSigned env self)).x.property
  have hy := (env.Sign mySignKey (hashToBeSigned env self)).y.property
  obtain ⟨h4, ht⟩ := msg2AfterIds_spec self spid msg2
  have h5 : (writeAt (msg2AfterIds self spid msg2) 84
      (env.Sign mySignKey (hashToBeSigned env self)).x.val).length = 168 := by
    rw [length_writeAt _ _ _ (by rw [h4, hx]; omega), h4]
  simp only [msg2AfterSign]
  refine ⟨by rw [length_writeAt _ _ _ (by rw [h5, hy]; omega), h5], ?_⟩
  rw [take_writeAt_end _ 116 _ 148 (by rw [h5]; omega) (by rw [hy]),
    take_writeAt_end _ 84 _ 116 (by rw [h4]; omega) (by rw [hx]), ht]

theorem msg2AfterMac_spec (env : Env) (self : RaProcessorSp) (spid : sgx_spid_t)
    (mySignKey : EcKeyPair) (msg2 : Bytes) :
    (msg2AfterMac env self spid mySignKey msg2).length = 168
    ∧ (msg2AfterMac env self spid mySignKey msg2).take 164 =
      (msg2AfterSign env self spid mySignKey msg2).take 148
        ++ (env.CMAC self.m_smk ((msg2AfterSign env self spid mySignKey msg2).take 148)).val := by
  obtain ⟨h5, -⟩ := msg2AfterSign_spec env self spid mySignKey msg2
  have hm := (env.CMAC self.m_smk ((msg2AfterSign env self spid mySignKey msg2).take 148)).property
  simp only [msg2AfterMac, offsetof_msg2_mac]
  exact ⟨by rw [length_writeAt _ _ _ (by rw [h5, hm]; omega), h5],
    take_writeAt_end _ 148 _ 164 (by rw [h5]; omega) (by rw [hm])⟩

theorem SetPeerEncrPubKey_of_derived (env : Env) (self : RaProcessorSp)
    (k : general_secp256r1_public_t) (kp : EcKeyPair) (shared : G256BitSecretKeyWrap)
    (hkp : self.m_encrKeyPair = some kp) (hsh : env.DeriveSharedKey kp k = some shared) :
    self.SetPeerEncrPubKey env k =
      ⟨{ self with
          m_peerEncrKey := k
          m_smk := env.CKDF shared "SMK"
          m_mk := env.CKDF shared "MK"
          m_sk := env.CKDF shared "SK"
          m_vk := env.CKDF shared "VK" }, .returned⟩ := by
  simp [RaProcessorSp.SetPeerEncrPubKey, hkp, hsh]

theorem ProcessMsg1_front_of_set (env : Env) (self s : RaProcessorSp) (msg1 : sgx_ra_msg1_t)
    (msg2 : Bytes) (spid : sgx_spid_t) (signKey : EcKeyPair)
    (hset : self.SetPeerEncrPubKey env msg1.g_a = ⟨s, .returned⟩)
    (hspid : s.m_spid = some spid) (hsk : s.m_mySignKey = some signKey) :
    (self.ProcessMsg1 env msg1 msg2).self = s
    ∧ (self.ProcessMsg1 env msg1 msg2).msg2.take 164 =
        (msg2AfterMac env s spid signKey msg2).take 164 := by
  have hl := (msg2AfterMac_spec env s spid signKey msg2).1
  simp only [RaProcessorSp.ProcessMsg1, SgxEc256Type2General, hset, hspid, hsk]
  split
  · exact ⟨rfl, rfl⟩
  · split
    · exact ⟨rfl, rfl⟩
    · rename_i revcListBin _
      refine ⟨rfl, ?_⟩
      simp only []
      have hw : (writeAt (msg2AfterMac env s spid signKey msg2) 164
          (leBytes 4 (revcListBin.length % 2 ^ 32))).length = 168 := by
        rw [length_writeAt _ _ _ (by rw [hl, leBytes_length]), hl]
      rw [List.take_append_of_le_length (by
        simp only [offsetof_msg2_sig_rl_size]; omega)]
      exact take_writeAt_before _ 164 _ 164 (by omega) (le_refl _)

theorem ProcessMsg1_front (env : Env) (self : RaProcessorSp) (msg1 : sgx_ra_msg1_t)
    (msg2 : Bytes) (kp : EcKeyPair) (shared : G256BitSecretKeyWrap) (spid : sgx_spid_t)
    (signKey : EcKeyPair) (hkp : self.m_encrKeyPair = some kp)
    (hsh : env.DeriveSharedKey kp msg1.g_a = some shared) (hspid : self.m_spid = some spid)
    (hsk : self.m_mySignKey = some signKey) :
    (self.ProcessMsg1 env msg1 msg2).self =
      { self with
          m_peerEncrKey := msg1.g_a
          m_smk := env.CKDF shared "SMK"
          m_mk := env.CKDF shared "MK"
          m_sk := env.CKDF shared "SK"
          m_vk := env.CKDF shared "VK" }
    ∧ (self.ProcessMsg1 env msg1 msg2).msg2.take 164 =
        (msg2AfterMac env { self with
          m_peerEncrKey := msg1.g_a
          m_smk := env.CKDF shared "SMK"
          m_mk := env.CKDF shared "MK"
          m_sk := env.CKDF shared "SK"
          m_vk := env.CKDF shared "VK" } spid signKey msg2).take 164 :=
  ProcessMsg1_front_of_set env self _ msg1 msg2 spid signKey
    (SetPeerEncrPubKey_of_derived env self msg1.g_a kp shared hkp hsh) hspid hsk

/-! ## C6: the g_a comparison and the MAC check of `ProcessMsg3` -/

theorem mac_size_in_range (msg3Len : Nat) (h16 : sizeof_sgx_mac_t ≤ msg3Len)
    (h32 : msg3Len < 2 ^ 32 + sizeof_sgx_mac_t) :
    mac_size msg3Len = msg3Len - sizeof_sgx_mac_t := by
  simp only [mac_size, sizeof_sgx_mac_t] at *
  omega

theorem afterMac_eq_drop (msg3 : sgx_ra_msg3_t) :
    msg3.afterMac = msg3.bytes.drop sizeof_sgx_mac_t := by
  simp only [sgx_ra_msg3_t.bytes, sizeof_sgx_mac_t]
  rw [List.drop_left' msg3.mac.property]

/-- For a message length in the range that the 32-bit length of the code can hold,
`ProcessMsg3` throws and leaves the prover unchanged for every msg3 whose g_a is not
the stored peer key and for every msg3 whose mac differs from the CMAC under SMK
over the msg3Len - 16 bytes behind the mac field. -/
theorem ProcessMsg3_rejects_in_range (env : Env) (self : RaProcessorSp)
    (msg3 : sgx_ra_msg3_t) (msg3Len : Nat) (outOriRD : Bool)
    (h16 : sizeof_sgx_mac_t ≤ msg3Len) (h32 : msg3Len < 2 ^ 32 + sizeof_sgx_mac_t)
    (hbad : msg3.g_a ≠ self.m_peerEncrKey
      ∨ msg3.mac ≠ env.CMAC self.m_smk
          ((msg3.bytes.drop sizeof_sgx_mac_t).take (msg3Len - sizeof_sgx_mac_t))) :
    (self.ProcessMsg3 env msg3 msg3Len outOriRD).outcome.isThrown = true
    ∧ (self.ProcessMsg3 env msg3 msg3Len outOriRD).self = self := by
  by_cases hga : self.m_peerEncrKey = msg3.g_a
  · have hmac : calcMac env self msg3 msg3Len ≠ msg3.mac := by
      intro hm
      rcases hbad with h | h
      · exact h hga.symm
      · exact h (by rw [← hm, calcMac, mac_size_in_range msg3Len h16 h32, afterMac_eq_drop])
    rw [ProcessMsg3_of_bad_mac env self msg3 msg3Len outOriRD hga hmac]
    exact ⟨rfl, rfl⟩
  · rw [ProcessMsg3_of_bad_g_a env self msg3 msg3Len outOriRD hga]
    exact ⟨rfl, rfl⟩

/-- C6, evaluation at the failing length. For msg3Len = 2^32 + 336 the code hands
320 bytes to the CMAC, not msg3Len - 16 = 2^32 + 320: the MAC that msg3.mac is
compared with covers g_a and ps_sec_prop only, none of the 2^32 bytes of the
quote that follow. -/
theorem calcMac_beyond_uint32 (env : Env) (self : RaProcessorSp) (msg3 : sgx_ra_msg3_t) :
    mac_size (2 ^ 32 + 336) = 320
    ∧ calcMac env self msg3 (2 ^ 32 + 336) =
        env.CMAC self.m_smk (msg3.g_a.bytes ++ msg3.ps_sec_prop.val) := by
  have hm : mac_size (2 ^ 32 + 336) = 320 := by decide
  have hl : (msg3.g_a.bytes ++ msg3.ps_sec_prop.val).length = 320 := by
    rw [List.length_append, public_bytes_length, msg3.ps_sec_prop.property]
  refine ⟨hm, ?_⟩
  rw [calcMac, hm, sgx_ra_msg3_t.afterMac, List.take_append_of_le_length (le_of_eq hl.symm),
    List.take_of_length_le (le_of_eq hl)]

/-! ## C7 and C8: the signature and the MAC in msg2 -/

theorem hashToBeSigned_eq (env : Env) (self : RaProcessorSp) :
    hashToBeSigned env self = env.SHA256 (self.m_myEncrKey.bytes ++ self.m_peerEncrKey.bytes) := by
  have hl : (self.m_myEncrKey.bytes ++ self.m_peerEncrKey.bytes).length = 128 := by
    rw [List.length_append, public_bytes_length, public_bytes_length]
  rw [hashToBeSigned, RaProcessorSp.memFromMyEncrKey,
    List.take_of_length_le (by rw [hl]; decide)]

/-- C7. When `ProcessMsg1` gets as far as the MAC (key pair, SPID and signing key are
present and the shared key for msg1.g_a is derived): the first 148 bytes of msg2
are g_b (the own ECDH public key), spid, quote_type = linkable_sign and
kdf_id = ckdf_id as 16-bit little-endian values, and the signature (x, y); the 16
bytes at offset 148, the mac field, are the CMAC over exactly these 148 bytes
under the SMK that this call derived with label SMK from the shared key for
msg1.g_a, which is also the SMK stored in the prover. -/
theorem ProcessMsg1_mac (env : Env) (self : RaProcessorSp) (msg1 : sgx_ra_msg1_t)
    (msg2 : Bytes) (kp : EcKeyPair) (shared : G256BitSecretKeyWrap) (spid : sgx_spid_t)
    (signKey : EcKeyPair) (hkp : self.m_encrKeyPair = some kp)
    (hsh : env.DeriveSharedKey kp msg1.g_a = some shared) (hspid : self.m_spid = some spid)
    (hsk : self.m_mySignKey = some signKey) :
    (self.ProcessMsg1 env msg1 msg2).self.m_smk = env.CKDF shared "SMK"
    ∧ (self.ProcessMsg1 env msg1 msg2).msg2.take offsetof_msg2_mac =
        self.m_myEncrKey.bytes ++ spid.val ++ leBytes 2 self.m_raConfig.linkable_sign
          ++ leBytes 2 self.m_raConfig.ckdf_id
          ++ (env.Sign signKey
                (env.SHA256 (self.m_myEncrKey.bytes ++ msg1.g_a.bytes))).x.val
          ++ (env.Sign signKey
                (env.SHA256 (self.m_myEncrKey.bytes ++ msg1.g_a.bytes))).y.val
    ∧ ((self.ProcessMsg1 env msg1 msg2).msg2.drop offsetof_msg2_mac).take 16 =
        (env.CMAC (env.CKDF shared "SMK")
          ((self.ProcessMsg1 env msg1 msg2).msg2.take offsetof_msg2_mac)).val := by
  obtain ⟨hself, hfront⟩ :=
    ProcessMsg1_front env self msg1 msg2 kp shared spid signKey hkp hsh hspid hsk
  rw [(msg2AfterMac_spec _ _ _ _ _).2, (msg2AfterSign_spec _ _ _ _ _).2,
    hashToBeSigned_eq] at hfront
  simp only [] at hfront
  have h148 : (self.ProcessMsg1 env msg1 msg2).msg2.take 148 =
      ((self.ProcessMsg1 env msg1 msg2).msg2.take 164).take 148 := by
    rw [List.take_take]; rfl
  have hdrop : ((self.ProcessMsg1 env msg1 msg2).msg2.drop 148).take 16 =
      ((self.ProcessMsg1 env msg1 msg2).msg2.take 164).drop 148 := by
    rw [List.drop_take]
  have hx := (env.Sign signKey (env.SHA256 (self.m_myEncrKey.bytes ++ msg1.g_a.bytes))).x.property
  have hy := (env.Sign signKey (env.SHA256 (self.m_myEncrKey.bytes ++ msg1.g_a.bytes))).y.property
  have hl : (self.m_myEncrKey.bytes ++ spid.val ++ leBytes 2 self.m_raConfig.linkable_sign
      ++ leBytes 2 self.m_raConfig.ckdf_id
      ++ (env.Sign signKey (env.SHA256 (self.m_myEncrKey.bytes ++ msg1.g_a.bytes))).x.val
      ++ (env.Sign signKey (env.SHA256 (self.m_myEncrKey.bytes ++ msg1.g_a.bytes))).y.val).length
      = 148 := by
    simp only [List.length_append, public_bytes_length, spid.property, leBytes_length, hx, hy]
  have ht : (self.ProcessMsg1 env msg1 msg2).msg2.take 148 =
      self.m_myEncrKey.bytes ++ spid.val ++ leBytes 2 self.m_raConfig.linkable_sign
        ++ leBytes 2 self.m_raConfig.ckdf_id
        ++ (env.Sign signKey (env.SHA256 (self.m_myEncrKey.bytes ++ msg1.g_a.bytes))).x.val
        ++ (env.Sign signKey (env.SHA256 (self.m_myEncrKey.bytes ++ msg1.g_a.bytes))).y.val := by
    rw [h148, hfront, List.take_append_of_le_length (le_of_eq hl.symm),
      List.take_of_length_le (le_of_eq hl)]
  refine ⟨by rw [hself], ht, ?_⟩
  simp only [offsetof_msg2_mac]
  rw [hdrop, ht, hfront, List.drop_left' hl]

/-- C7, witness: the demo prover and the demo msg1. -/
theorem ProcessMsg1_mac_witness :
    demoInit.m_encrKeyPair = some ⟨2⟩
    ∧ demoEnv.DeriveSharedKey ⟨2⟩ demoMsg1.g_a = some (FixedBytes.fill 32 6)
    ∧ ((demoInit.ProcessMsg1 demoEnv demoMsg1 []).msg2.drop offsetof_msg2_mac).take 16 =
        (demoEnv.CMAC (demoEnv.CKDF (FixedBytes.fill 32 6) "SMK")
          ((demoInit.ProcessMsg1 demoEnv demoMsg1 []).msg2.take offsetof_msg2_mac)).val :=
  ⟨by decide, by decide,
    (ProcessMsg1_mac demoEnv demoInit demoMsg1 [] ⟨2⟩ (FixedBytes.fill 32 6)
      (FixedBytes.zero 16) ⟨5⟩ (by decide) (by decide) (by decide) (by decide)).2.2⟩

/-- C8. When `ProcessMsg1` gets as far as the signature: the peer key stored is
msg1.g_a, the data that is hashed and signed with the long-term key is the 128
bytes g_b followed by g_a, and the 64 bytes of the field sign_gb_ga of msg2 (at
offset 84) are x and y of the signature over the SHA-256 of these bytes. -/
theorem ProcessMsg1_signature (env : Env) (self : RaProcessorSp) (msg1 : sgx_ra_msg1_t)
    (msg2 : Bytes) (kp : EcKeyPair) (shared : G256BitSecretKeyWrap) (spid : sgx_spid_t)
    (signKey : EcKeyPair) (hkp : self.m_encrKeyPair = some kp)
    (hsh : env.DeriveSharedKey kp msg1.g_a = some shared) (hspid : self.m_spid = some spid)
    (hsk : self.m_mySignKey = some signKey) :
    (self.ProcessMsg1 env msg1 msg2).self.m_peerEncrKey = msg1.g_a
    ∧ hashToBeSigned env (self.ProcessMsg1 env msg1 msg2).self =
        env.SHA256 (self.m_myEncrKey.bytes ++ msg1.g_a.bytes)
    ∧ (self.m_myEncrKey.bytes ++ msg1.g_a.bytes).length = 128
    ∧ ((self.ProcessMsg1 env msg1 msg2).msg2.drop 84).take 64 =
        (env.Sign signKey (env.SHA256 (self.m_myEncrKey.bytes ++ msg1.g_a.bytes))).x.val
          ++ (env.Sign signKey
                (env.SHA256 (self.m_myEncrKey.bytes ++ msg1.g_a.bytes))).y.val := by
  obtain ⟨hself, -⟩ :=
    ProcessMsg1_front env self msg1 msg2 kp shared spid signKey hkp hsh hspid hsk
  obtain ⟨-, ht, -⟩ := ProcessMsg1_mac env self msg1 msg2 kp shared spid signKey hkp hsh hspid hsk
  refine ⟨by rw [hself], by rw [hself, hashToBeSigned_eq], by
    rw [List.length_append, public_bytes_length, public_bytes_length], ?_⟩
  have hl : (self.m_myEncrKey.bytes ++ spid.val ++ leBytes 2 self.m_raConfig.linkable_sign
      ++ leBytes 2 self.m_raConfig.ckdf_id).length = 84 := by
    simp only [List.length_append, public_bytes_length, spid.property, leBytes_length]
  have h : ((self.ProcessMsg1 env msg1 msg2).msg2.drop 84).take 64 =
      ((self.ProcessMsg1 env msg1 msg2).msg2.take 148).drop 84 := by
    rw [List.drop_take]
  simp only [offsetof_msg2_mac] at ht
  rw [h, ht, List.append_assoc _ (Subtype.val _) (Subtype.val _), List.drop_left' hl]

/-- C8, witness: the demo prover and the demo msg1. -/
theorem ProcessMsg1_signature_witness :
    demoInit.m_mySignKey = some ⟨5⟩
    ∧ ((demoInit.ProcessMsg1 demoEnv demoMsg1 []).msg2.drop 84).take 64 =
        (demoEnv.Sign ⟨5⟩ (demoEnv.SHA256 (demoInit.m_myEncrKey.bytes ++ demoMsg1.g_a.bytes))).x.val
          ++ (demoEnv.Sign ⟨5⟩
                (demoEnv.SHA256 (demoInit.m_myEncrKey.bytes ++ demoMsg1.g_a.bytes))).y.val :=
  ⟨by decide,
    (ProcessMsg1_signature demoEnv demoInit demoMsg1 [] ⟨2⟩ (FixedBytes.fill 32 6)
      (FixedBytes.zero 16) ⟨5⟩ (by decide) (by decide) (by decide) (by decide)).2.2.2⟩

/-! ## C9: the expected report data -/

/-- C10. `SetPeerEncrPubKey` stores the peer key and, when the shared key is derived,
sets SMK, MK, SK and VK to the CKDF of that one shared key with the labels SMK,
MK, SK and VK. Hence two key schedules (two provers, key pairs a and b, peer keys
B and A) whose shared keys are equal end with the same four subkeys. -/
theorem key_schedule_deterministic (env : Env) (s1 s2 : RaProcessorSp) (a b : EcKeyPair)
    (A B : general_secp256r1_public_t) (shared : G256BitSecretKeyWrap)
    (h1 : s1.m_encrKeyPair = some a) (h2 : s2.m_encrKeyPair = some b)
    (hab : env.DeriveSharedKey a B = some shared) (hba : env.DeriveSharedKey b A = some shared) :
    (s1.SetPeerEncrPubKey env B).outcome = .returned
    ∧ (s1.SetPeerEncrPubKey env B).self.m_peerEncrKey = B
    ∧ (s1.SetPeerEncrPubKey env B).self.m_smk = env.CKDF shared "SMK"
    ∧ (s1.SetPeerEncrPubKey env B).self.m_mk = env.CKDF shared "MK"
    ∧ (s1.SetPeerEncrPubKey env B).self.m_sk = env.CKDF shared "SK"
    ∧ (s1.SetPeerEncrPubKey env B).self.m_vk = env.CKDF shared "VK"
    ∧ (s2.SetPeerEncrPubKey env A).self.m_smk = (s1.SetPeerEncrPubKey env B).self.m_smk
    ∧ (s2.SetPeerEncrPubKey env A).self.m_mk = (s1.SetPeerEncrPubKey env B).self.m_mk
    ∧ (s2.SetPeerEncrPubKey env A).self.m_sk = (s1.SetPeerEncrPubKey env B).self.m_sk
    ∧ (s2.SetPeerEncrPubKey env A).self.m_vk = (s1.SetPeerEncrPubKey env B).self.m_vk := by
  rw [SetPeerEncrPubKey_of_derived env s1 B a shared h1 hab,
    SetPeerEncrPubKey_of_derived env s2 A b shared h2 hba]
  exact ⟨rfl, rfl, rfl, rfl, rfl, rfl, rfl, rfl, rfl, rfl⟩

/-- C10, witness: the demo prover (private scalar 2) with the key of the client
(scalar 3), and the mirrored schedule of a party with scalar 3 and the key of the
prover; both derive the shared key with bytes 6. -/
theorem key_schedule_deterministic_witness :
    demoEnv.DeriveSharedKey ⟨2⟩ (demoEnv.ToPublicBinary ⟨3⟩) = some (FixedBytes.fill 32 6)
    ∧ demoEnv.DeriveSharedKey ⟨3⟩ (demoEnv.ToPublicBinary ⟨2⟩) = some (FixedBytes.fill 32 6)
    ∧ (demoPeerSide.SetPeerEncrPubKey demoEnv (demoEnv.ToPublicBinary ⟨2⟩)).self.m_sk =
        (demoInit.SetPeerEncrPubKey demoEnv (demoEnv.ToPublicBinary ⟨3⟩)).self.m_sk :=
  ⟨by decide, by decide,
    (key_schedule_deterministic demoEnv demoInit demoPeerSide ⟨2⟩ ⟨3⟩
      (demoEnv.ToPublicBinary ⟨2⟩) (demoEnv.ToPublicBinary ⟨3⟩) (FixedBytes.fill 32 6)
      (by decide) (by decide) (by decide) (by decide)).2.2.2.2.2.2.2.2.1⟩

/-! ## C11: the key schedule and an all-zero shared key -/

/-- C11, counterexample. In the demo environment the shared key for the all-zero
peer key is all-zero. `SetPeerEncrPubKey` returns normally and stores the subkeys
derived from it, and `ProcessMsg1` with that peer key returns normally as well. -/
theorem zero_shared_key_accepted :
    demoEnv.DeriveSharedKey ⟨2⟩ general_secp256r1_public_t.zero = some (FixedBytes.zero 32)
    ∧ (demoInit.SetPeerEncrPubKey demoEnv general_secp256r1_public_t.zero).outcome = .returned
    ∧ (demoInit.SetPeerEncrPubKey demoEnv general_secp256r1_public_t.zero).self.m_smk =
        demoEnv.CKDF (FixedBytes.zero 32) "SMK"
    ∧ (demoInit.ProcessMsg1 demoEnv ⟨general_secp256r1_public_t.zero, FixedBytes.zero 4⟩
        []).outcome = .returned := by
  decide

/-- C11, amended. On a prover with a key pair, `SetPeerEncrPubKey` ends with an
exception exactly when `DeriveSharedKey` throws; the peer key is stored in either
case. When it throws, the four subkeys keep their values. When it yields a shared
key, whatever its bytes are, the call returns normally and the four subkeys are
the CKDF outputs for that key. -/
theorem SetPeerEncrPubKey_no_zero_check (env : Env) (self : RaProcessorSp)
    (k : general_secp256r1_public_t) (kp : EcKeyPair) (hkp : self.m_encrKeyPair = some kp) :
    ((self.SetPeerEncrPubKey env k).outcome.isThrown = true ↔ env.DeriveSharedKey kp k = none)
    ∧ (self.SetPeerEncrPubKey env k).self.m_peerEncrKey = k
    ∧ (env.DeriveSharedKey kp k = none →
        (self.SetPeerEncrPubKey env k).self.m_smk = self.m_smk
        ∧ (self.SetPeerEncrPubKey env k).self.m_mk = self.m_mk
        ∧ (self.SetPeerEncrPubKey env k).self.m_sk = self.m_sk
        ∧ (self.SetPeerEncrPubKey env k).self.m_vk = self.m_vk)
    ∧ (∀ shared, env.DeriveSharedKey kp k = some shared →
        (self.SetPeerEncrPubKey env k).outcome = .returned
        ∧ (self.SetPeerEncrPubKey env k).self.m_smk = env.CKDF shared "SMK"
        ∧ (self.SetPeerEncrPubKey env k).self.m_mk = env.CKDF shared "MK"
        ∧ (self.SetPeerEncrPubKey env k).self.m_sk = env.CKDF shared "SK"
        ∧ (self.SetPeerEncrPubKey env k).self.m_vk = env.CKDF shared "VK") := by
  cases hd : env.DeriveSharedKey kp k with
  | none =>
    have h : self.SetPeerEncrPubKey env k =
        ⟨{ self with m_peerEncrKey := k }, .thrown "DeriveSharedKey failed."⟩ := by
      simp [RaProcessorSp.SetPeerEncrPubKey, hkp, hd]
    rw [h]
    exact ⟨⟨fun _ => rfl, fun _ => rfl⟩, rfl, fun _ => ⟨rfl, rfl, rfl, rfl⟩,
      fun shared hs => absurd hs (by simp)⟩
  | some sh =>
    rw [SetPeerEncrPubKey_of_derived env self k kp sh hkp hd]
    refine ⟨⟨fun h => by simp [Outcome.isThrown] at h, fun h => by simp at h⟩, rfl,
      fun h => by simp at h, ?_⟩
    intro shared hs
    obtain rfl : sh = shared := by simpa using hs
    exact ⟨rfl, rfl, rfl, rfl, rfl⟩

/-- C11, witness: the demo prover and the all-zero peer key, whose shared key is
all-zero. -/
theorem SetPeerEncrPubKey_no_zero_check_witness :
    demoInit.m_encrKeyPair = some ⟨2⟩
    ∧ (demoInit.SetPeerEncrPubKey demoEnv general_secp256r1_public_t.zero).outcome = .returned
    ∧ (demoInit.SetPeerEncrPubKey demoEnv general_secp256r1_public_t.zero).self.m_smk =
        demoEnv.CKDF (FixedBytes.zero 32) "SMK" :=
  ⟨by decide,
    ((SetPeerEncrPubKey_no_zero_check demoEnv demoInit general_secp256r1_public_t.zero ⟨2⟩
      (by decide)).2.2.2 (FixedBytes.zero 32) (by decide)).1,
    ((SetPeerEncrPubKey_no_zero_check demoEnv demoInit general_secp256r1_public_t.zero ⟨2⟩
      (by decide)).2.2.2 (FixedBytes.zero 32) (by decide)).2.1⟩

/-! ## C12: `ProcessMsg0` -/

/-- C12. `ProcessMsg0` leaves the prover unchanged. It ends with an exception exactly
when extended_grp_id is not 0, and then writes no msg0r. For extended_grp_id = 0
and a prover with a signing key it returns normally with msg0r made of the RA
configuration of the prover and the public key of the signing key. -/
theorem ProcessMsg0_spec (env : Env) (self : RaProcessorSp) (msg0s : sgx_ra_msg0s_t) :
    (self.ProcessMsg0 env msg0s).self = self
    ∧ ((self.ProcessMsg0 env msg0s).outcome.isThrown = true ↔ msg0s.extended_grp_id ≠ 0)
    ∧ (msg0s.extended_grp_id ≠ 0 → (self.ProcessMsg0 env msg0s).msg0r = none)
    ∧ (∀ signKey, self.m_mySignKey = some signKey → msg0s.extended_grp_id = 0 →
        (self.ProcessMsg0 env msg0s).outcome = .returned
        ∧ (self.ProcessMsg0 env msg0s).msg0r =
            some { ra_config := self.m_raConfig, sp_pub_key := env.ToPublicBinary signKey }) := by
  by_cases h0 : msg0s.extended_grp_id = 0
  · have hc : CheckExGrpId msg0s.extended_grp_id = true := by simp [CheckExGrpId, h0]
    cases hk : self.m_mySignKey with
    | none =>
      have h : self.ProcessMsg0 env msg0s = ⟨self, none, .undefined "m_mySignKey is null"⟩ := by
        simp [RaProcessorSp.ProcessMsg0, RaProcessorSp.GetMsg0r, hc, hk]
      rw [h]
      exact ⟨rfl, ⟨fun h => by simp [Outcome.isThrown] at h, fun h => absurd h0 h⟩,
        fun h => absurd h0 h, fun _ hs => by simp at hs⟩
    | some signKey =>
      have h : self.ProcessMsg0 env msg0s =
          ⟨self, some { ra_config := self.m_raConfig, sp_pub_key := env.ToPublicBinary signKey },
            .returned⟩ := by
        simp [RaProcessorSp.ProcessMsg0, RaProcessorSp.GetMsg0r, hc, hk]
      rw [h]
      refine ⟨rfl, ⟨fun h => by simp [Outcome.isThrown] at h, fun h => absurd h0 h⟩,
        fun h => absurd h0 h, ?_⟩
      intro sk hs _
      obtain rfl : signKey = sk := by simpa using hs
      exact ⟨rfl, rfl⟩
  · have hc : CheckExGrpId msg0s.extended_grp_id = false := by simp [CheckExGrpId, h0]
    have h : self.ProcessMsg0 env msg0s = ⟨self, none,
        .thrown "RA extension group ID given by the RA responder is not supported."⟩ := by
      simp [RaProcessorSp.ProcessMsg0, hc]
    rw [h]
    exact ⟨rfl, ⟨fun _ => h0, fun _ => rfl⟩, fun _ => rfl, fun _ _ hz => absurd hz h0⟩

/-- C12, witness: the demo prover answers msg0s with extended_grp_id = 0. -/
theorem ProcessMsg0_spec_witness :
    demoInit.m_mySignKey = some ⟨5⟩
    ∧ (demoInit.ProcessMsg0 demoEnv ⟨0⟩).outcome = .returned
    ∧ (demoInit.ProcessMsg0 demoEnv ⟨0⟩).msg0r =
        some { ra_config := demoInit.m_raConfig, sp_pub_key := demoEnv.ToPublicBinary ⟨5⟩ } :=
  ⟨by decide, (ProcessMsg0_spec demoEnv demoInit ⟨0⟩).2.2.2 ⟨5⟩ (by decide) rfl⟩

/-! ## C13: the PSE check -/

/-- A call that passes the two message checks and whose block ends without
attestation throws the rejection after it has sealed a msg4 with is_accepted = 0. -/
theorem ProcessMsg3_of_block_not_attested (env : Env) (self : RaProcessorSp)
    (msg3 : sgx_ra_msg3_t) (msg3Len : Nat) (outOriRD : Bool) (rep : sgx_ias_report_t)
    (hga : self.m_peerEncrKey = msg3.g_a) (hmac : calcMac env self msg3 msg3Len = msg3.mac)
    (hrep : self.m_iasReport = some rep)
    (hb : (verifyQuoteBlock env self rep msg3 msg3Len
      (expectedReportData env self)).1.m_isAttested = false) :
    (self.ProcessMsg3 env msg3 msg3Len outOriRD).outcome =
        .thrown "RaProcessorSp::ProcessMsg3 rejects the quote; SGX RA failed."
    ∧ (self.ProcessMsg3 env msg3 msg3Len outOriRD).self.m_isAttested = false
    ∧ ∃ rep1, (self.ProcessMsg3 env msg3 msg3Len outOriRD).msg4Pack =
        some (sealMsg4 env (self.ProcessMsg3 env msg3 msg3Len outOriRD).self
          { report := rep1, is_accepted := 0 }) := by
  rw [ProcessMsg3_of_checked env self msg3 msg3Len outOriRD rep hga hmac hrep]
  refine ⟨by simp [hb], hb,
    (verifyQuoteBlock env self rep msg3 msg3Len (expectedReportData env self)).2, ?_⟩
  simp [buildMsg4, hb]

/-- With PSE enabled, a msg3 that passes the two message checks on a prover that is
not attested but whose PSE descriptor hashes to something else than the PSE hash
of the report is rejected: the call throws, isAttested stays false and the sealed
msg4 carries is_accepted = 0. -/
theorem ProcessMsg3_pse_mismatch_rejects (env : Env) (self : RaProcessorSp)
    (msg3 : sgx_ra_msg3_t) (msg3Len : Nat) (outOriRD : Bool) (rep : sgx_ias_report_t)
    (hga : self.m_peerEncrKey = msg3.g_a) (hmac : calcMac env self msg3 msg3Len = msg3.mac)
    (hrep : self.m_iasReport = some rep) (hprev : self.m_isAttested = false)
    (hpse : self.m_raConfig.enable_pse ≠ 0)
    (hne : env.SHA256 msg3.ps_sec_prop.val ≠
      (afterCheckIasReport env (afterGetQuoteReport env self msg3 msg3Len).2 rep
        (expectedReportData env self)).rep.m_pse_hash) :
    (self.ProcessMsg3 env msg3 msg3Len outOriRD).outcome =
        .thrown "RaProcessorSp::ProcessMsg3 rejects the quote; SGX RA failed."
    ∧ (self.ProcessMsg3 env msg3 msg3Len outOriRD).self.m_isAttested = false
    ∧ ∃ rep1, (self.ProcessMsg3 env msg3 msg3Len outOriRD).msg4Pack =
        some (sealMsg4 env (self.ProcessMsg3 env msg3 msg3Len outOriRD).self
          { report := rep1, is_accepted := 0 }) := by
  have hv : validationsPass env self rep msg3 msg3Len (expectedReportData env self) = false := by
    rw [Bool.eq_false_iff]
    intro h
    exact hne (((validationsPass_iff env self rep msg3 msg3Len _).1 h).2.2.2 hpse)
  have hb : (verifyQuoteBlock env self rep msg3 msg3Len
      (expectedReportData env self)).1.m_isAttested = false := by
    rw [verifyQuoteBlock_isAttested, hv, hprev]; rfl
  exact ProcessMsg3_of_block_not_attested env self msg3 msg3Len outOriRD rep hga hmac hrep hb

/-- With PSE disabled the PSE descriptor enters the verdict of the block only through
the call of `GetQuoteReport`, which receives the whole msg3: two messages with the
same quote for which that call gives the same result have the same verdict. -/
theorem validationsPass_without_pse (env : Env) (self : RaProcessorSp)
    (rep : sgx_ias_report_t) (msg3 other : sgx_ra_msg3_t) (msg3Len : Nat)
    (rd : sgx_report_data_t) (hpse : self.m_raConfig.enable_pse = 0)
    (hquote : other.quote = msg3.quote)
    (hias : afterGetQuoteReport env self other msg3Len = afterGetQuoteReport env self msg3 msg3Len) :
    validationsPass env self rep other msg3Len rd = validationsPass env self rep msg3 msg3Len rd
    ∧ validationsPass env self rep msg3 msg3Len rd =
        ((afterGetQuoteReport env self msg3 msg3Len).1
          && (afterCheckIasReport env (afterGetQuoteReport env self msg3 msg3Len).2 rep rd).ok
          && quoteMatches env msg3
              (afterCheckIasReport env (afterGetQuoteReport env self msg3 msg3Len).2 rep
                rd).rep) := by
  have hcfg : ∀ m : sgx_ra_msg3_t,
      (afterCheckIasReport env (afterGetQuoteReport env self m msg3Len).2 rep
        rd).self.m_raConfig.enable_pse = 0 := fun _ => hpse
  have hq : ∀ r, quoteMatches env other r = quoteMatches env msg3 r := by
    intro r
    simp only [quoteMatches, hquote]
  simp only [validationsPass, pseMatches, hcfg, hias, hq]
  simp

/-- C13, evaluation at the failing input. The PSE demo prover has accepted a msg3
(isAttested is true, enable_pse is set). A second msg3 with the right key and MAC
has a PSE descriptor whose hash differs from the PSE hash of the report; every
other check passes. The call returns normally, isAttested is true and the sealed
msg4 carries is_accepted = 1. On the prover that is not yet attested the same
msg3 is rejected. -/
theorem ProcessMsg3_pse_mismatch_on_attested :
    demoPseAttested.m_isAttested = true
    ∧ demoPseAttested.m_raConfig.enable_pse = 1
    ∧ demoEnv.SHA256 (demoPseMsg3 8).ps_sec_prop.val ≠ demoReport.m_pse_hash
    ∧ (demoPseAttested.ProcessMsg3 demoEnv (demoPseMsg3 8) demoMsg3Len false).outcome = .returned
    ∧ (demoPseAttested.ProcessMsg3 demoEnv (demoPseMsg3 8) demoMsg3Len false).self.m_isAttested
        = true
    ∧ (demoPseAttested.ProcessMsg3 demoEnv (demoPseMsg3 8) demoMsg3Len false).msg4Pack =
        some (sealMsg4 demoEnv demoPseAttested { report := demoReport, is_accepted := 1 })
    ∧ (demoPseAfterMsg1.ProcessMsg3 demoEnv (demoPseMsg3 8) demoMsg3Len false).outcome.isThrown
        = true := by
  decide

/-! ## C14: the comparison of the quotes -/

/-- In a production build the comparison of line 255 holds exactly when the first
sizeof(sgx_quote_t) - sizeof(signature_len) = 432 bytes of the quote in msg3 and of
the quote in the report are equal. -/
theorem quoteMatches_iff (env : Env) (msg3 : sgx_ra_msg3_t) (rep : sgx_ias_report_t)
    (hsim : env.simulating = false) :
    quoteMatches env msg3 rep = true ↔ msg3.quote.take 432 = rep.m_quote.val.take 432 := by
  simp [quoteMatches, hsim, consttime_memequal_iff, sizeof_sgx_quote_t, sizeof_signature_len]

/-- In a production build, a msg3 that passes the two message checks on a prover that
is not attested but whose quote differs from the quote of the report within the
first 432 bytes is rejected: the call throws, isAttested stays false and the
sealed msg4 carries is_accepted = 0. -/
theorem ProcessMsg3_quote_mismatch_rejects (env : Env) (self : RaProcessorSp)
    (msg3 : sgx_ra_msg3_t) (msg3Len : Nat) (outOriRD : Bool) (rep : sgx_ias_report_t)
    (hga : self.m_peerEncrKey = msg3.g_a) (hmac : calcMac env self msg3 msg3Len = msg3.mac)
    (hrep : self.m_iasReport = some rep) (hprev : self.m_isAttested = false)
    (hsim : env.simulating = false)
    (hne : msg3.quote.take 432 ≠
      (afterCheckIasReport env (afterGetQuoteReport env self msg3 msg3Len).2 rep
        (expectedReportData env self)).rep.m_quote.val.take 432) :
    (self.ProcessMsg3 env msg3 msg3Len outOriRD).outcome =
        .thrown "RaProcessorSp::ProcessMsg3 rejects the quote; SGX RA failed."
    ∧ (self.ProcessMsg3 env msg3 msg3Len outOriRD).self.m_isAttested = false
    ∧ ∃ rep1, (self.ProcessMsg3 env msg3 msg3Len outOriRD).msg4Pack =
        some (sealMsg4 env (self.ProcessMsg3 env msg3 msg3Len outOriRD).self
          { report := rep1, is_accepted := 0 }) := by
  have hv : validationsPass env self rep msg3 msg3Len (expectedReportData env self) = false := by
    rw [Bool.eq_false_iff]
    intro h
    exact hne (((validationsPass_iff env self rep msg3 msg3Len _).1 h).2.2.1 hsim)
  have hb : (verifyQuoteBlock env self rep msg3 msg3Len
      (expectedReportData env self)).1.m_isAttested = false := by
    rw [verifyQuoteBlock_isAttested, hv, hprev]; rfl
  exact ProcessMsg3_of_block_not_attested env self msg3 msg3Len outOriRD rep hga hmac hrep hb

/-- C14, evaluation at the failing input. A msg3 whose quote agrees with the quote of
the report in the first 432 bytes and differs behind them passes the comparison
and is accepted. A msg3 whose quote differs in byte 431 fails the comparison and
is rejected by the prover that is not attested; the attested prover, however,
returns normally for it and seals a msg4 with is_accepted = 1. -/
theorem ProcessMsg3_quote_mismatch_on_attested :
    quoteMatches demoEnv demoOtherSigLenMsg3 demoReport = true
    ∧ (demoAfterMsg1.ProcessMsg3 demoEnv demoOtherSigLenMsg3 774 false).outcome = .returned
    ∧ quoteMatches demoEnv demoLastByteMsg3 demoReport = false
    ∧ (demoAfterMsg1.ProcessMsg3 demoEnv demoLastByteMsg3 demoMsg3Len false).outcome.isThrown
        = true
    ∧ demoAttested.m_isAttested = true
    ∧ (demoAttested.ProcessMsg3 demoEnv demoLastByteMsg3 demoMsg3Len false).outcome = .returned
    ∧ (demoAttested.ProcessMsg3 demoEnv demoLastByteMsg3 demoMsg3Len false).msg4Pack =
        some (sealMsg4 demoEnv demoAttested { report := demoReport, is_accepted := 1 }) := by
  decide

/-! ## C16: `Init` -/

/-- C16. `Init` returns normally exactly when the signing key is present, the RA
configuration passes `CheckRaConfigValidaty` and its ckdf_id is
SGX_DEFAULT_AES_CMAC_KDF_ID; in every other case, in particular for every other
ckdf_id, it ends with an exception. -/
theorem Init_spec (env : Env) (self : RaProcessorSp) :
    ((self.Init env).outcome = .returned ↔
      self.m_mySignKey ≠ none ∧ env.CheckRaConfigValidaty self.m_raConfig = true
        ∧ self.m_raConfig.ckdf_id = SGX_DEFAULT_AES_CMAC_KDF_ID)
    ∧ ((self.Init env).outcome.isThrown = true ↔
      ¬ (self.m_mySignKey ≠ none ∧ env.CheckRaConfigValidaty self.m_raConfig = true
        ∧ self.m_raConfig.ckdf_id = SGX_DEFAULT_AES_CMAC_KDF_ID))
    ∧ (self.m_raConfig.ckdf_id ≠ SGX_DEFAULT_AES_CMAC_KDF_ID →
      (self.Init env).outcome.isThrown = true) := by
  have key : ((self.Init env).outcome = .returned ↔
      self.m_mySignKey ≠ none ∧ env.CheckRaConfigValidaty self.m_raConfig = true
        ∧ self.m_raConfig.ckdf_id = SGX_DEFAULT_AES_CMAC_KDF_ID)
      ∧ ((self.Init env).outcome.isThrown = true ↔ (self.Init env).outcome ≠ .returned) := by
    cases hk : self.m_mySignKey with
    | none => simp [RaProcessorSp.Init, hk, Outcome.isThrown]
    | some signKey =>
      cases hv : env.CheckRaConfigValidaty self.m_raConfig with
      | false => simp [RaProcessorSp.Init, hk, hv, Outcome.isThrown]
      | true =>
        by_cases hc : self.m_raConfig.ckdf_id = SGX_DEFAULT_AES_CMAC_KDF_ID
        · simp [RaProcessorSp.Init, hk, hv, hc, CheckKeyDerivationFuncId, Outcome.isThrown]
        · simp [RaProcessorSp.Init, hk, hv, hc, CheckKeyDerivationFuncId, Outcome.isThrown]
  refine ⟨key.1, key.2.trans (not_congr key.1), ?_⟩
  intro hc
  exact key.2.2 (fun h => hc (key.1.1 h).2.2)

/-- C16, witness: a prover whose configuration has ckdf_id = 2 cannot be initialised. -/
theorem Init_spec_witness :
    demoBadKdfNew.m_raConfig.ckdf_id ≠ SGX_DEFAULT_AES_CMAC_KDF_ID
    ∧ (demoBadKdfNew.Init demoEnv).outcome.isThrown = true :=
  ⟨by decide, (Init_spec demoEnv demoBadKdfNew).2.2 (by decide)⟩

/-! ## C15: msg2 and the revocation list -/

theorem leValue_leBytes (n v : Nat) : leValue (leBytes n v) = v % 256 ^ n := by
  induction n generalizing v with
  | zero => simp [leBytes, leValue, Nat.mod_one]
  | succ n ih =>
    simp only [leBytes, leValue, ih]
    rw [pow_succ, Nat.mul_comm (256 ^ n) 256, Nat.mod_mul]

theorem ProcessMsg1_of_fetched (env : Env) (self : RaProcessorSp) (msg1 : sgx_ra_msg1_t)
    (msg2 : Bytes) (kp : EcKeyPair) (shared : G256BitSecretKeyWrap) (spid : sgx_spid_t)
    (signKey : EcKeyPair) (revcList : String) (revcListBin : Bytes)
    (hkp : self.m_encrKeyPair = some kp)
    (hsh : env.DeriveSharedKey kp msg1.g_a = some shared) (hspid : self.m_spid = some spid)
    (hsk : self.m_mySignKey = some signKey)
    (hrl : env.GetRevocationList self.m_iasConnectorPtr msg1.gid = some revcList)
    (hdec : env.base64_decode revcList = some revcListBin) :
    (self.ProcessMsg1 env msg1 msg2).outcome = .returned
    ∧ (self.ProcessMsg1 env msg1 msg2).msg2.length = 168 + revcListBin.length
    ∧ (self.ProcessMsg1 env msg1 msg2).msg2.drop 168 = revcListBin
    ∧ ((self.ProcessMsg1 env msg1 msg2).msg2.drop 164).take 4 =
        leBytes 4 (revcListBin.length % 2 ^ 32) := by
  have hset := SetPeerEncrPubKey_of_derived env self msg1.g_a kp shared hkp hsh
  have hl := fun s => (msg2AfterMac_spec env s spid signKey msg2).1
  have hres : ∃ b : Bytes, b.length = 168 ∧ self.ProcessMsg1 env msg1 msg2 =
      ⟨(self.SetPeerEncrPubKey env msg1.g_a).self,
        writeAt b 164 (leBytes 4 (revcListBin.length % 2 ^ 32)) ++ revcListBin, .returned⟩ := by
    refine ⟨msg2AfterMac env (self.SetPeerEncrPubKey env msg1.g_a).self spid signKey msg2,
      hl _, ?_⟩
    rw [hset]
    simp only [RaProcessorSp.ProcessMsg1, SgxEc256Type2General, hset, hspid, hsk, hrl, hdec,
      offsetof_msg2_sig_rl_size]
  obtain ⟨b, hb, hres⟩ := hres
  have hw : (writeAt b 164 (leBytes 4 (revcListBin.length % 2 ^ 32))).length = 168 := by
    rw [length_writeAt _ _ _ (by rw [hb, leBytes_length]), hb]
  have hw4 : (writeAt b 164 (leBytes 4 (revcListBin.length % 2 ^ 32))).drop 164 =
      leBytes 4 (revcListBin.length % 2 ^ 32) := by
    have hl4 : (b.take 164 ++ leBytes 4 (revcListBin.length % 2 ^ 32)).length = 168 := by
      simp [hb, leBytes_length]
    have hd : b.drop (164 + (leBytes 4 (revcListBin.length % 2 ^ 32)).length) = [] := by
      rw [leBytes_length]
      exact List.drop_of_length_le (by omega)
    rw [writeAt, hd, List.append_nil, List.drop_left' (by simp [hb])]
  rw [hres]
  refine ⟨rfl, by simp only [List.length_append, hw], List.drop_left' hw, ?_⟩
  simp only []
  rw [List.drop_append_of_le_length (by omega), hw4,
    List.take_append_of_le_length (by rw [leBytes_length]),
    List.take_of_length_le (by rw [leBytes_length])]

/-- C15, counterexample. In the demo environment whose decoded revocation list has 2^32
bytes `ProcessMsg1` returns normally with a msg2 of 168 + 2^32 bytes whose field
sig_rl_size (the four bytes at offset 164) has the value 0. -/
theorem sig_rl_size_wraps :
    demoBigEnv.base64_decode "AB" = some (List.replicate (2 ^ 32) 0)
    ∧ (demoInit.ProcessMsg1 demoBigEnv demoMsg1 []).outcome = .returned
    ∧ (demoInit.ProcessMsg1 demoBigEnv demoMsg1 []).msg2.length = 168 + 2 ^ 32
    ∧ leValue (((demoInit.ProcessMsg1 demoBigEnv demoMsg1 []).msg2.drop 164).take 4) = 0 := by
  have h := ProcessMsg1_of_fetched demoBigEnv demoInit demoMsg1 [] ⟨2⟩ (FixedBytes.fill 32 6)
    (FixedBytes.zero 16) ⟨5⟩ "AB" (List.replicate (2 ^ 32) 0) (by decide) (by decide)
    (by decide) (by decide) (by decide) rfl
  refine ⟨rfl, h.1, ?_, ?_⟩
  · rw [h.2.1, List.length_replicate]
  · rw [h.2.2.2, leValue_leBytes, List.length_replicate]
    norm_num

/-- C15, amended. When `ProcessMsg1` gets as far as the revocation list (key pair, SPID
and signing key are present, the shared key is derived): if the list cannot be
fetched the call ends with an exception; if it is fetched and decoded the call
returns normally, msg2 is the 168-byte header followed by the decoded list, its
length is 168 plus the length of the list, and the field sig_rl_size holds the
length of the list modulo 2^32, which is the length itself for a list shorter
than 2^32 bytes. -/
theorem ProcessMsg1_msg2_layout (env : Env) (self : RaProcessorSp) (msg1 : sgx_ra_msg1_t)
    (msg2 : Bytes) (kp : EcKeyPair) (shared : G256BitSecretKeyWrap) (spid : sgx_spid_t)
    (signKey : EcKeyPair) (hkp : self.m_encrKeyPair = some kp)
    (hsh : env.DeriveSharedKey kp msg1.g_a = some shared) (hspid : self.m_spid = some spid)
    (hsk : self.m_mySignKey = some signKey) :
    (env.GetRevocationList self.m_iasConnectorPtr msg1.gid = none →
      (self.ProcessMsg1 env msg1 msg2).outcome =
        .thrown "RaProcessorSp::ProcessMsg1 failed to get revocation list.")
    ∧ (∀ revcList revcListBin,
        env.GetRevocationList self.m_iasConnectorPtr msg1.gid = some revcList →
        env.base64_decode revcList = some revcListBin →
        (self.ProcessMsg1 env msg1 msg2).outcome = .returned
        ∧ (self.ProcessMsg1 env msg1 msg2).msg2.length = sizeof_sgx_ra_msg2_t + revcListBin.length
        ∧ (self.ProcessMsg1 env msg1 msg2).msg2.drop sizeof_sgx_ra_msg2_t = revcListBin
        ∧ leValue (((self.ProcessMsg1 env msg1 msg2).msg2.drop offsetof_msg2_sig_rl_size).take 4)
            = revcListBin.length % 2 ^ 32
        ∧ (revcListBin.length < 2 ^ 32 →
            leValue (((self.ProcessMsg1 env msg1 msg2).msg2.drop
              offsetof_msg2_sig_rl_size).take 4) = revcListBin.length)) := by
  constructor
  · intro hnone
    have hset := SetPeerEncrPubKey_of_derived env self msg1.g_a kp shared hkp hsh
    simp only [RaProcessorSp.ProcessMsg1, SgxEc256Type2General, hset, hspid, hsk, hnone]
  · intro revcList revcListBin hrl hdec
    obtain ⟨h1, h2, h3, h4⟩ := ProcessMsg1_of_fetched env self msg1 msg2 kp shared spid signKey
      revcList revcListBin hkp hsh hspid hsk hrl hdec
    have hv : leValue (((self.ProcessMsg1 env msg1 msg2).msg2.drop 164).take 4)
        = revcListBin.length % 2 ^ 32 := by
      have h256 : (256 : Nat) ^ 4 = 2 ^ 32 := by norm_num
      rw [h4, leValue_leBytes, h256, Nat.mod_mod]
    refine ⟨h1, h2, h3, hv, fun hlt => ?_⟩
    simp only [offsetof_msg2_sig_rl_size]
    rw [hv, Nat.mod_eq_of_lt hlt]

/-- C15, witness: the demo prover and the demo msg1; the decoded list has two bytes. -/
theorem ProcessMsg1_msg2_layout_witness :
    demoEnv.GetRevocationList demoInit.m_iasConnectorPtr demoMsg1.gid = some "AB"
    ∧ demoEnv.base64_decode "AB" = some [65, 66]
    ∧ (demoInit.ProcessMsg1 demoEnv demoMsg1 []).outcome = .returned
    ∧ (demoInit.ProcessMsg1 demoEnv demoMsg1 []).msg2.length = sizeof_sgx_ra_msg2_t + 2 :=
  ⟨by decide, by decide,
    ((ProcessMsg1_msg2_layout demoEnv demoInit demoMsg1 [] ⟨2⟩ (FixedBytes.fill 32 6)
      (FixedBytes.zero 16) ⟨5⟩ (by decide) (by decide) (by decide) (by decide)).2 "AB" [65, 66]
      (by decide) (by decide)).1,
    ((ProcessMsg1_msg2_layout demoEnv demoInit demoMsg1 [] ⟨2⟩ (FixedBytes.fill 32 6)
      (FixedBytes.zero 16) ⟨5⟩ (by decide) (by decide) (by decide) (by decide)).2 "AB" [65, 66]
      (by decide) (by decide)).2.1⟩

/-! ## C17: the size of the nonce -/

theorem RecvContainer_of_cons (c : ConnectionBase) (m : Bytes) (rest : List Bytes)
    (h : c.incoming = m :: rest) :
    c.RecvContainer = some (m, ⟨rest, c.log ++ [.RecvContainer m]⟩) := by
  simp [ConnectionBase.RecvContainer, h]

theorem finish_check_iff (tag : Bytes) (expected : FixedBytes 12) :
    (tag.length != gsk_defPrfResSize
      || !consttime_memequal tag expected.val gsk_defPrfResSize) = false ↔
    tag.length = 12 ∧ tag = expected.val := by
  simp only [gsk_defPrfResSize, Bool.or_eq_false_iff, bne_eq_false_iff_eq, Bool.not_eq_false',
    consttime_memequal_iff]
  constructor
  · rintro ⟨hl, ht⟩
    rw [List.take_of_length_le (le_of_eq hl),
      List.take_of_length_le (le_of_eq expected.property)] at ht
    exact ⟨hl, ht⟩
  · rintro ⟨hl, ht⟩
    exact ⟨hl, by rw [ht]⟩

theorem finishResume_of_tag (env : ClientEnv) (c : ConnectionBase) (saved : RaClientSession)
    (selfNonce peerNonce : Nat) (selfMsgHash peerMsgHash : General256Hash) (tag : Bytes)
    (rest : List Bytes) (h : c.incoming = tag :: rest) :
    finishResume env c saved selfNonce peerNonce selfMsgHash peerMsgHash =
      if tag.length = 12
          ∧ tag = (env.TlsPrf saved.m_session.m_secretKey gsk_finishLabel selfMsgHash).val then
        match deriveNewSession env saved selfNonce peerNonce with
        | none =>
          ⟨⟨rest, c.log ++ [.SendContainer
              (env.TlsPrf saved.m_session.m_secretKey gsk_finishLabel peerMsgHash).val,
              .RecvContainer tag]⟩, none, .thrown "mbedtls_hkdf failed."⟩
        | some currSession =>
          ⟨⟨rest, c.log ++ [.SendContainer
              (env.TlsPrf saved.m_session.m_secretKey gsk_finishLabel peerMsgHash).val,
              .RecvContainer tag]⟩, some currSession, .returned⟩
      else
        ⟨⟨rest, c.log ++ [.SendContainer
            (env.TlsPrf saved.m_session.m_secretKey gsk_finishLabel peerMsgHash).val,
            .RecvContainer tag]⟩, none,
          .thrown "Failed to verify ticket resume message from server."⟩ := by
  have hr : (c.SendContainer
      (env.TlsPrf saved.m_session.m_secretKey gsk_finishLabel peerMsgHash).val).RecvContainer =
      some (tag, ⟨rest, c.log ++ [.SendContainer
        (env.TlsPrf saved.m_session.m_secretKey gsk_finishLabel peerMsgHash).val,
        .RecvContainer tag]⟩) := by
    rw [RecvContainer_of_cons _ tag rest (by simpa [ConnectionBase.SendContainer] using h)]
    simp [ConnectionBase.SendContainer]
  simp only [finishResume, hr]
  by_cases hok : tag.length = 12
      ∧ tag = (env.TlsPrf saved.m_session.m_secretKey gsk_finishLabel selfMsgHash).val
  · rw [if_neg (by rw [(finish_check_iff tag _).2 hok]; simp), if_pos hok]
  · have hb : (tag.length != gsk_defPrfResSize
        || !consttime_memequal tag
            (env.TlsPrf saved.m_session.m_secretKey gsk_finishLabel selfMsgHash).val
            gsk_defPrfResSize) = true := by
      rw [← Bool.not_eq_false]
      exact fun hf => hok ((finish_check_iff tag _).1 hf)
    rw [if_pos hb, if_neg hok]

theorem Resume_of_no_ticket (env : ClientEnv) (connection : ConnectionBase)
    (savedSession : Option RaClientSession)
    (h : savedSession = none ∨ ∃ saved, savedSession = some saved ∧ saved.m_ticket.length = 0) :
    ResumeSessionFromTicket env connection savedSession =
      ⟨connection.SendRpc (noTicketRpc env), none, .returned⟩ := by
  rcases h with rfl | ⟨saved, rfl, h0⟩
  · rfl
  · simp [ResumeSessionFromTicket, h0]

theorem Resume_of_reply (env : ClientEnv) (connection : ConnectionBase)
    (saved : RaClientSession) (reply : Bytes) (more : List Bytes) (pos0 v pos1 : Nat)
    (hticket : saved.m_ticket.length ≠ 0) (hin : connection.incoming = reply :: more)
    (hctor : env.RpcParser_ctor reply = some pos0)
    (hres : env.RpcParser_GetPrimitiveArg 1 reply pos0 = some (v, pos1)) :
    ResumeSessionFromTicket env connection (some saved) =
      if v % 256 = 0 then
        ⟨⟨more, connection.log ++ [.SendRpc
            (hasTicketRpc env saved.m_ticket (env.RandStruct64 % 2 ^ 64)),
            .RecvContainer reply]⟩, none, .returned⟩
      else
        match env.RpcParser_GetPrimitiveArg 8 reply pos1 with
        | none =>
          ⟨⟨more, connection.log ++ [.SendRpc
              (hasTicketRpc env saved.m_ticket (env.RandStruct64 % 2 ^ 64)),
              .RecvContainer reply]⟩, none, .thrown "RpcParser failed."⟩
        | some r =>
          finishResume env
            ⟨more, connection.log ++ [.SendRpc
              (hasTicketRpc env saved.m_ticket (env.RandStruct64 % 2 ^ 64)),
              .RecvContainer reply]⟩
            saved (env.RandStruct64 % 2 ^ 64) (r.1 % 256 ^ 8)
            (env.SHA256 (hasTicketRpc env saved.m_ticket (env.RandStruct64 % 2 ^ 64)))
            (env.SHA256 reply) := by
  have hr : (connection.SendRpc
      (hasTicketRpc env saved.m_ticket (env.RandStruct64 % 2 ^ 64))).RecvContainer =
      some (reply, ⟨more, connection.log ++ [.SendRpc
        (hasTicketRpc env saved.m_ticket (env.RandStruct64 % 2 ^ 64)),
        .RecvContainer reply]⟩) := by
    rw [RecvContainer_of_cons _ reply more (by simpa [ConnectionBase.SendRpc] using hin)]
    simp [ConnectionBase.SendRpc]
  simp only [ResumeSessionFromTicket, hticket, if_false, hr, RpcParser.new, hctor, Option.map,
    RpcParser.GetPrimitiveArg, hres, RpcParser.GetFullBinary, pow_one]
  by_cases hv : v % 256 = 0
  · simp [hv]
  · simp only [hv, if_false]
    cases env.RpcParser_GetPrimitiveArg 8 reply pos1 <;> rfl

/-! ## Which runs of `ResumeSessionFromTicket` return -/

theorem Resume_inv (env : ClientEnv) (connection : ConnectionBase) (saved : RaClientSession)
    (hticket : saved.m_ticket.length ≠ 0)
    (h : (ResumeSessionFromTicket env connection (some saved)).outcome = .returned
      ∨ (ResumeSessionFromTicket env connection (some saved)).session ≠ none) :
    ∃ reply more pos0 v pos1, connection.incoming = reply :: more
      ∧ env.RpcParser_ctor reply = some pos0
      ∧ env.RpcParser_GetPrimitiveArg 1 reply pos0 = some (v, pos1)
      ∧ (v % 256 = 0
        ∨ (v % 256 ≠ 0 ∧ ∃ n pos2 tag rest curr,
            env.RpcParser_GetPrimitiveArg 8 reply pos1 = some (n, pos2)
            ∧ more = tag :: rest
            ∧ (tag.length = 12
              ∧ tag = (env.TlsPrf saved.m_session.m_secretKey gsk_finishLabel
                (env.SHA256 (hasTicketRpc env saved.m_ticket (env.RandStruct64 % 2 ^ 64)))).val)
            ∧ deriveNewSession env saved (env.RandStruct64 % 2 ^ 64) (n % 2 ^ 64) = some curr
            ∧ ResumeSessionFromTicket env connection (some saved) =
                ⟨⟨rest, connection.log ++
                  [.SendRpc (hasTicketRpc env saved.m_ticket (env.RandStruct64 % 2 ^ 64)),
                    .RecvContainer reply] ++
                  [.SendContainer (env.TlsPrf saved.m_session.m_secretKey gsk_finishLabel
                      (env.SHA256 reply)).val,
                    .RecvContainer tag]⟩, some curr, .returned⟩)) := by
  have h256 : (256 : Nat) ^ 8 = 2 ^ 64 := by norm_num
  cases hin : connection.incoming with
  | nil =>
    have hR : ResumeSessionFromTicket env connection (some saved) =
        ⟨connection.SendRpc (hasTicketRpc env saved.m_ticket (env.RandStruct64 % 2 ^ 64)), none,
          .thrown "RecvContainer failed."⟩ := by
      simp [ResumeSessionFromTicket, hticket, ConnectionBase.SendRpc,
        ConnectionBase.RecvContainer, hin]
    rw [hR] at h
    simp at h
  | cons reply more =>
    have hr : (connection.SendRpc
        (hasTicketRpc env saved.m_ticket (env.RandStruct64 % 2 ^ 64))).RecvContainer =
        some (reply, ⟨more, connection.log ++ [.SendRpc
          (hasTicketRpc env saved.m_ticket (env.RandStruct64 % 2 ^ 64)),
          .RecvContainer reply]⟩) := by
      rw [RecvContainer_of_cons _ reply more (by simpa [ConnectionBase.SendRpc] using hin)]
      simp [ConnectionBase.SendRpc]
    cases hctor : env.RpcParser_ctor reply with
    | none =>
      have hR : (ResumeSessionFromTicket env connection (some saved)).outcome =
            .thrown "RpcParser failed."
          ∧ (ResumeSessionFromTicket env connection (some saved)).session = none := by
        simp only [ResumeSessionFromTicket, hticket, if_false, hr, RpcParser.new, hctor,
          Option.map, and_self]
      rw [hR.1, hR.2] at h
      simp at h
    | some pos0 =>
      cases hres : env.RpcParser_GetPrimitiveArg 1 reply pos0 with
      | none =>
        have hR : (ResumeSessionFromTicket env connection (some saved)).outcome =
              .thrown "RpcParser failed."
            ∧ (ResumeSessionFromTicket env connection (some saved)).session = none := by
          simp only [ResumeSessionFromTicket, hticket, if_false, hr, RpcParser.new, hctor,
            Option.map, RpcParser.GetPrimitiveArg, hres, and_self]
        rw [hR.1, hR.2] at h
        simp at h
      | some r =>
        obtain ⟨v, pos1⟩ := r
        refine ⟨reply, more, pos0, v, pos1, rfl, hctor, hres, ?_⟩
        by_cases hv : v % 256 = 0
        · exact Or.inl hv
        · refine Or.inr ⟨hv, ?_⟩
          have hR := Resume_of_reply env connection saved reply more pos0 v pos1 hticket hin
            hctor hres
          simp only [hv, if_false, h256] at hR
          cases hn : env.RpcParser_GetPrimitiveArg 8 reply pos1 with
          | none =>
            rw [hn] at hR
            rw [hR] at h
            simp at h
          | some r2 =>
            obtain ⟨n, pos2⟩ := r2
            rw [hn] at hR
            simp only [] at hR
            cases more with
            | nil =>
              rw [hR] at h
              simp [finishResume, ConnectionBase.RecvContainer, ConnectionBase.SendContainer] at h
            | cons tag rest =>
              rw [finishResume_of_tag env _ saved _ _ _ _ tag rest rfl] at hR
              by_cases hok : tag.length = 12
                  ∧ tag = (env.TlsPrf saved.m_session.m_secretKey gsk_finishLabel
                    (env.SHA256 (hasTicketRpc env saved.m_ticket
                      (env.RandStruct64 % 2 ^ 64)))).val
              · rw [if_pos hok] at hR
                cases hd : deriveNewSession env saved (env.RandStruct64 % 2 ^ 64)
                    (n % 2 ^ 64) with
                | none =>
                  rw [hd] at hR
                  rw [hR] at h
                  simp at h
                | some curr =>
                  rw [hd] at hR
                  exact ⟨n, pos2, tag, rest, curr, rfl, rfl, hok, hd, hR⟩
              · rw [if_neg hok] at hR
                rw [hR] at h
                simp at h

theorem Resume_of_session (env : ClientEnv) (connection : ConnectionBase)
    (savedSession : Option RaClientSession) (curr : RaSession)
    (h : (ResumeSessionFromTicket env connection savedSession).session = some curr) :
    ∃ saved reply tag rest pos0 v pos1 n pos2, savedSession = some saved
      ∧ saved.m_ticket.length ≠ 0
      ∧ connection.incoming = reply :: tag :: rest
      ∧ env.RpcParser_ctor reply = some pos0
      ∧ env.RpcParser_GetPrimitiveArg 1 reply pos0 = some (v, pos1)
      ∧ v % 256 ≠ 0
      ∧ env.RpcParser_GetPrimitiveArg 8 reply pos1 = some (n, pos2)
      ∧ (tag.length = 12
        ∧ tag = (env.TlsPrf saved.m_session.m_secretKey gsk_finishLabel
          (env.SHA256 (hasTicketRpc env saved.m_ticket (env.RandStruct64 % 2 ^ 64)))).val)
      ∧ deriveNewSession env saved (env.RandStruct64 % 2 ^ 64) (n % 2 ^ 64) = some curr
      ∧ ResumeSessionFromTicket env connection savedSession =
          ⟨⟨rest, connection.log ++
            [.SendRpc (hasTicketRpc env saved.m_ticket (env.RandStruct64 % 2 ^ 64)),
              .RecvContainer reply] ++
            [.SendContainer (env.TlsPrf saved.m_session.m_secretKey gsk_finishLabel
                (env.SHA256 reply)).val,
              .RecvContainer tag]⟩, some curr, .returned⟩ := by
  cases savedSession with
  | none =>
    rw [Resume_of_no_ticket env connection none (Or.inl rfl)] at h
    simp at h
  | some saved =>
    by_cases hticket : saved.m_ticket.length = 0
    · rw [Resume_of_no_ticket env connection (some saved) (Or.inr ⟨saved, rfl, hticket⟩)] at h
      simp at h
    · obtain ⟨reply, more, pos0, v, pos1, hin, hctor, hres, hcase⟩ :=
        Resume_inv env connection saved hticket (Or.inr (by rw [h]; simp))
      rcases hcase with hv | ⟨hv, n, pos2, tag, rest, curr1, hn, hmore, hok, hd, hR⟩
      · rw [Resume_of_reply env connection saved reply more pos0 v pos1 hticket hin hctor hres,
          if_pos hv] at h
        simp at h
      · subst hmore
        have hc : curr1 = curr := by
          rw [hR] at h
          simpa using h
        subst hc
        exact ⟨saved, reply, tag, rest, pos0, v, pos1, n, pos2, rfl, hticket, hin, hctor, hres,
          hv, hn, hok, hd, hR⟩

theorem fullHandShake_calls_head (env : ClientEnv) (c : ConnectionBase)
    (proc : RaProcessorClient) :
    (fullHandShake env c proc).calls.head? = some "GetMsg0s" := by
  simp only [fullHandShake]
  repeat' split
  all_goals rfl

/-! ## C18: which failures of the resumption fall back to the full handshake -/

theorem DoHandShake_of_resume (env : ClientEnv) (connection : ConnectionBase)
    (proc : RaProcessorClient) (savedSession : Option RaClientSession) (r : ResumeResult)
    (hr : ResumeSessionFromTicket env connection savedSession = r) :
    DoHandShake env connection (some proc) savedSession =
      match r.outcome with
      | .returned =>
        match r.session with
        | some currSession => ⟨r.connection, [], some (savedSession, currSession), .returned⟩
        | none => fullHandShake env r.connection proc
      | o => ⟨r.connection, [], none, o⟩ := by
  subst hr
  rfl

/-- C18, counterexample. The server accepts the ticket of the demo client and sends a
verification message with wrong content (and, in a second run, of wrong length).
`DoHandShake` ends with the exception of line 134: no method of the RA processor is
called, no session is returned and nothing of the full handshake is sent, although
the full handshake with the messages that follow would succeed. -/
theorem resume_bad_finish_tag_is_fatal :
    (DoHandShake demoClientEnv demoBadTagConn (some demoProcessor) (some demoSaved)).outcome =
        .thrown "Failed to verify ticket resume message from server."
    ∧ (DoHandShake demoClientEnv demoBadTagConn (some demoProcessor) (some demoSaved)).calls = []
    ∧ (DoHandShake demoClientEnv demoBadTagConn (some demoProcessor) (some demoSaved)).sessions
        = none
    ∧ (DoHandShake demoClientEnv demoBadTagConn (some demoProcessor)
        (some demoSaved)).connection.incoming = demoServerHandShake
    ∧ (DoHandShake demoClientEnv demoShortTagConn (some demoProcessor) (some demoSaved)).outcome =
        .thrown "Failed to verify ticket resume message from server."
    ∧ (fullHandShake demoClientEnv ⟨demoServerHandShake, []⟩ demoProcessor).outcome = .returned := by
  decide

/-- C18, amended. `DoHandShake` enters the full RA handshake (its first step is the
call of `GetMsg0s`) exactly when `ResumeSessionFromTicket` returns without a
session, and that happens exactly when there is no saved session or its ticket is
empty, or when the reply of the server is received and parsed and its first
argument is 0. In these cases `DoHandShake` is the full handshake on the connection
as the resumption left it. In every other case no method of the RA processor is
called and nothing more is sent or received: when the resumption yields a session
`DoHandShake` returns it, and when the resumption ends with an exception
`DoHandShake` ends with the same exception and without a session. In particular,
when the server accepted the ticket and its verification message has not 12 bytes
or differs from the tag that the client computed, `DoHandShake` ends with the
exception of line 134. -/
theorem DoHandShake_fallback (env : ClientEnv) (connection : ConnectionBase)
    (proc : RaProcessorClient) (savedSession : Option RaClientSession) :
    ((ResumeSessionFromTicket env connection savedSession).outcome = .returned →
      (ResumeSessionFromTicket env connection savedSession).session = none →
      DoHandShake env connection (some proc) savedSession =
        fullHandShake env (ResumeSessionFromTicket env connection savedSession).connection proc)
    ∧ (savedSession = none
        ∨ (∃ saved, savedSession = some saved ∧ saved.m_ticket.length = 0) →
      DoHandShake env connection (some proc) savedSession =
        fullHandShake env (connection.SendRpc (noTicketRpc env)) proc)
    ∧ (∀ (saved : RaClientSession) (reply : Bytes) (more : List Bytes) (pos0 v pos1 : Nat),
      savedSession = some saved → saved.m_ticket.length ≠ 0 →
      connection.incoming = reply :: more → env.RpcParser_ctor reply = some pos0 →
      env.RpcParser_GetPrimitiveArg 1 reply pos0 = some (v, pos1) → v % 256 = 0 →
      DoHandShake env connection (some proc) savedSession =
        fullHandShake env
          ⟨more, connection.log ++ [.SendRpc
            (hasTicketRpc env saved.m_ticket (env.RandStruct64 % 2 ^ 64)),
            .RecvContainer reply]⟩ proc)
    ∧ (∀ (saved : RaClientSession) (reply tag : Bytes) (more : List Bytes)
        (pos0 v pos1 n pos2 : Nat),
      savedSession = some saved → saved.m_ticket.length ≠ 0 →
      connection.incoming = reply :: tag :: more → env.RpcParser_ctor reply = some pos0 →
      env.RpcParser_GetPrimitiveArg 1 reply pos0 = some (v, pos1) → v % 256 ≠ 0 →
      env.RpcParser_GetPrimitiveArg 8 reply pos1 = some (n, pos2) →
      ¬ (tag.length = 12
        ∧ tag = (env.TlsPrf saved.m_session.m_secretKey gsk_finishLabel
            (env.SHA256 (hasTicketRpc env saved.m_ticket (env.RandStruct64 % 2 ^ 64)))).val) →
      (DoHandShake env connection (some proc) savedSession).outcome =
          .thrown "Failed to verify ticket resume message from server."
      ∧ (DoHandShake env connection (some proc) savedSession).calls = []
      ∧ (DoHandShake env connection (some proc) savedSession).sessions = none
      ∧ (DoHandShake env connection (some proc) savedSession).connection.incoming = more)
    ∧ ((DoHandShake env connection (some proc) savedSession).calls.head? = some "GetMsg0s" ↔
      ((ResumeSessionFromTicket env connection savedSession).outcome = .returned
        ∧ (ResumeSessionFromTicket env connection savedSession).session = none))
    ∧ (((ResumeSessionFromTicket env connection savedSession).outcome = .returned
        ∧ (ResumeSessionFromTicket env connection savedSession).session = none) ↔
      ((savedSession = none ∨ ∃ saved, savedSession = some saved ∧ saved.m_ticket.length = 0)
        ∨ ∃ saved reply more pos0 v pos1, savedSession = some saved
            ∧ saved.m_ticket.length ≠ 0 ∧ connection.incoming = reply :: more
            ∧ env.RpcParser_ctor reply = some pos0
            ∧ env.RpcParser_GetPrimitiveArg 1 reply pos0 = some (v, pos1) ∧ v % 256 = 0))
    ∧ (¬ ((ResumeSessionFromTicket env connection savedSession).outcome = .returned
        ∧ (ResumeSessionFromTicket env connection savedSession).session = none) →
      (DoHandShake env connection (some proc) savedSession).calls = []
      ∧ (DoHandShake env connection (some proc) savedSession).connection =
          (ResumeSessionFromTicket env connection savedSession).connection
      ∧ (∀ curr, (ResumeSessionFromTicket env connection savedSession).session = some curr →
          (DoHandShake env connection (some proc) savedSession).sessions =
            some (savedSession, curr))
      ∧ ((ResumeSessionFromTicket env connection savedSession).outcome ≠ .returned →
          (DoHandShake env connection (some proc) savedSession).outcome =
            (ResumeSessionFromTicket env connection savedSession).outcome
          ∧ (DoHandShake env connection (some proc) savedSession).sessions = none)) := by
  have hD := DoHandShake_of_resume env connection proc savedSession _ rfl
  have hsome : ∀ curr, (ResumeSessionFromTicket env connection savedSession).session = some curr →
      (ResumeSessionFromTicket env connection savedSession).outcome = .returned := by
    intro curr hc
    obtain ⟨_, _, _, _, _, _, _, _, _, _, _, _, _, _, _, _, _, _, hR⟩ :=
      Resume_of_session env connection savedSession curr hc
    rw [hR]
  refine ⟨?_, ?_, ?_, ?_, ?_, ?_, ?_⟩
  · intro ho hs
    rw [DoHandShake_of_resume env connection proc savedSession _ rfl]
    simp only [ho, hs]
  · intro h
    rw [DoHandShake_of_resume env connection proc savedSession _
      (Resume_of_no_ticket env connection savedSession h)]
  · intro saved reply more pos0 v pos1 hsv hticket hin hctor hres hv
    subst hsv
    rw [DoHandShake_of_resume env connection proc (some saved) _
      (Resume_of_reply env connection saved reply more pos0 v pos1 hticket hin hctor hres)]
    simp only [hv, if_true]
  · intro saved reply tag more pos0 v pos1 n pos2 hsv hticket hin hctor hres hv hn hbad
    subst hsv
    rw [DoHandShake_of_resume env connection proc (some saved) _
      (Resume_of_reply env connection saved reply (tag :: more) pos0 v pos1 hticket hin hctor
        hres)]
    simp only [hv, if_false, hn]
    rw [finishResume_of_tag env _ saved _ _ _ _ tag more rfl, if_neg hbad]
    exact ⟨rfl, rfl, rfl, rfl⟩
  · constructor
    · intro hcalls
      cases ho : (ResumeSessionFromTicket env connection savedSession).outcome with
      | returned =>
        cases hs : (ResumeSessionFromTicket env connection savedSession).session with
        | none => exact ⟨rfl, rfl⟩
        | some curr =>
          rw [ho, hs] at hD
          rw [hD] at hcalls
          simp at hcalls
      | thrown msg =>
        rw [ho] at hD
        rw [hD] at hcalls
        simp at hcalls
      | undefined why =>
        rw [ho] at hD
        rw [hD] at hcalls
        simp at hcalls
    · rintro ⟨ho, hs⟩
      rw [ho, hs] at hD
      rw [hD]
      exact fullHandShake_calls_head env _ proc
  · constructor
    · rintro ⟨hret, hnone⟩
      cases hs : savedSession with
      | none => exact Or.inl (Or.inl rfl)
      | some saved =>
        by_cases hticket : saved.m_ticket.length = 0
        · exact Or.inl (Or.inr ⟨saved, rfl, hticket⟩)
        · subst hs
          obtain ⟨reply, more, pos0, v, pos1, hin, hctor, hres, hcase⟩ :=
            Resume_inv env connection saved hticket (Or.inl hret)
          rcases hcase with hv | ⟨_, n, pos2, tag, rest, curr, _, _, _, _, hR⟩
          · exact Or.inr ⟨saved, reply, more, pos0, v, pos1, rfl, hticket, hin, hctor, hres, hv⟩
          · rw [hR] at hnone
            simp at hnone
    · rintro (h | ⟨saved, reply, more, pos0, v, pos1, hs, hticket, hin, hctor, hres, hv⟩)
      · rw [Resume_of_no_ticket env connection savedSession h]
        exact ⟨rfl, rfl⟩
      · subst hs
        rw [Resume_of_reply env connection saved reply more pos0 v pos1 hticket hin hctor hres,
          if_pos hv]
        exact ⟨rfl, rfl⟩
  · intro hnot
    cases ho : (ResumeSessionFromTicket env connection savedSession).outcome with
    | returned =>
      cases hs : (ResumeSessionFromTicket env connection savedSession).session with
      | none => exact absurd ⟨ho, hs⟩ hnot
      | some curr =>
        rw [ho, hs] at hD
        rw [hD]
        refine ⟨rfl, rfl, ?_, fun h => absurd rfl h⟩
        intro curr1 hc
        rw [Option.some.inj hc]
    | thrown msg =>
      rw [ho] at hD
      rw [hD]
      refine ⟨rfl, rfl, ?_, fun _ => ⟨rfl, rfl⟩⟩
      intro curr hc
      have := hsome curr hc
      rw [ho] at this
      simp at this
    | undefined why =>
      rw [ho] at hD
      rw [hD]
      refine ⟨rfl, rfl, ?_, fun _ => ⟨rfl, rfl⟩⟩
      intro curr hc
      have := hsome curr hc
      rw [ho] at this
      simp at this

/-- C18, witness: the demo server does not accept the ticket; the client continues
with the full handshake, which succeeds. -/
theorem DoHandShake_fallback_witness :
    (ResumeSessionFromTicket demoClientEnv demoRejectConn (some demoSaved)).outcome = .returned
    ∧ (ResumeSessionFromTicket demoClientEnv demoRejectConn (some demoSaved)).session = none
    ∧ DoHandShake demoClientEnv demoRejectConn (some demoProcessor) (some demoSaved) =
        fullHandShake demoClientEnv
          (ResumeSessionFromTicket demoClientEnv demoRejectConn (some demoSaved)).connection
          demoProcessor :=
  ⟨by decide, by decide,
    (DoHandShake_fallback demoClientEnv demoRejectConn demoProcessor (some demoSaved)).1
      (by decide) (by decide)⟩

/-! ## C19: the keys of a resumed session -/

theorem leBytes_injective (n a b : Nat) (h : leBytes n a = leBytes n b) :
    a % 256 ^ n = b % 256 ^ n := by
  rw [← leValue_leBytes, h, leValue_leBytes]

theorem noncesBytes_injective (c s c1 s1 : Nat) (hc : c < 2 ^ 64) (hs : s < 2 ^ 64)
    (hc1 : c1 < 2 ^ 64) (hs1 : s1 < 2 ^ 64) (h : noncesBytes c s = noncesBytes c1 s1) :
    c = c1 ∧ s = s1 := by
  have h256 : (256 : Nat) ^ 8 = 2 ^ 64 := by norm_num
  obtain ⟨h1, h2⟩ := List.append_inj h (by rw [leBytes_length, leBytes_length])
  have e1 := leBytes_injective 8 c c1 h1
  have e2 := leBytes_injective 8 s s1 h2
  rw [h256, Nat.mod_eq_of_lt hc, Nat.mod_eq_of_lt hc1] at e1
  rw [h256, Nat.mod_eq_of_lt hs, Nat.mod_eq_of_lt hs1] at e2
  exact ⟨e1, e2⟩

theorem deriveNewSession_some (env : ClientEnv) (saved : RaClientSession)
    (selfNonce peerNonce : Nat) (curr : RaSession)
    (h : deriveNewSession env saved selfNonce peerNonce = some curr) :
    env.mbedtls_hkdf (noncesBytes selfNonce peerNonce) saved.m_session.m_secretKey.val
        (gsk_keyDerLabel.toList.map Char.toNat) 16 = some curr.m_secretKey
    ∧ env.mbedtls_hkdf (noncesBytes selfNonce peerNonce) saved.m_session.m_maskingKey.val
        (gsk_keyDerLabel.toList.map Char.toNat) 16 = some curr.m_maskingKey := by
  simp only [deriveNewSession, HKDF, detail_HKDF, GENERAL_128BIT_16BYTE_SIZE] at h
  split at h
  · rename_i sk mk h1 h2
    obtain rfl : (⟨sk, mk, sgx_ias_report_t.zero⟩ : RaSession) = curr := by simpa using h
    exact ⟨h1, h2⟩
  · simp at h

theorem finishResume_log (env : ClientEnv) (c : ConnectionBase) (saved : RaClientSession)
    (selfNonce peerNonce : Nat) (selfMsgHash peerMsgHash : General256Hash) :
    ∃ tail, (finishResume env c saved selfNonce peerNonce selfMsgHash peerMsgHash).connection.log
      = c.log ++ tail := by
  cases hin : c.incoming with
  | nil =>
    refine ⟨[.SendContainer
      (env.TlsPrf saved.m_session.m_secretKey gsk_finishLabel peerMsgHash).val], ?_⟩
    simp [finishResume, ConnectionBase.RecvContainer, ConnectionBase.SendContainer, hin]
  | cons tag rest =>
    refine ⟨[.SendContainer
      (env.TlsPrf saved.m_session.m_secretKey gsk_finishLabel peerMsgHash).val,
      .RecvContainer tag], ?_⟩
    rw [finishResume_of_tag env c saved _ _ _ _ tag rest hin]
    split
    · split <;> rfl
    · rfl

/-- C19. When the server accepted the ticket (first argument of the reply not 0, server
nonce n as second argument) and `ResumeSessionFromTicket` returns a session, the
secret key of that session is the output of the HKDF with the saved secret key as
input key material, the label new_session_keys as info and, as salt, the 16 bytes
made of the nonce of the client followed by the nonce of the server, each as 8
little-endian bytes; the masking key is derived in the same way from the saved
masking key. The nonce of the client in the salt is the one sent in the RPC. The
map from two 64-bit nonces to the salt is injective. -/
theorem resume_key_derivation (env : ClientEnv) (connection : ConnectionBase)
    (saved : RaClientSession) (reply : Bytes) (more : List Bytes) (pos0 v pos1 n pos2 : Nat)
    (curr : RaSession) (hticket : saved.m_ticket.length ≠ 0)
    (hin : connection.incoming = reply :: more) (hctor : env.RpcParser_ctor reply = some pos0)
    (hres : env.RpcParser_GetPrimitiveArg 1 reply pos0 = some (v, pos1)) (hv : v % 256 ≠ 0)
    (hn : env.RpcParser_GetPrimitiveArg 8 reply pos1 = some (n, pos2))
    (hcurr : (ResumeSessionFromTicket env connection (some saved)).session = some curr) :
    env.mbedtls_hkdf (leBytes 8 (env.RandStruct64 % 2 ^ 64) ++ leBytes 8 (n % 2 ^ 64))
        saved.m_session.m_secretKey.val ("new_session_keys".toList.map Char.toNat) 16
      = some curr.m_secretKey
    ∧ env.mbedtls_hkdf (leBytes 8 (env.RandStruct64 % 2 ^ 64) ++ leBytes 8 (n % 2 ^ 64))
        saved.m_session.m_maskingKey.val ("new_session_keys".toList.map Char.toNat) 16
      = some curr.m_maskingKey
    ∧ (leBytes 8 (env.RandStruct64 % 2 ^ 64) ++ leBytes 8 (n % 2 ^ 64)).length = 16
    ∧ (∃ tail, (ResumeSessionFromTicket env connection (some saved)).connection.log =
        connection.log ++ .SendRpc (env.RpcWriter_GetFullBinary
          (env.CalcSizePrim 1 + env.CalcSizeBin saved.m_ticket.length + env.CalcSizePrim 8) 3
          (some false)
          [.prim 1 gsk_hasTicket, .bin saved.m_ticket, .prim 8 (env.RandStruct64 % 2 ^ 64)])
          :: tail)
    ∧ (∀ c s c1 s1 : Nat, c < 2 ^ 64 → s < 2 ^ 64 → c1 < 2 ^ 64 → s1 < 2 ^ 64 →
        leBytes 8 c ++ leBytes 8 s = leBytes 8 c1 ++ leBytes 8 s1 → c = c1 ∧ s = s1) := by
  have h256 : (256 : Nat) ^ 8 = 2 ^ 64 := by norm_num
  have hR := Resume_of_reply env connection saved reply more pos0 v pos1 hticket hin hctor hres
  simp only [hv, if_false, hn, h256] at hR
  have hder : deriveNewSession env saved (env.RandStruct64 % 2 ^ 64) (n % 2 ^ 64) = some curr := by
    rw [hR] at hcurr
    simp only [finishResume] at hcurr
    split at hcurr
    · simp at hcurr
    · split at hcurr
      · simp at hcurr
      · split at hcurr
        · simp at hcurr
        · rename_i s hs
          simp only [Option.some.injEq] at hcurr
          rw [hs, hcurr]
  obtain ⟨hk1, hk2⟩ := deriveNewSession_some env saved _ _ curr hder
  refine ⟨hk1, hk2, by simp [leBytes_length], ?_, fun c s c1 s1 => noncesBytes_injective c s c1 s1⟩
  obtain ⟨tail, ht⟩ := finishResume_log env
    ⟨more, connection.log ++ [.SendRpc
      (hasTicketRpc env saved.m_ticket (env.RandStruct64 % 2 ^ 64)), .RecvContainer reply]⟩
    saved (env.RandStruct64 % 2 ^ 64) (n % 2 ^ 64)
    (env.SHA256 (hasTicketRpc env saved.m_ticket (env.RandStruct64 % 2 ^ 64))) (env.SHA256 reply)
  refine ⟨.RecvContainer reply :: tail, ?_⟩
  rw [hR, ht]
  simp [hasTicketRpc]

/-- C19, witness: the demo client resumes its session with an honest demo server. -/
theorem resume_key_derivation_witness :
    (ResumeSessionFromTicket demoClientEnv demoGoodTagConn (some demoSaved)).session =
        some ⟨FixedBytes.fill 16 48, FixedBytes.fill 16 64, sgx_ias_report_t.zero⟩
    ∧ demoClientEnv.mbedtls_hkdf (leBytes 8 (demoClientEnv.RandStruct64 % 2 ^ 64)
          ++ leBytes 8 (9 % 2 ^ 64)) demoSaved.m_session.m_secretKey.val
        ("new_session_keys".toList.map Char.toNat) 16 = some (FixedBytes.fill 16 48) :=
  ⟨by decide,
    (resume_key_derivation demoClientEnv demoGoodTagConn demoSaved demoAcceptReply
      [demoServerTag] 4 1 5 9 13 ⟨FixedBytes.fill 16 48, FixedBytes.fill 16 64,
        sgx_ias_report_t.zero⟩ (by decide) rfl (by decide) (by decide) (by decide) (by decide)
      (by decide)).1⟩

/-! ## C20: the verification messages of a resumed session -/

/-- C20. When the server accepted the ticket (first argument of the reply not 0, a
server nonce n as second argument) and a further message tag follows, the client
sends its RPC, receives the reply, sends the 12 bytes of the TLS-PRF of the saved
secret key with the label finished over the SHA-256 of the reply as received,
and receives the tag. The exception of the verification is thrown exactly when
the tag has not 12 bytes or differs from the TLS-PRF of the saved secret key with
the label finished over the SHA-256 of the full binary of the RPC that the client
sent. The returned session is the derived one when that check passed, and there
is none when it did not. -/
theorem resume_finish_tags (env : ClientEnv) (connection : ConnectionBase)
    (saved : RaClientSession) (reply tag : Bytes) (more : List Bytes)
    (pos0 v pos1 n pos2 : Nat) (hticket : saved.m_ticket.length ≠ 0)
    (hin : connection.incoming = reply :: tag :: more)
    (hctor : env.RpcParser_ctor reply = some pos0)
    (hres : env.RpcParser_GetPrimitiveArg 1 reply pos0 = some (v, pos1)) (hv : v % 256 ≠ 0)
    (hn : env.RpcParser_GetPrimitiveArg 8 reply pos1 = some (n, pos2)) :
    (ResumeSessionFromTicket env connection (some saved)).connection.log =
        connection.log ++
          [.SendRpc (hasTicketRpc env saved.m_ticket (env.RandStruct64 % 2 ^ 64)),
            .RecvContainer reply,
            .SendContainer
              (env.TlsPrf saved.m_session.m_secretKey "finished" (env.SHA256 reply)).val,
            .RecvContainer tag]
    ∧ (env.TlsPrf saved.m_session.m_secretKey "finished" (env.SHA256 reply)).val.length = 12
    ∧ ((ResumeSessionFromTicket env connection (some saved)).outcome =
          .thrown "Failed to verify ticket resume message from server."
        ↔ ¬ (tag.length = 12
          ∧ tag = (env.TlsPrf saved.m_session.m_secretKey "finished"
              (env.SHA256 (hasTicketRpc env saved.m_ticket (env.RandStruct64 % 2 ^ 64)))).val))
    ∧ (ResumeSessionFromTicket env connection (some saved)).session =
        (if tag.length = 12
          ∧ tag = (env.TlsPrf saved.m_session.m_secretKey "finished"
              (env.SHA256 (hasTicketRpc env saved.m_ticket (env.RandStruct64 % 2 ^ 64)))).val
        then deriveNewSession env saved (env.RandStruct64 % 2 ^ 64) (n % 2 ^ 64)
        else none) := by
  have h256 : (256 : Nat) ^ 8 = 2 ^ 64 := by norm_num
  have hR := Resume_of_reply env connection saved reply (tag :: more) pos0 v pos1 hticket hin
    hctor hres
  simp only [hv, if_false, hn, h256] at hR
  rw [finishResume_of_tag env _ saved _ _ _ _ tag more rfl] at hR
  have hfl : gsk_finishLabel = "finished" := rfl
  rw [hfl] at hR
  rw [hR]
  refine ⟨?_, (env.TlsPrf _ _ _).property, ?_, ?_⟩
  · split
    · split <;> simp
    · simp
  · by_cases hok : tag.length = 12
      ∧ tag = (env.TlsPrf saved.m_session.m_secretKey "finished"
          (env.SHA256 (hasTicketRpc env saved.m_ticket (env.RandStruct64 % 2 ^ 64)))).val
    · rw [if_pos hok]
      constructor
      · intro h
        split at h <;> simp at h
      · intro h
        exact absurd hok h
    · rw [if_neg hok]
      exact ⟨fun _ => hok, fun _ => rfl⟩
  · by_cases hok : tag.length = 12
      ∧ tag = (env.TlsPrf saved.m_session.m_secretKey "finished"
          (env.SHA256 (hasTicketRpc env saved.m_ticket (env.RandStruct64 % 2 ^ 64)))).val
    · rw [if_pos hok, if_pos hok]
      cases deriveNewSession env saved (env.RandStruct64 % 2 ^ 64) (n % 2 ^ 64) <;> rfl
    · rw [if_neg hok, if_neg hok]

/-- C20, witness: the demo server accepts the ticket and sends a verification message
of three bytes; the client sent its own 12-byte tag before and throws. -/
theorem resume_finish_tags_witness :
    demoShortTagConn.incoming = demoAcceptReply :: [1, 2, 3] :: demoServerHandShake
    ∧ (ResumeSessionFromTicket demoClientEnv demoShortTagConn (some demoSaved)).connection.log =
        [.SendRpc (hasTicketRpc demoClientEnv demoSaved.m_ticket 7),
          .RecvContainer demoAcceptReply,
          .SendContainer (demoClientEnv.TlsPrf demoSaved.m_session.m_secretKey "finished"
            (demoClientEnv.SHA256 demoAcceptReply)).val,
          .RecvContainer [1, 2, 3]]
    ∧ (ResumeSessionFromTicket demoClientEnv demoShortTagConn (some demoSaved)).outcome =
        .thrown "Failed to verify ticket resume message from server." :=
  ⟨rfl,
    (resume_finish_tags demoClientEnv demoShortTagConn demoSaved demoAcceptReply [1, 2, 3]
      demoServerHandShake 4 1 5 9 13 (by decide) rfl (by decide) (by decide) (by decide)
      (by decide)).1,
    (resume_finish_tags demoClientEnv demoShortTagConn demoSaved demoAcceptReply [1, 2, 3]
      demoServerHandShake 4 1 5 9 13 (by decide) rfl (by decide) (by decide) (by decide)
      (by decide)).2.2.1.mpr (by decide)⟩

/-! ## C21: the runs of `ResumeSessionFromTicket` that return no session -/

/-- C21. `ResumeSessionFromTicket` returns normally without a session exactly when
there is no saved session or its ticket is empty, or when the reply of the server
is received and parsed and its first argument is 0. In the first case the only
thing done on the connection is the sending of the RPC with the single argument
gsk_noTicket = 0, and nothing is received. In the second case the client sent the
RPC with the ticket and received the reply, and nothing more. In both cases no
container (verification message) is sent, and the result does not depend on the
TLS-PRF or on the HKDF. -/
theorem Resume_no_session_iff (env : ClientEnv) (connection : ConnectionBase)
    (savedSession : Option RaClientSession) :
    (((ResumeSessionFromTicket env connection savedSession).outcome = .returned
        ∧ (ResumeSessionFromTicket env connection savedSession).session = none) ↔
      ((savedSession = none ∨ ∃ saved, savedSession = some saved ∧ saved.m_ticket.length = 0)
        ∨ ∃ saved reply more pos0 v pos1, savedSession = some saved
            ∧ saved.m_ticket.length ≠ 0 ∧ connection.incoming = reply :: more
            ∧ env.RpcParser_ctor reply = some pos0
            ∧ env.RpcParser_GetPrimitiveArg 1 reply pos0 = some (v, pos1) ∧ v % 256 = 0))
    ∧ ((savedSession = none ∨ ∃ saved, savedSession = some saved ∧ saved.m_ticket.length = 0) →
        (ResumeSessionFromTicket env connection savedSession).connection =
          ⟨connection.incoming, connection.log ++
            [.SendRpc (env.RpcWriter_GetFullBinary (env.CalcSizePrim 1) 1 none [.prim 1 0])]⟩
        ∧ ∀ prf hkdf, ResumeSessionFromTicket { env with TlsPrf := prf, mbedtls_hkdf := hkdf }
            connection savedSession = ResumeSessionFromTicket env connection savedSession)
    ∧ (∀ saved reply more pos0 v pos1, savedSession = some saved → saved.m_ticket.length ≠ 0 →
        connection.incoming = reply :: more → env.RpcParser_ctor reply = some pos0 →
        env.RpcParser_GetPrimitiveArg 1 reply pos0 = some (v, pos1) → v % 256 = 0 →
        (ResumeSessionFromTicket env connection savedSession).connection =
          ⟨more, connection.log ++
            [.SendRpc (hasTicketRpc env saved.m_ticket (env.RandStruct64 % 2 ^ 64)),
              .RecvContainer reply]⟩
        ∧ ∀ prf hkdf, ResumeSessionFromTicket { env with TlsPrf := prf, mbedtls_hkdf := hkdf }
            connection savedSession = ResumeSessionFromTicket env connection savedSession)
    ∧ ((ResumeSessionFromTicket env connection savedSession).outcome = .returned →
        (ResumeSessionFromTicket env connection savedSession).session = none →
        ∀ b, NetEvent.SendContainer b ∉
          (ResumeSessionFromTicket env connection savedSession).connection.log.drop
            connection.log.length) := by
  have hA : (savedSession = none
        ∨ ∃ saved, savedSession = some saved ∧ saved.m_ticket.length = 0) →
      ∀ e : ClientEnv, ResumeSessionFromTicket e connection savedSession =
        ⟨connection.SendRpc (noTicketRpc e), none, .returned⟩ :=
    fun h e => Resume_of_no_ticket e connection savedSession h
  have hB : ∀ saved reply more pos0 v pos1, savedSession = some saved →
      saved.m_ticket.length ≠ 0 → connection.incoming = reply :: more →
      env.RpcParser_ctor reply = some pos0 →
      env.RpcParser_GetPrimitiveArg 1 reply pos0 = some (v, pos1) → v % 256 = 0 →
      ∀ prf hkdf,
        ResumeSessionFromTicket { env with TlsPrf := prf, mbedtls_hkdf := hkdf } connection
          savedSession =
          ⟨⟨more, connection.log ++
            [.SendRpc (hasTicketRpc env saved.m_ticket (env.RandStruct64 % 2 ^ 64)),
              .RecvContainer reply]⟩, none, .returned⟩ := by
    intro saved reply more pos0 v pos1 hs hticket hin hctor hres hv prf hkdf
    subst hs
    rw [Resume_of_reply { env with TlsPrf := prf, mbedtls_hkdf := hkdf } connection saved reply
      more pos0 v pos1 hticket hin hctor hres, if_pos hv]
    rfl
  have hB0 : ∀ saved reply more pos0 v pos1, savedSession = some saved →
      saved.m_ticket.length ≠ 0 → connection.incoming = reply :: more →
      env.RpcParser_ctor reply = some pos0 →
      env.RpcParser_GetPrimitiveArg 1 reply pos0 = some (v, pos1) → v % 256 = 0 →
      ResumeSessionFromTicket env connection savedSession =
          ⟨⟨more, connection.log ++
            [.SendRpc (hasTicketRpc env saved.m_ticket (env.RandStruct64 % 2 ^ 64)),
              .RecvContainer reply]⟩, none, .returned⟩ := by
    intro saved reply more pos0 v pos1 hs hticket hin hctor hres hv
    subst hs
    rw [Resume_of_reply env connection saved reply more pos0 v pos1 hticket hin hctor hres,
      if_pos hv]
  have hiff : ((ResumeSessionFromTicket env connection savedSession).outcome = .returned
        ∧ (ResumeSessionFromTicket env connection savedSession).session = none) →
      ((savedSession = none ∨ ∃ saved, savedSession = some saved ∧ saved.m_ticket.length = 0)
        ∨ ∃ saved reply more pos0 v pos1, savedSession = some saved
            ∧ saved.m_ticket.length ≠ 0 ∧ connection.incoming = reply :: more
            ∧ env.RpcParser_ctor reply = some pos0
            ∧ env.RpcParser_GetPrimitiveArg 1 reply pos0 = some (v, pos1) ∧ v % 256 = 0) := by
    rintro ⟨hret, hnone⟩
    cases hs : savedSession with
    | none => exact Or.inl (Or.inl rfl)
    | some saved =>
      by_cases hticket : saved.m_ticket.length = 0
      · exact Or.inl (Or.inr ⟨saved, rfl, hticket⟩)
      · subst hs
        obtain ⟨reply, more, pos0, v, pos1, hin, hctor, hres, hcase⟩ :=
          Resume_inv env connection saved hticket (Or.inl hret)
        rcases hcase with hv | ⟨_, n, pos2, tag, rest, curr, _, _, _, _, hR⟩
        · exact Or.inr ⟨saved, reply, more, pos0, v, pos1, rfl, hticket, hin, hctor, hres, hv⟩
        · rw [hR] at hnone
          simp at hnone
  refine ⟨⟨hiff, ?_⟩, ?_, ?_, ?_⟩
  · rintro (h | ⟨saved, reply, more, pos0, v, pos1, hs, hticket, hin, hctor, hres, hv⟩)
    · rw [hA h env]
      exact ⟨rfl, rfl⟩
    · rw [hB0 saved reply more pos0 v pos1 hs hticket hin hctor hres hv]
      exact ⟨rfl, rfl⟩
  · intro h
    refine ⟨by rw [hA h env]; rfl, fun prf hkdf => ?_⟩
    rw [hA h env, hA h { env with TlsPrf := prf, mbedtls_hkdf := hkdf }]
    rfl
  · intro saved reply more pos0 v pos1 hs hticket hin hctor hres hv
    refine ⟨by rw [hB0 saved reply more pos0 v pos1 hs hticket hin hctor hres hv],
      fun prf hkdf => ?_⟩
    rw [hB saved reply more pos0 v pos1 hs hticket hin hctor hres hv prf hkdf,
      hB0 saved reply more pos0 v pos1 hs hticket hin hctor hres hv]
  · intro hret hnone b
    rcases hiff ⟨hret, hnone⟩ with
      h | ⟨saved, reply, more, pos0, v, pos1, hs, hticket, hin, hctor, hres, hv⟩
    · rw [hA h env]
      simp [ConnectionBase.SendRpc]
    · rw [hB0 saved reply more pos0 v pos1 hs hticket hin hctor hres hv]
      simp

/-- C21, witness: the demo server answers the ticket of the demo client with
NotAccepted; the client has no saved session in the second run. -/
theorem Resume_no_session_iff_witness :
    (ResumeSessionFromTicket demoClientEnv demoRejectConn (some demoSaved)).outcome = .returned
    ∧ (ResumeSessionFromTicket demoClientEnv demoRejectConn (some demoSaved)).session = none
    ∧ (ResumeSessionFromTicket demoClientEnv demoRejectConn (some demoSaved)).connection =
        ⟨demoServerHandShake,
          [.SendRpc (hasTicketRpc demoClientEnv demoSaved.m_ticket 7),
            .RecvContainer demoRejectReply]⟩
    ∧ (ResumeSessionFromTicket demoClientEnv demoRejectConn none).connection =
        ⟨demoRejectConn.incoming,
          [.SendRpc (demoClientEnv.RpcWriter_GetFullBinary 1 1 none [.prim 1 0])]⟩ :=
  ⟨((Resume_no_session_iff demoClientEnv demoRejectConn (some demoSaved)).1.2
      (Or.inr ⟨demoSaved, demoRejectReply, demoServerHandShake, 4, 0, 5, rfl, by decide, rfl,
        by decide, by decide, by decide⟩)).1,
    ((Resume_no_session_iff demoClientEnv demoRejectConn (some demoSaved)).1.2
      (Or.inr ⟨demoSaved, demoRejectReply, demoServerHandShake, 4, 0, 5, rfl, by decide, rfl,
        by decide, by decide, by decide⟩)).2,
    ((Resume_no_session_iff demoClientEnv demoRejectConn (some demoSaved)).2.2.1 demoSaved
      demoRejectReply demoServerHandShake 4 0 5 rfl (by decide) rfl (by decide) (by decide)
      (by decide)).1,
    ((Resume_no_session_iff demoClientEnv demoRejectConn none).2.1 (Or.inl rfl)).1⟩

/-! ## Which runs of the full handshake return -/

theorem GetTicketFromServer_inv (env : ClientEnv) (c c1 : ConnectionBase) (ticket : Bytes)
    (h : GetTicketFromServer env c = some (ticket, c1)) :
    ∃ m rest pos0 v pos1, c.incoming = m :: rest
      ∧ c1 = ⟨rest, c.log ++ [.RecvContainer m]⟩
      ∧ env.RpcParser_ctor m = some pos0
      ∧ env.RpcParser_GetPrimitiveArg 1 m pos0 = some (v, pos1)
      ∧ (v % 256 = 0 → ticket = [])
      ∧ (v % 256 ≠ 0 → ∃ pos2, env.RpcParser_GetBinaryArg m pos1 = some (ticket, pos2)) := by
  cases hin : c.incoming with
  | nil => simp [GetTicketFromServer, ConnectionBase.RecvContainer, hin] at h
  | cons m rest =>
    have hr := RecvContainer_of_cons c m rest hin
    cases hctor : env.RpcParser_ctor m with
    | none => simp [GetTicketFromServer, hr, RpcParser.new, hctor] at h
    | some pos0 =>
      cases hres : env.RpcParser_GetPrimitiveArg 1 m pos0 with
      | none =>
        simp [GetTicketFromServer, hr, RpcParser.new, hctor, RpcParser.GetPrimitiveArg, hres] at h
      | some r =>
        obtain ⟨v, pos1⟩ := r
        simp only [GetTicketFromServer, hr, RpcParser.new, hctor, Option.map,
          RpcParser.GetPrimitiveArg, hres, pow_one] at h
        by_cases hv : v % 256 = 0
        · simp only [hv, bne_self_eq_false, Bool.false_eq_true, if_false, Option.some.injEq,
            Prod.mk.injEq] at h
          exact ⟨m, rest, pos0, v, pos1, rfl, h.2.symm, hctor, hres, fun _ => h.1.symm,
            fun hne => absurd hv hne⟩
        · have hb : (v % 256 != 0) = true := by simpa using hv
          simp only [hb, if_true, RpcParser.GetBinaryArg] at h
          cases hbin : env.RpcParser_GetBinaryArg m pos1 with
          | none => simp [hbin] at h
          | some r2 =>
            obtain ⟨t, pos2⟩ := r2
            simp only [hbin, Option.map, Option.some.injEq, Prod.mk.injEq] at h
            exact ⟨m, rest, pos0, v, pos1, rfl, h.2.symm, hctor, hres, fun h0 => absurd h0 hv,
              fun _ => ⟨pos2, by rw [hbin, h.1]⟩⟩

theorem fullHandShake_inv (env : ClientEnv) (c : ConnectionBase) (proc : RaProcessorClient)
    (h : (fullHandShake env c proc).outcome = .returned
      ∨ (fullHandShake env c proc).sessions ≠ none) :
    ∃ msg0s msg0r msg1 msg2 msg3 msg4 ticketRpc rest ticket iasReport,
      proc.GetMsg0s = some msg0s
      ∧ c.incoming = msg0r :: msg2 :: msg4 :: ticketRpc :: rest
      ∧ msg0r.length = env.sizeof_sgx_ra_msg0r_t
      ∧ proc.ProcessMsg0r msg0r = some msg1
      ∧ sizeof_sgx_ra_msg2_t ≤ msg2.length
      ∧ proc.ProcessMsg2 msg0r msg2 msg2.length = some msg3
      ∧ proc.ProcessMsg4 msg0r msg2 msg4 = some ()
      ∧ GetTicketFromServer env
          ⟨ticketRpc :: rest, c.log ++ [.SendRawAll msg0s.bytes, .RecvRawAll msg0r,
            .SendRawAll msg1.bytes, .RecvContainer msg2, .SendContainer msg3,
            .RecvContainer msg4]⟩ =
          some (ticket, ⟨rest, c.log ++ [.SendRawAll msg0s.bytes, .RecvRawAll msg0r,
            .SendRawAll msg1.bytes, .RecvContainer msg2, .SendContainer msg3,
            .RecvContainer msg4] ++ [.RecvContainer ticketRpc]⟩)
      ∧ proc.ReleaseIasReport msg0r msg2 msg4 = some iasReport
      ∧ fullHandShake env c proc =
          ⟨⟨rest, c.log ++ [.SendRawAll msg0s.bytes, .RecvRawAll msg0r,
              .SendRawAll msg1.bytes, .RecvContainer msg2, .SendContainer msg3,
              .RecvContainer msg4] ++ [.RecvContainer ticketRpc]⟩,
            ["GetMsg0s", "ProcessMsg0r", "ProcessMsg2", "ProcessMsg4", "GetSK", "GetMK",
              "ReleaseIasReport"],
            some (some ⟨ticket, ⟨proc.GetSK msg0r msg2 msg4, proc.GetMK msg0r msg2 msg4,
                iasReport⟩⟩,
              ⟨proc.GetSK msg0r msg2 msg4, proc.GetMK msg0r msg2 msg4, sgx_ias_report_t.zero⟩),
            .returned⟩ := by
  cases h0 : proc.GetMsg0s with
  | none => simp [fullHandShake, h0] at h
  | some msg0s =>
    cases hin : c.incoming with
    | nil =>
      simp [fullHandShake, h0, ConnectionBase.SendRawAll, ConnectionBase.RecvRawAll, hin] at h
    | cons msg0r r1 =>
      by_cases hl : msg0r.length = env.sizeof_sgx_ra_msg0r_t
      swap
      · simp [fullHandShake, h0, ConnectionBase.SendRawAll, ConnectionBase.RecvRawAll, hin,
          hl] at h
      have hr0 : (c.SendRawAll msg0s.bytes).RecvRawAll env.sizeof_sgx_ra_msg0r_t =
          some (msg0r, ⟨r1, c.log ++ [.SendRawAll msg0s.bytes, .RecvRawAll msg0r]⟩) := by
        simp [ConnectionBase.SendRawAll, ConnectionBase.RecvRawAll, hin, hl]
      cases h1 : proc.ProcessMsg0r msg0r with
      | none =>
        simp only [fullHandShake, h0, hr0, h1] at h
        simp at h
      | some msg1 =>
        cases r1 with
        | nil =>
          simp only [fullHandShake, h0, hr0, h1] at h
          simp [ConnectionBase.SendRawAll, ConnectionBase.RecvContainer] at h
        | cons msg2 r2 =>
          have hr2 : (ConnectionBase.SendRawAll
              ⟨msg2 :: r2, c.log ++ [.SendRawAll msg0s.bytes, .RecvRawAll msg0r]⟩
              msg1.bytes).RecvContainer =
              some (msg2, ⟨r2, c.log ++ [.SendRawAll msg0s.bytes, .RecvRawAll msg0r,
                .SendRawAll msg1.bytes, .RecvContainer msg2]⟩) := by
            simp [ConnectionBase.SendRawAll, ConnectionBase.RecvContainer]
          by_cases hl2 : msg2.length < sizeof_sgx_ra_msg2_t
          · simp only [fullHandShake, h0, hr0, h1, hr2, hl2, if_true] at h
            simp at h
          cases h2 : proc.ProcessMsg2 msg0r msg2 msg2.length with
          | none =>
            simp only [fullHandShake, h0, hr0, h1, hr2, hl2, if_false, h2] at h
            simp at h
          | some msg3 =>
            cases r2 with
            | nil =>
              simp only [fullHandShake, h0, hr0, h1, hr2, hl2, if_false, h2] at h
              simp [ConnectionBase.SendContainer, ConnectionBase.RecvContainer] at h
            | cons msg4 r3 =>
              have hr4 : (ConnectionBase.SendContainer
                  ⟨msg4 :: r3, c.log ++ [.SendRawAll msg0s.bytes, .RecvRawAll msg0r,
                    .SendRawAll msg1.bytes, .RecvContainer msg2]⟩ msg3).RecvContainer =
                  some (msg4, ⟨r3, c.log ++ [.SendRawAll msg0s.bytes, .RecvRawAll msg0r,
                    .SendRawAll msg1.bytes, .RecvContainer msg2, .SendContainer msg3,
                    .RecvContainer msg4]⟩) := by
                simp [ConnectionBase.SendContainer, ConnectionBase.RecvContainer]
              cases h4 : proc.ProcessMsg4 msg0r msg2 msg4 with
              | none =>
                simp only [fullHandShake, h0, hr0, h1, hr2, hl2, if_false, h2, hr4, h4] at h
                simp at h
              | some u =>
                cases ht : GetTicketFromServer env
                    ⟨r3, c.log ++ [.SendRawAll msg0s.bytes, .RecvRawAll msg0r,
                      .SendRawAll msg1.bytes, .RecvContainer msg2, .SendContainer msg3,
                      .RecvContainer msg4]⟩ with
                | none =>
                  simp only [fullHandShake, h0, hr0, h1, hr2, hl2, if_false, h2, hr4, h4,
                    ht] at h
                  simp at h
                | some tc =>
                  obtain ⟨ticket, c7⟩ := tc
                  obtain ⟨m, rest, pos0, v, pos1, hin7, hc7, -⟩ :=
                    GetTicketFromServer_inv env _ c7 ticket ht
                  simp only [] at hin7
                  subst hin7
                  subst hc7
                  cases hrel : proc.ReleaseIasReport msg0r msg2 msg4 with
                  | none =>
                    simp only [fullHandShake, h0, hr0, h1, hr2, hl2, if_false, h2, hr4, h4, ht,
                      hrel] at h
                    simp at h
                  | some iasReport =>
                    refine ⟨msg0s, msg0r, msg1, msg2, msg3, msg4, m, rest, ticket, iasReport,
                      rfl, rfl, hl, h1, Nat.le_of_not_lt hl2, h2, h4, ht, hrel, ?_⟩
                    simp only [fullHandShake, h0, hr0, h1, hr2, hl2, if_false, h2, hr4, h4, ht,
                      hrel]

/-! ## C22: what is exchanged on a successful resumption -/

/-- C22. When `ResumeSessionFromTicket` yields a session, `DoHandShake` returns it
together with the saved session and calls no method of the RA processor. On the
connection the client then did exactly four things, in this order: send the RPC
with the ticket, receive the reply of the server, send its verification message
and receive the verification message of the server. No msg0s, msg1 or msg3 is
sent and no msg0r, msg2 or msg4 is received. -/
theorem resume_exchanges_no_ra_messages (env : ClientEnv) (connection : ConnectionBase)
    (proc : RaProcessorClient) (savedSession : Option RaClientSession) (curr : RaSession)
    (h : (ResumeSessionFromTicket env connection savedSession).session = some curr) :
    (DoHandShake env connection (some proc) savedSession).outcome = .returned
    ∧ (DoHandShake env connection (some proc) savedSession).calls = []
    ∧ (DoHandShake env connection (some proc) savedSession).sessions =
        some (savedSession, curr)
    ∧ ∃ saved reply tag rest, savedSession = some saved
      ∧ connection.incoming = reply :: tag :: rest
      ∧ (DoHandShake env connection (some proc) savedSession).connection =
          ⟨rest, connection.log ++
            [.SendRpc (env.RpcWriter_GetFullBinary
                (env.CalcSizePrim 1 + env.CalcSizeBin saved.m_ticket.length + env.CalcSizePrim 8)
                3 (some false)
                [.prim 1 1, .bin saved.m_ticket, .prim 8 (env.RandStruct64 % 2 ^ 64)]),
              .RecvContainer reply,
              .SendContainer
                (env.TlsPrf saved.m_session.m_secretKey "finished" (env.SHA256 reply)).val,
              .RecvContainer tag]⟩ := by
  obtain ⟨saved, reply, tag, rest, pos0, v, pos1, n, pos2, hs, _, hin, _, _, _, _, _, _, hR⟩ :=
    Resume_of_session env connection savedSession curr h
  rw [DoHandShake_of_resume env connection proc savedSession _ hR]
  refine ⟨rfl, rfl, rfl, saved, reply, tag, rest, hs, hin, ?_⟩
  simp [hasTicketRpc, gsk_hasTicket, gsk_finishLabel]

/-- C22, witness: the demo client resumes its session with the honest demo server. -/
theorem resume_exchanges_no_ra_messages_witness :
    (ResumeSessionFromTicket demoClientEnv demoGoodTagConn (some demoSaved)).session =
        some ⟨FixedBytes.fill 16 48, FixedBytes.fill 16 64, sgx_ias_report_t.zero⟩
    ∧ (DoHandShake demoClientEnv demoGoodTagConn (some demoProcessor) (some demoSaved)).calls
        = []
    ∧ (DoHandShake demoClientEnv demoGoodTagConn (some demoProcessor)
        (some demoSaved)).outcome = .returned :=
  ⟨by decide,
    (resume_exchanges_no_ra_messages demoClientEnv demoGoodTagConn demoProcessor
      (some demoSaved) ⟨FixedBytes.fill 16 48, FixedBytes.fill 16 64, sgx_ias_report_t.zero⟩
      (by decide)).2.1,
    (resume_exchanges_no_ra_messages demoClientEnv demoGoodTagConn demoProcessor
      (some demoSaved) ⟨FixedBytes.fill 16 48, FixedBytes.fill 16 64, sgx_ias_report_t.zero⟩
      (by decide)).1⟩

/-! ## C23: the sessions after a successful resumption -/

/-- C23. When `ResumeSessionFromTicket` yields a session, the comm layer object is
constructed; its original session is the saved session itself, with its ticket,
keys and IAS report; `GetIasReport` returns the IAS report of the saved session;
the current session holds the keys that the HKDF derived from the saved keys and
the two nonces, and these are the keys that the AES-GCM layer receives. -/
theorem resume_keeps_saved_session (env : ClientEnv) (connection : ConnectionBase)
    (proc : RaProcessorClient) (savedSession : Option RaClientSession) (curr : RaSession)
    (h : (ResumeSessionFromTicket env connection savedSession).session = some curr) :
    ∃ saved layer salt, savedSession = some saved
      ∧ (DoHandShake env connection (some proc) savedSession).sessions = some (some saved, curr)
      ∧ (RaClientCommLayer.new env connection (some proc) savedSession).2 = some layer
      ∧ layer.GetOrigSession = some saved
      ∧ layer.GetIasReport = some saved.m_session.m_iasReport
      ∧ layer.GetCurrSession = curr
      ∧ layer.aesGcmSecretKey = curr.m_secretKey
      ∧ layer.aesGcmMaskingKey = curr.m_maskingKey
      ∧ env.mbedtls_hkdf salt saved.m_session.m_secretKey.val
          ("new_session_keys".toList.map Char.toNat) 16 = some curr.m_secretKey
      ∧ env.mbedtls_hkdf salt saved.m_session.m_maskingKey.val
          ("new_session_keys".toList.map Char.toNat) 16 = some curr.m_maskingKey := by
  obtain ⟨saved, reply, tag, rest, pos0, v, pos1, n, pos2, hs, _, hin, _, _, _, _, _, hd, hR⟩ :=
    Resume_of_session env connection savedSession curr h
  obtain ⟨hk1, hk2⟩ := deriveNewSession_some env saved _ _ curr hd
  have hD := DoHandShake_of_resume env connection proc savedSession _ hR
  simp only [] at hD
  refine ⟨saved, RaClientCommLayer.ofSessions (some saved) curr,
    noncesBytes (env.RandStruct64 % 2 ^ 64) (n % 2 ^ 64), hs, ?_, ?_, rfl, rfl, rfl, rfl, rfl,
    hk1, hk2⟩
  · rw [hD, hs]
  · subst hs
    simp only [RaClientCommLayer.new, hD, Option.map]

/-- C23, witness: the demo client resumes its session; the report of the comm layer
is the report of the saved session. -/
theorem resume_keeps_saved_session_witness :
    (ResumeSessionFromTicket demoClientEnv demoGoodTagConn (some demoSaved)).session =
        some ⟨FixedBytes.fill 16 48, FixedBytes.fill 16 64, sgx_ias_report_t.zero⟩
    ∧ (∃ saved layer salt, some demoSaved = some saved
      ∧ (DoHandShake demoClientEnv demoGoodTagConn (some demoProcessor)
          (some demoSaved)).sessions =
          some (some saved, ⟨FixedBytes.fill 16 48, FixedBytes.fill 16 64,
            sgx_ias_report_t.zero⟩)
      ∧ (RaClientCommLayer.new demoClientEnv demoGoodTagConn (some demoProcessor)
          (some demoSaved)).2 = some layer
      ∧ layer.GetOrigSession = some saved
      ∧ layer.GetIasReport = some saved.m_session.m_iasReport
      ∧ layer.GetCurrSession = ⟨FixedBytes.fill 16 48, FixedBytes.fill 16 64,
          sgx_ias_report_t.zero⟩
      ∧ layer.aesGcmSecretKey = FixedBytes.fill 16 48
      ∧ layer.aesGcmMaskingKey = FixedBytes.fill 16 64
      ∧ demoClientEnv.mbedtls_hkdf salt saved.m_session.m_secretKey.val
          ("new_session_keys".toList.map Char.toNat) 16 = some (FixedBytes.fill 16 48)
      ∧ demoClientEnv.mbedtls_hkdf salt saved.m_session.m_maskingKey.val
          ("new_session_keys".toList.map Char.toNat) 16 = some (FixedBytes.fill 16 64)) :=
  ⟨by decide,
    resume_keeps_saved_session demoClientEnv demoGoodTagConn demoProcessor (some demoSaved)
      ⟨FixedBytes.fill 16 48, FixedBytes.fill 16 64, sgx_ias_report_t.zero⟩ (by decide)⟩

/-! ## C24: where the ticket RPC is read from -/

/-- C24, counterexample. The demo server sends msg0r, msg2, msg4 and then the bytes of
its ticket RPC as they are, without any envelope. The full handshake returns; the
last thing the client did on the connection is a `RecvContainer` of exactly these
bytes, and the ticket 8, 9 of the original session is the binary argument read
from them. A client whose RA processor yields other keys SK and MK reads the same
ticket from the same bytes. -/
theorem ticket_rpc_read_in_plain :
    demoServerHandShake.getLast? = some demoTicketRpc
    ∧ (fullHandShake demoClientEnv ⟨demoServerHandShake, []⟩ demoProcessor).outcome = .returned
    ∧ (fullHandShake demoClientEnv ⟨demoServerHandShake, []⟩
        demoProcessor).connection.log.getLast? = some (.RecvContainer demoTicketRpc)
    ∧ (fullHandShake demoClientEnv ⟨demoServerHandShake, []⟩ demoProcessor).sessions.map
        (fun s => s.1.map fun o => o.m_ticket) = some (some [8, 9])
    ∧ GetTicketFromServer demoClientEnv ⟨[demoTicketRpc], []⟩ =
        some ([8, 9], ⟨[], [.RecvContainer demoTicketRpc]⟩)
    ∧ (fullHandShake demoClientEnv ⟨demoServerHandShake, []⟩
        demoProcessorOtherKeys).sessions.map
        (fun s => (s.1.map fun o => o.m_ticket, s.2.m_secretKey)) =
          some (some [8, 9], FixedBytes.fill 16 77) := by
  decide

/-- C24, amended. When the full handshake returns a pair of sessions, the server sent
four messages on the connection: msg0r, msg2, msg4 and the ticket RPC. The client
receives the ticket RPC with `RecvContainer` on the connection that `DoHandShake`
was given, the same call and the same connection as for msg2 and msg4, directly
after msg4. The RPC parser works on the received bytes as they are: the ticket of
the original session is empty when the first argument is 0 and is the binary
argument otherwise. -/
theorem ticket_from_plain_connection (env : ClientEnv) (c : ConnectionBase)
    (proc : RaProcessorClient) (orig : Option RaClientSession) (curr : RaSession)
    (h : (fullHandShake env c proc).sessions = some (orig, curr)) :
    ∃ msg0s msg0r msg1 msg2 msg3 msg4 ticketRpc rest origS pos0 v pos1,
      c.incoming = msg0r :: msg2 :: msg4 :: ticketRpc :: rest
      ∧ orig = some origS
      ∧ (fullHandShake env c proc).connection =
          ⟨rest, c.log ++ [.SendRawAll msg0s, .RecvRawAll msg0r, .SendRawAll msg1,
            .RecvContainer msg2, .SendContainer msg3, .RecvContainer msg4,
            .RecvContainer ticketRpc]⟩
      ∧ env.RpcParser_ctor ticketRpc = some pos0
      ∧ env.RpcParser_GetPrimitiveArg 1 ticketRpc pos0 = some (v, pos1)
      ∧ (v % 256 = 0 → origS.m_ticket = [])
      ∧ (v % 256 ≠ 0 →
          ∃ pos2, env.RpcParser_GetBinaryArg ticketRpc pos1 = some (origS.m_ticket, pos2)) := by
  obtain ⟨msg0s, msg0r, msg1, msg2, msg3, msg4, ticketRpc, rest, ticket, iasReport, _, hin, _, _,
      _, _, _, ht, _, hF⟩ := fullHandShake_inv env c proc (Or.inr (by rw [h]; simp))
  obtain ⟨m, rest1, pos0, v, pos1, hin1, _, hctor, hres, hz, hnz⟩ :=
    GetTicketFromServer_inv env _ _ ticket ht
  simp only [List.cons.injEq] at hin1
  obtain ⟨rfl, rfl⟩ := hin1
  rw [hF] at h
  simp only [Option.some.injEq, Prod.mk.injEq] at h
  refine ⟨msg0s.bytes, msg0r, msg1.bytes, msg2, msg3, msg4, ticketRpc, rest,
    ⟨ticket, ⟨proc.GetSK msg0r msg2 msg4, proc.GetMK msg0r msg2 msg4, iasReport⟩⟩, pos0, v, pos1,
    hin, h.1.symm, ?_, hctor, hres, hz, hnz⟩
  rw [hF]
  simp

/-- C24, witness: the full handshake of the demo client. -/
theorem ticket_from_plain_connection_witness :
    ∃ msg0s msg0r msg1 msg2 msg3 msg4 ticketRpc rest origS pos0 v pos1,
      demoServerHandShake = msg0r :: msg2 :: msg4 :: ticketRpc :: rest
      ∧ some (⟨[8, 9], ⟨FixedBytes.fill 16 5, FixedBytes.fill 16 6, demoReport⟩⟩ :
          RaClientSession) = some origS
      ∧ (fullHandShake demoClientEnv ⟨demoServerHandShake, []⟩ demoProcessor).connection =
          ⟨rest, [] ++ [.SendRawAll msg0s, .RecvRawAll msg0r, .SendRawAll msg1,
            .RecvContainer msg2, .SendContainer msg3, .RecvContainer msg4,
            .RecvContainer ticketRpc]⟩
      ∧ demoClientEnv.RpcParser_ctor ticketRpc = some pos0
      ∧ demoClientEnv.RpcParser_GetPrimitiveArg 1 ticketRpc pos0 = some (v, pos1)
      ∧ (v % 256 = 0 → origS.m_ticket = [])
      ∧ (v % 256 ≠ 0 →
          ∃ pos2, demoClientEnv.RpcParser_GetBinaryArg ticketRpc pos1 =
            some (origS.m_ticket, pos2)) :=
  ticket_from_plain_connection demoClientEnv ⟨demoServerHandShake, []⟩ demoProcessor
    (some ⟨[8, 9], ⟨FixedBytes.fill 16 5, FixedBytes.fill 16 6, demoReport⟩⟩)
    ⟨FixedBytes.fill 16 5, FixedBytes.fill 16 6, sgx_ias_report_t.zero⟩ (by decide)

/-! ## C25: the sessions after a full handshake -/

/-- C25. When the full handshake returns a pair of sessions, the ticket of the
original session is read from the ticket RPC of the server, the message after
msg4: it is empty when the first argument of the RPC is 0 and is the binary
argument, byte for byte, otherwise. The keys SK and MK and the IAS report of the
original session are those that the RA processor yields after msg0r, msg2 and
msg4, and the keys of the current session equal those of the original session. -/
theorem fullHandShake_sessions (env : ClientEnv) (c : ConnectionBase)
    (proc : RaProcessorClient) (orig : Option RaClientSession) (curr : RaSession)
    (h : (fullHandShake env c proc).sessions = some (orig, curr)) :
    ∃ msg0r msg2 msg4 ticketRpc rest origS pos0 v pos1,
      c.incoming = msg0r :: msg2 :: msg4 :: ticketRpc :: rest
      ∧ orig = some origS
      ∧ env.RpcParser_ctor ticketRpc = some pos0
      ∧ env.RpcParser_GetPrimitiveArg 1 ticketRpc pos0 = some (v, pos1)
      ∧ (v % 256 = 0 → origS.m_ticket = [])
      ∧ (v % 256 ≠ 0 →
          ∃ pos2, env.RpcParser_GetBinaryArg ticketRpc pos1 = some (origS.m_ticket, pos2))
      ∧ origS.m_session.m_secretKey = proc.GetSK msg0r msg2 msg4
      ∧ origS.m_session.m_maskingKey = proc.GetMK msg0r msg2 msg4
      ∧ proc.ReleaseIasReport msg0r msg2 msg4 = some origS.m_session.m_iasReport
      ∧ curr.m_secretKey = origS.m_session.m_secretKey
      ∧ curr.m_maskingKey = origS.m_session.m_maskingKey
      ∧ (fullHandShake env c proc).outcome = .returned := by
  obtain ⟨msg0s, msg0r, msg1, msg2, msg3, msg4, ticketRpc, rest, ticket, iasReport, _, hin, _, _,
      _, _, _, ht, hrel, hF⟩ := fullHandShake_inv env c proc (Or.inr (by rw [h]; simp))
  obtain ⟨m, rest1, pos0, v, pos1, hin1, _, hctor, hres, hz, hnz⟩ :=
    GetTicketFromServer_inv env _ _ ticket ht
  simp only [List.cons.injEq] at hin1
  obtain ⟨rfl, rfl⟩ := hin1
  rw [hF] at h
  simp only [Option.some.injEq, Prod.mk.injEq] at h
  obtain ⟨ho, hc⟩ := h
  subst hc
  refine ⟨msg0r, msg2, msg4, ticketRpc, rest,
    ⟨ticket, ⟨proc.GetSK msg0r msg2 msg4, proc.GetMK msg0r msg2 msg4, iasReport⟩⟩, pos0, v, pos1,
    hin, ho.symm, hctor, hres, hz, hnz, rfl, rfl, hrel, rfl, rfl, ?_⟩
  rw [hF]

/-- C25, witness: the full handshake of the demo client stores the ticket 8, 9. -/
theorem fullHandShake_sessions_witness :
    ∃ msg0r msg2 msg4 ticketRpc rest origS pos0 v pos1,
      demoServerHandShake = msg0r :: msg2 :: msg4 :: ticketRpc :: rest
      ∧ some (⟨[8, 9], ⟨FixedBytes.fill 16 5, FixedBytes.fill 16 6, demoReport⟩⟩ :
          RaClientSession) = some origS
      ∧ demoClientEnv.RpcParser_ctor ticketRpc = some pos0
      ∧ demoClientEnv.RpcParser_GetPrimitiveArg 1 ticketRpc pos0 = some (v, pos1)
      ∧ (v % 256 = 0 → origS.m_ticket = [])
      ∧ (v % 256 ≠ 0 →
          ∃ pos2, demoClientEnv.RpcParser_GetBinaryArg ticketRpc pos1 =
            some (origS.m_ticket, pos2))
      ∧ origS.m_session.m_secretKey = demoProcessor.GetSK msg0r msg2 msg4
      ∧ origS.m_session.m_maskingKey = demoProcessor.GetMK msg0r msg2 msg4
      ∧ demoProcessor.ReleaseIasReport msg0r msg2 msg4 = some origS.m_session.m_iasReport
      ∧ (FixedBytes.fill 16 5 : G128BitSecretKeyWrap) = origS.m_session.m_secretKey
      ∧ (FixedBytes.fill 16 6 : G128BitSecretKeyWrap) = origS.m_session.m_maskingKey
      ∧ (fullHandShake demoClientEnv ⟨demoServerHandShake, []⟩ demoProcessor).outcome
          = .returned :=
  fullHandShake_sessions demoClientEnv ⟨demoServerHandShake, []⟩ demoProcessor
    (some ⟨[8, 9], ⟨FixedBytes.fill 16 5, FixedBytes.fill 16 6, demoReport⟩⟩)
    ⟨FixedBytes.fill 16 5, FixedBytes.fill 16 6, sgx_ias_report_t.zero⟩ (by decide)

/-! ## C26: the order of the messages of the full handshake -/

/-- C26, counterexample. The demo server does not accept the ticket of the demo client
and then runs the full handshake, which succeeds. The client sent the RPC with
the ticket and received the reply, and then went on with msg0s: the RPC without
ticket is not among the things it sent. -/
theorem rejected_ticket_sends_no_noTicket_rpc :
    (ResumeSessionFromTicket demoClientEnv demoRejectConn (some demoSaved)).session = none
    ∧ (DoHandShake demoClientEnv demoRejectConn (some demoProcessor) (some demoSaved)).outcome
        = .returned
    ∧ (DoHandShake demoClientEnv demoRejectConn (some demoProcessor)
        (some demoSaved)).connection.log =
        [.SendRpc (hasTicketRpc demoClientEnv [1, 2, 3] 7), .RecvContainer demoRejectReply,
          .SendRawAll (leBytes 4 0), .RecvRawAll (List.replicate 72 0),
          .SendRawAll demoMsg1.bytes, .RecvContainer (List.replicate 168 0),
          .SendContainer [3, 3, 3], .RecvContainer [4, 4], .RecvContainer demoTicketRpc]
    ∧ NetEvent.SendRpc (noTicketRpc demoClientEnv) ∉
        (DoHandShake demoClientEnv demoRejectConn (some demoProcessor)
          (some demoSaved)).connection.log := by
  decide

/-- C26, amended. When the resumption yields no session and `DoHandShake` returns, the
client did the following on the connection, in this order. First the resumption
attempt: with no saved session or an empty ticket it sent the RPC without ticket;
with a ticket it sent the RPC with the ticket and received the reply of the
server (no RPC without ticket is sent then). After that: send msg0s, receive
msg0r, send msg1, receive msg2, send msg3, receive msg4, receive the ticket RPC.
The RA processor was asked for msg0s, then given msg0r, msg2 and msg4. -/
theorem DoHandShake_message_sequence (env : ClientEnv) (connection : ConnectionBase)
    (proc : RaProcessorClient) (savedSession : Option RaClientSession)
    (hnone : (ResumeSessionFromTicket env connection savedSession).session = none)
    (hret : (DoHandShake env connection (some proc) savedSession).outcome = .returned) :
    ∃ first msg0s msg0r msg1 msg2 msg3 msg4 ticketRpc,
      (DoHandShake env connection (some proc) savedSession).connection.log =
        connection.log ++ first ++
          [.SendRawAll msg0s.bytes, .RecvRawAll msg0r, .SendRawAll msg1.bytes,
            .RecvContainer msg2, .SendContainer msg3, .RecvContainer msg4,
            .RecvContainer ticketRpc]
      ∧ (((savedSession = none
            ∨ ∃ saved, savedSession = some saved ∧ saved.m_ticket.length = 0)
          ∧ first = [.SendRpc (env.RpcWriter_GetFullBinary (env.CalcSizePrim 1) 1 none
              [.prim 1 0])])
        ∨ ∃ saved reply, savedSession = some saved ∧ saved.m_ticket.length ≠ 0
          ∧ first = [.SendRpc (hasTicketRpc env saved.m_ticket (env.RandStruct64 % 2 ^ 64)),
              .RecvContainer reply])
      ∧ proc.GetMsg0s = some msg0s
      ∧ proc.ProcessMsg0r msg0r = some msg1
      ∧ proc.ProcessMsg2 msg0r msg2 msg2.length = some msg3
      ∧ proc.ProcessMsg4 msg0r msg2 msg4 = some ()
      ∧ (DoHandShake env connection (some proc) savedSession).calls =
          ["GetMsg0s", "ProcessMsg0r", "ProcessMsg2", "ProcessMsg4", "GetSK", "GetMK",
            "ReleaseIasReport"] := by
  have hD := DoHandShake_of_resume env connection proc savedSession _ rfl
  have hro : (ResumeSessionFromTicket env connection savedSession).outcome = .returned := by
    cases ho : (ResumeSessionFromTicket env connection savedSession).outcome with
    | returned => rfl
    | thrown msg =>
      rw [ho] at hD
      rw [hD] at hret
      simp at hret
    | undefined why =>
      rw [ho] at hD
      rw [hD] at hret
      simp at hret
  rw [hro, hnone] at hD
  simp only [] at hD
  rw [hD] at hret
  have key : ∃ first, (ResumeSessionFromTicket env connection savedSession).connection.log =
        connection.log ++ first
      ∧ (((savedSession = none
            ∨ ∃ saved, savedSession = some saved ∧ saved.m_ticket.length = 0)
          ∧ first = [.SendRpc (env.RpcWriter_GetFullBinary (env.CalcSizePrim 1) 1 none
              [.prim 1 0])])
        ∨ ∃ saved reply, savedSession = some saved ∧ saved.m_ticket.length ≠ 0
          ∧ first = [.SendRpc (hasTicketRpc env saved.m_ticket (env.RandStruct64 % 2 ^ 64)),
              .RecvContainer reply]) := by
    have hA : (savedSession = none
          ∨ ∃ saved, savedSession = some saved ∧ saved.m_ticket.length = 0) →
        ∃ first, (ResumeSessionFromTicket env connection savedSession).connection.log =
            connection.log ++ first
          ∧ (((savedSession = none
                ∨ ∃ saved, savedSession = some saved ∧ saved.m_ticket.length = 0)
              ∧ first = [.SendRpc (env.RpcWriter_GetFullBinary (env.CalcSizePrim 1) 1 none
                  [.prim 1 0])])
            ∨ ∃ saved reply, savedSession = some saved ∧ saved.m_ticket.length ≠ 0
              ∧ first = [.SendRpc
                  (hasTicketRpc env saved.m_ticket (env.RandStruct64 % 2 ^ 64)),
                  .RecvContainer reply]) := by
      intro hA
      refine ⟨_, ?_, Or.inl ⟨hA, rfl⟩⟩
      rw [Resume_of_no_ticket env connection savedSession hA]
      rfl
    cases hs : savedSession with
    | none => exact hs ▸ hA (Or.inl hs)
    | some saved =>
      by_cases hticket : saved.m_ticket.length = 0
      · exact hs ▸ hA (Or.inr ⟨saved, hs, hticket⟩)
      · subst hs
        obtain ⟨reply, more, pos0, v, pos1, hin, hctor, hres, hcase⟩ :=
          Resume_inv env connection saved hticket (Or.inl hro)
        rcases hcase with hv | ⟨_, n, pos2, tag, rest, curr, _, _, _, _, hR⟩
        · refine ⟨_, ?_, Or.inr ⟨saved, reply, rfl, hticket, rfl⟩⟩
          rw [Resume_of_reply env connection saved reply more pos0 v pos1 hticket hin hctor hres,
            if_pos hv]
        · rw [hR] at hnone
          simp at hnone
  obtain ⟨first, hlog, hfirst⟩ := key
  obtain ⟨msg0s, msg0r, msg1, msg2, msg3, msg4, ticketRpc, rest, ticket, iasReport, h0, _, _, h1,
      _, h2, h4, _, _, hF⟩ := fullHandShake_inv env _ proc (Or.inl hret)
  refine ⟨first, msg0s, msg0r, msg1, msg2, msg3, msg4, ticketRpc, ?_, hfirst, h0, h1, h2, h4, ?_⟩
  · rw [hD, hF, hlog]
    simp
  · rw [hD, hF]

/-- C26, witness: the demo client without a saved session and the demo server. -/
theorem DoHandShake_message_sequence_witness :
    (ResumeSessionFromTicket demoClientEnv ⟨demoServerHandShake, []⟩ none).session = none
    ∧ (DoHandShake demoClientEnv ⟨demoServerHandShake, []⟩ (some demoProcessor) none).outcome
        = .returned
    ∧ ∃ first msg0s msg0r msg1 msg2 msg3 msg4 ticketRpc,
      (DoHandShake demoClientEnv ⟨demoServerHandShake, []⟩ (some demoProcessor)
          none).connection.log =
        [] ++ first ++
          [.SendRawAll (sgx_ra_msg0s_t.bytes msg0s), .RecvRawAll msg0r,
            .SendRawAll (sgx_ra_msg1_t.bytes msg1),
            .RecvContainer msg2, .SendContainer msg3, .RecvContainer msg4,
            .RecvContainer ticketRpc]
      ∧ ((((none : Option RaClientSession) = none
            ∨ ∃ saved, (none : Option RaClientSession) = some saved
                ∧ saved.m_ticket.length = 0)
          ∧ first = [.SendRpc (demoClientEnv.RpcWriter_GetFullBinary
              (demoClientEnv.CalcSizePrim 1) 1 none [.prim 1 0])])
        ∨ ∃ saved reply, (none : Option RaClientSession) = some saved
          ∧ saved.m_ticket.length ≠ 0
          ∧ first = [.SendRpc (hasTicketRpc demoClientEnv saved.m_ticket
                (demoClientEnv.RandStruct64 % 2 ^ 64)),
              .RecvContainer reply])
      ∧ demoProcessor.GetMsg0s = some msg0s
      ∧ demoProcessor.ProcessMsg0r msg0r = some msg1
      ∧ demoProcessor.ProcessMsg2 msg0r msg2 msg2.length = some msg3
      ∧ demoProcessor.ProcessMsg4 msg0r msg2 msg4 = some ()
      ∧ (DoHandShake demoClientEnv ⟨demoServerHandShake, []⟩ (some demoProcessor) none).calls =
          ["GetMsg0s", "ProcessMsg0r", "ProcessMsg2", "ProcessMsg4", "GetSK", "GetMK",
            "ReleaseIasReport"] :=
  ⟨by decide, by decide,
    DoHandShake_message_sequence demoClientEnv ⟨demoServerHandShake, []⟩ demoProcessor none
      (by decide) (by decide)⟩

/-! ## C28: the length of the data under the MAC of msg3 -/

/-- For a message length below the size of the MAC field the subtraction of line 201
wraps around: the length handed to the CMAC is 2^32 - 16 + msg3Len. -/
theorem mac_size_below_mac_field (msg3Len : Nat) (h : msg3Len < sizeof_sgx_mac_t) :
    mac_size msg3Len = 2 ^ 32 - 16 + msg3Len := by
  simp only [mac_size, sizeof_sgx_mac_t] at *
  omega

/-- C28, evaluation at the failing input. For msg3Len = 0 the code computes the MAC
length 2^32 - 16 = 4294967280, and for msg3Len = 15 the length 2^32 - 1: the
subtraction of line 201 wraps around and nothing compares msg3Len with the size
of the MAC field before. For msg3Len = 16 the length is 0. -/
theorem mac_size_short_length_wraps :
    sizeof_sgx_mac_t = 16
    ∧ mac_size 0 = 4294967280
    ∧ mac_size 15 = 4294967295
    ∧ mac_size 16 = 0 := by
  decide

/-! ## C29: the key length of the HMAC -/

/-- The length that the constructor hands to `mbedtls_md_hmac_starts` is eight times
the key size (modulo 2^64); it equals the key size only for an empty key. -/
theorem HMACerBase_keylen (memAtKey : Bytes) (keySize : Nat) (h : keySize < 2 ^ 64) :
    (HMACerBase.new memAtKey keySize).keylen = keySize * 8 % 2 ^ 64
    ∧ ((HMACerBase.new memAtKey keySize).keylen = keySize ↔ keySize = 0) := by
  have hk : (HMACerBase.new memAtKey keySize).keylen = keySize * 8 % 2 ^ 64 := rfl
  have e : keySize * 8 - keySize = 7 * keySize := by omega
  refine ⟨hk, ?_⟩
  rw [hk]
  constructor
  · intro h8
    have hd : 2 ^ 64 ∣ 7 * keySize := by
      have h0 : (keySize * 8 - keySize) % 2 ^ 64 = 0 :=
        Nat.sub_mod_eq_zero_of_mod_eq (by rw [h8, Nat.mod_eq_of_lt h])
      rw [e] at h0
      exact Nat.dvd_of_mod_eq_zero h0
    have hc : Nat.Coprime (2 ^ 64) 7 := by norm_num
    exact Nat.eq_zero_of_dvd_of_lt (hc.dvd_of_dvd_mul_left hd) h
  · rintro rfl
    norm_num

/-- C29, evaluation at the failing input. For a key buffer of 16 bytes the constructor
hands the length 128 to `mbedtls_md_hmac_starts`, which takes it as a number of
bytes: with other data behind the key in memory, the key used is made of the 16
bytes of the key and the 112 bytes that follow it. -/
theorem HMACerBase_keylen_in_bits :
    (HMACerBase.new demoKeyMemory 16).keylen = 128
    ∧ demoKeyMemory.length = 128
    ∧ (HMACerBase.new demoKeyMemory 16).keyUsed = demoKeyMemory
    ∧ (HMACerBase.new demoKeyMemory 16).keyUsed ≠ demoKeyMemory.take 16
    ∧ (HMACerBase.new demoKeyMemory 32).keylen = 256 := by
  decide

/-! ## C30: the signed constructors of `BigNumber` -/

theorem wrapInt64_of_range (v : Int) (hlo : -2 ^ 63 ≤ v) (hhi : v < 2 ^ 63) :
    wrapInt64 v = v := by
  have e63 : (2 : Int) ^ 63 = 9223372036854775808 := by norm_num
  have e64 : (2 : Int) ^ 64 = 18446744073709551616 := by norm_num
  simp only [wrapInt64, e63, e64] at *
  omega

theorem ofInt64_value (val : Int) (hlo : -2 ^ 63 ≤ val) (hhi : val < 2 ^ 63) :
    BigNumber.ofInt64 val = ⟨leBytes 8 val.natAbs, decide (val ≥ 0)⟩
    ∧ val.natAbs ≤ 2 ^ 63 := by
  have e63 : (2 : Int) ^ 63 = 9223372036854775808 := by norm_num
  have e64 : (2 : Int) ^ 64 = 18446744073709551616 := by norm_num
  have n63 : (2 : Nat) ^ 63 = 9223372036854775808 := by norm_num
  rw [e63] at hlo hhi
  have hmag : (if val ≥ 0 then toUInt64 val else toUInt64 (wrapInt64 (-val))) = val.natAbs := by
    by_cases h0 : val ≥ 0
    · rw [if_pos h0]
      simp only [toUInt64, e64]
      omega
    · rw [if_neg h0]
      simp only [toUInt64, wrapInt64, e63, e64]
      omega
  refine ⟨?_, by rw [n63]; omega⟩
  rw [BigNumber.ofInt64, hmag]
  rfl

/-- C30. For every value val of an `int64_t`, `BigNumber(int64_t val)` passes on a
positive sign exactly when val >= 0 and, as the eight bytes of the unsigned 64-bit
magnitude, the absolute value of val; sign and magnitude stand for the integer
val. For val = INT64_MIN = -2^63 the magnitude is 2^63 (the negation, taken in
two-complement arithmetic, gives INT64_MIN again, which the conversion to
`uint64_t` maps to 2^63). The constructors for `int32_t`, `int16_t` and `int8_t`
give the same result as the constructor for `int64_t` on the same value. -/
theorem BigNumber_ofInt64_spec (val : Int) (hlo : -2 ^ 63 ≤ val) (hhi : val < 2 ^ 63) :
    ((BigNumber.ofInt64 val).isPositive = true ↔ 0 ≤ val)
    ∧ (BigNumber.ofInt64 val).bytes = leBytes 8 val.natAbs
    ∧ (BigNumber.ofInt64 val).magnitude = val.natAbs
    ∧ (BigNumber.ofInt64 val).magnitude < 2 ^ 64
    ∧ (BigNumber.ofInt64 val).toInt = val
    ∧ (val = -2 ^ 63 → (BigNumber.ofInt64 val).magnitude = 2 ^ 63
        ∧ (BigNumber.ofInt64 val).isPositive = false)
    ∧ (-2 ^ 31 ≤ val → val < 2 ^ 31 → BigNumber.ofInt32 val = BigNumber.ofInt64 val)
    ∧ (-2 ^ 15 ≤ val → val < 2 ^ 15 → BigNumber.ofInt16 val = BigNumber.ofInt64 val)
    ∧ (-2 ^ 7 ≤ val → val < 2 ^ 7 → BigNumber.ofInt8 val = BigNumber.ofInt64 val) := by
  obtain ⟨hv, hle⟩ := ofInt64_value val hlo hhi
  have n63 : (2 : Nat) ^ 63 = 9223372036854775808 := by norm_num
  have n64 : (2 : Nat) ^ 64 = 18446744073709551616 := by norm_num
  have h256 : (256 : Nat) ^ 8 = 18446744073709551616 := by norm_num
  have hmag : (BigNumber.ofInt64 val).magnitude = val.natAbs := by
    rw [hv, BigNumber.magnitude, leValue_leBytes, h256]
    rw [n63] at hle
    omega
  have hw := wrapInt64_of_range val hlo hhi
  refine ⟨?_, by rw [hv], hmag, ?_, ?_, ?_, ?_, ?_, ?_⟩
  · rw [hv]
    simp
  · rw [hmag, n64]
    rw [n63] at hle
    omega
  · rw [BigNumber.toInt, hmag, hv]
    by_cases h0 : val ≥ 0
    · simp only [h0, decide_True, if_true]
      omega
    · simp only [h0, decide_False, Bool.false_eq_true, if_false]
      omega
  · intro hmin
    refine ⟨?_, ?_⟩
    · rw [hmag, hmin]
      norm_num
    · rw [hv, hmin]
      decide
  · intro _ _
    rw [BigNumber.ofInt32, hw]
  · intro _ _
    rw [BigNumber.ofInt16, hw]
  · intro _ _
    rw [BigNumber.ofInt8, hw]

/-- C30, witness: the constructor at INT64_MIN and at -1. -/
theorem BigNumber_ofInt64_spec_witness :
    (BigNumber.ofInt64 (-2 ^ 63)).magnitude = 2 ^ 63
    ∧ (BigNumber.ofInt64 (-2 ^ 63)).isPositive = false
    ∧ (BigNumber.ofInt64 (-2 ^ 63)).toInt = -2 ^ 63
    ∧ BigNumber.ofInt8 (-1) = BigNumber.ofInt64 (-1)
    ∧ (BigNumber.ofInt64 (-1)).toInt = -1 :=
  ⟨((BigNumber_ofInt64_spec (-2 ^ 63) (by norm_num) (by norm_num)).2.2.2.2.2.1 rfl).1,
    ((BigNumber_ofInt64_spec (-2 ^ 63) (by norm_num) (by norm_num)).2.2.2.2.2.1 rfl).2,
    (BigNumber_ofInt64_spec (-2 ^ 63) (by norm_num) (by norm_num)).2.2.2.2.1,
    (BigNumber_ofInt64_spec (-1) (by norm_num) (by norm_num)).2.2.2.2.2.2.2.2 (by norm_num)
      (by norm_num),
    (BigNumber_ofInt64_spec (-1) (by norm_num) (by norm_num)).2.2.2.2.1⟩

end Decent
